import Mathlib

/-!
# Forward-plus renderer: frame driver, command recording and resource helpers

A shallow embedding of `src/renderer/VulkanRenderer.cpp`.

* Vulkan enumerations and flag words are numbers carrying the values of `vulkan.h`.
* The renderer object is the record `Renderer`; member functions take and return it.
* Everything the renderer hands to the device (queue submissions, presents, one-shot
  command buffers) and every member function entered during a rebuild is appended to
  `Renderer.log`, so that orderings and counts can be stated.
* What the device and the window system answer during one call is the record `Env`.
* A member function that can throw returns a `Run`: the state reached and the exception,
  if one was thrown.
* The result codes that the renderer checks are inputs.  Those of acquire, submit and
  present are fields of `Env`.  Those of the object-creation calls that initialisation and a
  swapchain rebuild check are fields of `DeviceAnswers`, which the member functions take as
  their last argument; where it is left out it is `DeviceAnswers.honouring`, the device
  that honours every request.
* Calls whose failure is handled outside this file (through `vulkan.hpp`,
  `vulkan_util::checkResult` and `util::readFile`) are taken to return.
* Floating-point members (camera matrices, light positions) are carried as the bit patterns
  they are given as, or not at all; no floating-point arithmetic is modelled.
-/

namespace ForwardPlus

/-! ## Numeric conversions -/

/-- Conversion of a C++ `int` to `uint32_t`. -/
def toUInt32 (x : Int) : Nat := (x % 4294967296).toNat

/-- Conversion of a `uint32_t` value to `int` (two's complement). -/
def toInt32 (n : Nat) : Int :=
  if n % 4294967296 < 2147483648 then ((n % 4294967296 : Nat) : Int)
  else ((n % 4294967296 : Nat) : Int) - 4294967296

/-- Conversion of a C++ `int` to the 64-bit unsigned `size_t` / `VkDeviceSize`. -/
def toUInt64 (x : Int) : Nat := (x % 18446744073709551616).toNat

/-! ## Vulkan constants (values of `vulkan.h`) -/

abbrev VkResult := Int
abbrev VkImageLayout := Nat
abbrev VkFlags := Nat
abbrev VkFormat := Nat
abbrev VkPresentModeKHR := Nat

def VK_SUCCESS : VkResult := 0
def VK_SUBOPTIMAL_KHR : VkResult := 1000001003
def VK_ERROR_OUT_OF_DATE_KHR : VkResult := -1000001004
def VK_ERROR_DEVICE_LOST : VkResult := -4
def VK_ERROR_OUT_OF_DEVICE_MEMORY : VkResult := -2

def VK_IMAGE_LAYOUT_UNDEFINED : VkImageLayout := 0
def VK_IMAGE_LAYOUT_GENERAL : VkImageLayout := 1
def VK_IMAGE_LAYOUT_COLOR_ATTACHMENT_OPTIMAL : VkImageLayout := 2
def VK_IMAGE_LAYOUT_DEPTH_STENCIL_ATTACHMENT_OPTIMAL : VkImageLayout := 3
def VK_IMAGE_LAYOUT_DEPTH_STENCIL_READ_ONLY_OPTIMAL : VkImageLayout := 4
def VK_IMAGE_LAYOUT_SHADER_READ_ONLY_OPTIMAL : VkImageLayout := 5
def VK_IMAGE_LAYOUT_TRANSFER_SRC_OPTIMAL : VkImageLayout := 6
def VK_IMAGE_LAYOUT_TRANSFER_DST_OPTIMAL : VkImageLayout := 7
def VK_IMAGE_LAYOUT_PREINITIALIZED : VkImageLayout := 8
def VK_IMAGE_LAYOUT_PRESENT_SRC_KHR : VkImageLayout := 1000001002

def VK_ACCESS_SHADER_READ_BIT : VkFlags := 0x20
def VK_ACCESS_SHADER_WRITE_BIT : VkFlags := 0x40
def VK_ACCESS_DEPTH_STENCIL_ATTACHMENT_READ_BIT : VkFlags := 0x200
def VK_ACCESS_DEPTH_STENCIL_ATTACHMENT_WRITE_BIT : VkFlags := 0x400
def VK_ACCESS_TRANSFER_READ_BIT : VkFlags := 0x800
def VK_ACCESS_TRANSFER_WRITE_BIT : VkFlags := 0x1000
def VK_ACCESS_HOST_WRITE_BIT : VkFlags := 0x4000

def VK_PIPELINE_STAGE_TOP_OF_PIPE_BIT : VkFlags := 0x1
def VK_PIPELINE_STAGE_FRAGMENT_SHADER_BIT : VkFlags := 0x80
def VK_PIPELINE_STAGE_COLOR_ATTACHMENT_OUTPUT_BIT : VkFlags := 0x400
def VK_PIPELINE_STAGE_COMPUTE_SHADER_BIT : VkFlags := 0x800

def VK_IMAGE_ASPECT_COLOR_BIT : VkFlags := 0x1
def VK_IMAGE_ASPECT_DEPTH_BIT : VkFlags := 0x2

def VK_SHADER_STAGE_VERTEX_BIT : VkFlags := 0x1
def VK_SHADER_STAGE_FRAGMENT_BIT : VkFlags := 0x10
def VK_SHADER_STAGE_COMPUTE_BIT : VkFlags := 0x20

def VK_BUFFER_USAGE_TRANSFER_SRC_BIT : VkFlags := 0x1
def VK_BUFFER_USAGE_TRANSFER_DST_BIT : VkFlags := 0x2
def VK_BUFFER_USAGE_UNIFORM_BUFFER_BIT : VkFlags := 0x10
def VK_BUFFER_USAGE_STORAGE_BUFFER_BIT : VkFlags := 0x20

def VK_MEMORY_PROPERTY_DEVICE_LOCAL_BIT : VkFlags := 0x1
def VK_MEMORY_PROPERTY_HOST_VISIBLE_BIT : VkFlags := 0x2
def VK_MEMORY_PROPERTY_HOST_COHERENT_BIT : VkFlags := 0x4

def VK_IMAGE_USAGE_SAMPLED_BIT : VkFlags := 0x4
def VK_IMAGE_USAGE_DEPTH_STENCIL_ATTACHMENT_BIT : VkFlags := 0x20

def VK_COMMAND_BUFFER_USAGE_ONE_TIME_SUBMIT_BIT : VkFlags := 0x1
def VK_COMMAND_BUFFER_USAGE_SIMULTANEOUS_USE_BIT : VkFlags := 0x4

def VK_SHARING_MODE_EXCLUSIVE : Nat := 0
def VK_SHARING_MODE_CONCURRENT : Nat := 1

def VK_QUEUE_FAMILY_IGNORED : Nat := 4294967295

def VK_FORMAT_UNDEFINED : VkFormat := 0
def VK_FORMAT_B8G8R8A8_UNORM : VkFormat := 44
def VK_FORMAT_D32_SFLOAT : VkFormat := 126
def VK_FORMAT_D24_UNORM_S8_UINT : VkFormat := 129
def VK_FORMAT_D32_SFLOAT_S8_UINT : VkFormat := 130
def VK_IMAGE_TILING_OPTIMAL : Nat := 0
def VK_IMAGE_TILING_LINEAR : Nat := 1
def VK_FORMAT_FEATURE_DEPTH_STENCIL_ATTACHMENT_BIT : VkFlags := 0x200
def VK_COLOR_SPACE_SRGB_NONLINEAR_KHR : Nat := 0
def VK_PRESENT_MODE_MAILBOX_KHR : VkPresentModeKHR := 1
def VK_PRESENT_MODE_FIFO_KHR : VkPresentModeKHR := 2

/-- Upper bound of `VkPhysicalDeviceMemoryProperties::memoryTypeCount`. -/
def VK_MAX_MEMORY_TYPES : Nat := 32

/-! ## Constants of the renderer -/

def MAX_POINT_LIGHT_COUNT : Int := 1000
def MAX_POINT_LIGHT_PER_TILE : Int := 63
def TILE_SIZE : Int := 16

/-- Size in bytes of `PointLight`: vec3, float, vec3, float. -/
def sizeof_PointLight : Nat := 32

/-- Size in bytes of `_Dummy_VisibleLightsForTile`: a count and 63 indices, 4 bytes each. -/
def sizeof_Dummy_VisibleLightsForTile : Nat := 4 * (63 + 1)

/-- Size in bytes of `int`. -/
def sizeof_int : Nat := 4

/-- Size in bytes of `glm::vec4`: four floats. -/
def sizeof_vec4 : Nat := 16

/-- Size in bytes of `SceneObjectUbo`: one `glm::mat4`. -/
def sizeof_SceneObjectUbo : Nat := 64

/-- Size in bytes of `CameraUbo`: three `glm::mat4` and one `glm::vec3`. -/
def sizeof_CameraUbo : Nat := 3 * 64 + 12

/-- The timeout `std::numeric_limits<uint64_t>::max()` handed to the acquire call. -/
def ACQUIRE_NEXT_IMAGE_TIMEOUT : Nat := 18446744073709551615

/-! ## Named objects of the renderer -/

/-- The four semaphores created by `createSemaphores`. -/
inductive Semaphore where
  | image_available_semaphore
  | render_finished_semaphore
  | lightculling_completed_semaphore
  | depth_prepass_finished_semaphore
  deriving DecidableEq, Repr

/-- The three queue handles of the renderer. -/
inductive Queue where
  | graphics_queue
  | present_queue
  | compute_queue
  deriving DecidableEq, Repr

/-- Buffer members of the renderer. -/
inductive BufferId where
  | vertex_buffer
  | index_buffer
  | object_uniform_buffer
  | camera_uniform_buffer
  | pointlight_buffer
  | lights_staging_buffer
  | light_visibility_buffer
  | object_staging_buffer
  | camera_staging_buffer
  deriving DecidableEq, Repr

/-- Image members of the renderer. -/
inductive ImageId where
  | depth_image
  | pre_pass_depth_image
  | texture_image
  | normalmap_image
  deriving DecidableEq, Repr

/-- Descriptor-set members of the renderer. -/
inductive DescriptorSetId where
  | object_descriptor_set
  | camera_descriptor_set
  | light_culling_descriptor_set
  | intermediate_descriptor_set
  deriving DecidableEq, Repr

/-- Descriptor-set-layout members of the renderer. -/
inductive DescriptorSetLayoutId where
  | object_descriptor_set_layout
  | camera_descriptor_set_layout
  | light_culling_descriptor_set_layout
  | intermediate_descriptor_set_layout
  deriving DecidableEq, Repr

/-- Pipeline-layout members of the renderer. -/
inductive PipelineLayoutId where
  | pipeline_layout
  | depth_pipeline_layout
  | compute_pipeline_layout
  deriving DecidableEq, Repr

/-- Pipeline members of the renderer. -/
inductive PipelineId where
  | graphics_pipeline
  | depth_pipeline
  | compute_pipeline
  deriving DecidableEq, Repr

/-- Render-pass members of the renderer. -/
inductive RenderPassId where
  | render_pass
  | depth_pre_pass
  deriving DecidableEq, Repr

/-- Framebuffers: one per swapchain image view, and the one of the depth pre-pass. -/
inductive FramebufferId where
  | swap_chain_framebuffer (i : Nat)
  | depth_pre_pass_framebuffer
  deriving DecidableEq, Repr

/-- Pipeline bind points. -/
inductive BindPoint where
  | graphics
  | compute
  deriving DecidableEq, Repr

/-- The command buffers a frame submits, by the member that holds them. -/
inductive CommandBufferRef where
  | depth_prepass_command_buffer
  | light_culling_command_buffer
  | command_buffers (image_index : Nat)
  deriving DecidableEq, Repr

/-! ## Plain records -/

structure VkExtent2D where
  width : Nat
  height : Nat
  deriving DecidableEq, Repr

structure QueueFamilyIndices where
  graphics_family : Int := -1
  present_family : Int := -1
  compute_family : Int := -1
  deriving DecidableEq, Repr

structure PushConstantObject where
  viewport_size : Int × Int
  tile_nums : Int × Int
  debugview_index : Int := 0
  deriving DecidableEq, Repr

structure VkImageMemoryBarrier where
  srcAccessMask : VkFlags
  dstAccessMask : VkFlags
  oldLayout : VkImageLayout
  newLayout : VkImageLayout
  srcQueueFamilyIndex : Nat
  dstQueueFamilyIndex : Nat
  image : ImageId
  aspectMask : VkFlags
  baseMipLevel : Nat
  levelCount : Nat
  baseArrayLayer : Nat
  layerCount : Nat
  deriving DecidableEq, Repr

structure BufferMemoryBarrier where
  srcAccessMask : VkFlags
  dstAccessMask : VkFlags
  srcQueueFamilyIndex : Nat
  dstQueueFamilyIndex : Nat
  buffer : BufferId
  offset : Nat
  size : Nat
  deriving DecidableEq, Repr

/-- A recorded command. -/
inductive Cmd where
  | beginRenderPass (pass : RenderPassId) (framebuffer : FramebufferId)
      (renderArea : VkExtent2D) (clearValueCount : Nat)
  | endRenderPass
  | bindPipeline (bindPoint : BindPoint) (pipeline : PipelineId)
  | bindDescriptorSets (bindPoint : BindPoint) (layout : PipelineLayoutId) (firstSet : Nat)
      (sets : List DescriptorSetId)
  | bindVertexBuffers (firstBinding : Nat) (buffers : List BufferId) (offsets : List Nat)
  | bindIndexBuffer (buffer : BufferId) (offset : Nat)
  | pushConstants (layout : PipelineLayoutId) (stageFlags : VkFlags) (offset : Nat)
      (pco : PushConstantObject)
  | drawIndexed (indexCount instanceCount firstIndex vertexOffset firstInstance : Nat)
  | dispatch (x y z : Nat)
  | pipelineBarrier (srcStageMask dstStageMask : VkFlags)
      (bufferMemoryBarriers : List BufferMemoryBarrier)
      (imageMemoryBarriers : List VkImageMemoryBarrier)
  | copyBuffer (src_buffer dst_buffer : BufferId) (srcOffset dstOffset size : Nat)
  deriving DecidableEq, Repr

/-- A command buffer: the usage flags it was begun with and what was recorded. -/
structure CommandBuffer where
  flags : VkFlags
  commands : List Cmd
  deriving DecidableEq, Repr

/-! ## recordTransitImageLayout -/

/-- Model of `_VulkanRenderer_Impl::recordTransitImageLayout` (lines 2886-2964): appends
one pipeline barrier holding one image barrier, or throws `std::invalid_argument`. -/
def recordTransitImageLayout (command_buffer : List Cmd) (image : ImageId)
    (old_layout new_layout : VkImageLayout) : Except String (List Cmd) :=
  let aspectMask : VkFlags :=
    if new_layout = VK_IMAGE_LAYOUT_DEPTH_STENCIL_ATTACHMENT_OPTIMAL
        ∨ old_layout = VK_IMAGE_LAYOUT_DEPTH_STENCIL_ATTACHMENT_OPTIMAL then
      VK_IMAGE_ASPECT_DEPTH_BIT
    else
      VK_IMAGE_ASPECT_COLOR_BIT
  let masks : Option (VkFlags × VkFlags) :=
    if old_layout = VK_IMAGE_LAYOUT_PREINITIALIZED
        ∧ new_layout = VK_IMAGE_LAYOUT_TRANSFER_SRC_OPTIMAL then
      some (VK_ACCESS_HOST_WRITE_BIT, VK_ACCESS_TRANSFER_READ_BIT)
    else if old_layout = VK_IMAGE_LAYOUT_PREINITIALIZED
        ∧ new_layout = VK_IMAGE_LAYOUT_TRANSFER_DST_OPTIMAL then
      some (VK_ACCESS_HOST_WRITE_BIT, VK_ACCESS_TRANSFER_WRITE_BIT)
    else if old_layout = VK_IMAGE_LAYOUT_TRANSFER_DST_OPTIMAL
        ∧ new_layout = VK_IMAGE_LAYOUT_SHADER_READ_ONLY_OPTIMAL then
      some (VK_ACCESS_TRANSFER_WRITE_BIT, VK_ACCESS_SHADER_READ_BIT)
    else if old_layout = VK_IMAGE_LAYOUT_UNDEFINED
        ∧ new_layout = VK_IMAGE_LAYOUT_DEPTH_STENCIL_ATTACHMENT_OPTIMAL then
      some (0, VK_ACCESS_DEPTH_STENCIL_ATTACHMENT_READ_BIT
        ||| VK_ACCESS_DEPTH_STENCIL_ATTACHMENT_WRITE_BIT)
    else if old_layout = VK_IMAGE_LAYOUT_DEPTH_STENCIL_ATTACHMENT_OPTIMAL
        ∧ new_layout = VK_IMAGE_LAYOUT_SHADER_READ_ONLY_OPTIMAL then
      some (VK_ACCESS_DEPTH_STENCIL_ATTACHMENT_READ_BIT
        ||| VK_ACCESS_DEPTH_STENCIL_ATTACHMENT_WRITE_BIT, VK_ACCESS_SHADER_READ_BIT)
    else if old_layout = VK_IMAGE_LAYOUT_SHADER_READ_ONLY_OPTIMAL
        ∧ new_layout = VK_IMAGE_LAYOUT_DEPTH_STENCIL_ATTACHMENT_OPTIMAL then
      some (VK_ACCESS_SHADER_READ_BIT, VK_ACCESS_DEPTH_STENCIL_ATTACHMENT_READ_BIT
        ||| VK_ACCESS_DEPTH_STENCIL_ATTACHMENT_WRITE_BIT)
    else if old_layout = VK_IMAGE_LAYOUT_UNDEFINED
        ∧ new_layout = VK_IMAGE_LAYOUT_SHADER_READ_ONLY_OPTIMAL then
      some (0, VK_ACCESS_SHADER_READ_BIT)
    else
      none
  match masks with
  | none => .error "unsupported layout transition!"
  | some (srcAccessMask, dstAccessMask) =>
    let barrier : VkImageMemoryBarrier :=
      { srcAccessMask := srcAccessMask
        dstAccessMask := dstAccessMask
        oldLayout := old_layout
        newLayout := new_layout
        srcQueueFamilyIndex := VK_QUEUE_FAMILY_IGNORED
        dstQueueFamilyIndex := VK_QUEUE_FAMILY_IGNORED
        image := image
        aspectMask := aspectMask
        baseMipLevel := 0
        levelCount := 1
        baseArrayLayer := 0
        layerCount := 1 }
    .ok (command_buffer ++ [Cmd.pipelineBarrier VK_PIPELINE_STAGE_TOP_OF_PIPE_BIT
      VK_PIPELINE_STAGE_TOP_OF_PIPE_BIT [] [barrier]])

/-! ## findMemoryType -/

structure VkMemoryType where
  propertyFlags : VkFlags
  heapIndex : Nat := 0
  deriving DecidableEq, Repr

/-- The memory-type table reported by the physical device; entry `i` of the fixed array is
`memoryTypes.getD i _`, and only the first `memoryTypeCount` entries are read. -/
structure VkPhysicalDeviceMemoryProperties where
  memoryTypeCount : Nat
  memoryTypes : List VkMemoryType
  deriving DecidableEq, Repr

/-- Entry `i` of the memory-type array. -/
def VkPhysicalDeviceMemoryProperties.entry (m : VkPhysicalDeviceMemoryProperties)
    (i : Nat) : VkMemoryType :=
  m.memoryTypes.getD i { propertyFlags := 0 }

/-- The body of the loop of `findMemoryType` at index `i`: both tests of lines 1574-1576.
`1 << i` is an `int` converted to `uint32_t` for the `&`. -/
def findMemoryType.matches (type_filter : Nat) (properties : VkFlags)
    (memory_properties : VkPhysicalDeviceMemoryProperties) (i : Nat) : Bool :=
  let type_supported : Bool := (type_filter &&& ((1 <<< i) % 4294967296)) != 0
  let properties_supported : Bool :=
    ((memory_properties.entry i).propertyFlags &&& properties) == properties
  type_supported && properties_supported

/-- The loop `for (i = ...; i < memoryTypeCount; i++)` with `remaining` iterations left. -/
def findMemoryType.loop (type_filter : Nat) (properties : VkFlags)
    (memory_properties : VkPhysicalDeviceMemoryProperties) : Nat → Nat → Except String Nat
  | 0, _ => .error "Failed to find suitable memory type!"
  | remaining + 1, i =>
    if findMemoryType.matches type_filter properties memory_properties i then .ok i
    else findMemoryType.loop type_filter properties memory_properties remaining (i + 1)

/-- Model of `findMemoryType` (lines 1567-1583); `memory_properties` is what
`vkGetPhysicalDeviceMemoryProperties` reports for the physical device. -/
def findMemoryType (type_filter : Nat) (properties : VkFlags)
    (memory_properties : VkPhysicalDeviceMemoryProperties) : Except String Nat :=
  findMemoryType.loop type_filter properties memory_properties
    memory_properties.memoryTypeCount 0

/-! ## createBuffer -/

structure VkBufferCreateInfo where
  size : Nat
  usage : VkFlags
  sharingMode : Nat
  queueFamilyIndexCount : Nat
  pQueueFamilyIndices : List Nat
  flags : VkFlags
  deriving DecidableEq, Repr

structure VkMemoryRequirements where
  size : Nat
  memoryTypeBits : Nat
  deriving DecidableEq, Repr

/-- What the device answers to the calls made by one `createBuffer`. -/
structure BufferDevice where
  buffer_result : VkResult
  memory_req : VkMemoryRequirements
  memory_properties : VkPhysicalDeviceMemoryProperties
  memory_result : VkResult
  bind_result : VkResult
  deriving DecidableEq, Repr

/-- A buffer with its bound memory, as left in `*p_buffer` and `*p_buffer_memory`. -/
structure BufferObject where
  buffer_info : VkBufferCreateInfo
  allocationSize : Nat
  memoryTypeIndex : Nat
  deriving DecidableEq, Repr

/-- The `VkBufferCreateInfo` filled in by `createBuffer` (lines 2598-2615). -/
def createBuffer.buffer_info (size : Nat) (usage : VkFlags)
    (sharing_queue_family_index_a sharing_queue_family_index_b : Int) : VkBufferCreateInfo :=
  if sharing_queue_family_index_a ≥ 0 ∧ sharing_queue_family_index_b ≥ 0
      ∧ sharing_queue_family_index_a ≠ sharing_queue_family_index_b then
    { size := size
      usage := usage
      sharingMode := VK_SHARING_MODE_CONCURRENT
      queueFamilyIndexCount := 2
      pQueueFamilyIndices :=
        [toUInt32 sharing_queue_family_index_a, toUInt32 sharing_queue_family_index_b]
      flags := 0 }
  else
    { size := size
      usage := usage
      sharingMode := VK_SHARING_MODE_EXCLUSIVE
      queueFamilyIndexCount := 0
      pQueueFamilyIndices := []
      flags := 0 }

/-- Model of `_VulkanRenderer_Impl::createBuffer` (lines 2595-2647).  The two sharing
indices default to `-1` in the declaration (line 424). -/
def createBuffer (dev : BufferDevice) (size : Nat) (usage property_bits : VkFlags)
    (sharing_queue_family_index_a sharing_queue_family_index_b : Int) :
    Except String BufferObject :=
  let buffer_info := createBuffer.buffer_info size usage
    sharing_queue_family_index_a sharing_queue_family_index_b
  if dev.buffer_result ≠ VK_SUCCESS then
    .error "Failed to create buffer!"
  else
    match findMemoryType dev.memory_req.memoryTypeBits property_bits dev.memory_properties with
    | .error e => .error e
    | .ok memoryTypeIndex =>
      if dev.memory_result ≠ VK_SUCCESS then
        .error "Failed to allocate buffer memory!"
      else if dev.bind_result ≠ VK_SUCCESS then
        .error "Failed to bind buffer memory!"
      else
        .ok { buffer_info := buffer_info
              allocationSize := dev.memory_req.size
              memoryTypeIndex := memoryTypeIndex }

/-! ## Renderer state, device answers and the call log -/

structure VkSurfaceCapabilitiesKHR where
  minImageCount : Nat
  maxImageCount : Nat
  currentExtent : VkExtent2D
  minImageExtent : VkExtent2D
  maxImageExtent : VkExtent2D
  deriving DecidableEq, Repr

/-- An image made by `createImage` (lines 2658-2705): the fields of its
`VkImageCreateInfo` that vary or that matter here. -/
structure ImageObject where
  width : Nat
  height : Nat
  format : VkFormat
  tiling : Nat
  usage : VkFlags
  initialLayout : VkImageLayout
  deriving DecidableEq, Repr

/-- A swapchain framebuffer: the swapchain image view it attaches, and its size. -/
structure FramebufferObject where
  imageview : Nat
  width : Nat
  height : Nat
  deriving DecidableEq, Repr

structure SubmitInfo where
  waitSemaphores : List Semaphore
  waitDstStageMask : List VkFlags
  commandBuffers : List CommandBufferRef
  signalSemaphores : List Semaphore
  deriving DecidableEq, Repr

structure VkPresentInfoKHR where
  waitSemaphores : List Semaphore
  imageIndices : List Nat
  deriving DecidableEq, Repr

def VK_DESCRIPTOR_TYPE_COMBINED_IMAGE_SAMPLER : Nat := 1
def VK_DESCRIPTOR_TYPE_UNIFORM_BUFFER : Nat := 6
def VK_DESCRIPTOR_TYPE_STORAGE_BUFFER : Nat := 7

/-- One `vk::WriteDescriptorSet`; `buffer` is (buffer, offset, range) and `image` is
(image whose view is bound, layout). -/
structure WriteDescriptorSet where
  dstSet : DescriptorSetId
  dstBinding : Nat
  dstArrayElement : Nat
  descriptorCount : Nat
  descriptorType : Nat
  buffer : Option (BufferId × Nat × Nat)
  image : Option (ImageId × VkImageLayout)
  deriving DecidableEq, Repr

structure VkDescriptorSetLayoutBinding where
  binding : Nat
  descriptorType : Nat
  descriptorCount : Nat
  stageFlags : VkFlags
  deriving DecidableEq, Repr

structure VkDescriptorPoolSize where
  type : Nat
  descriptorCount : Nat
  deriving DecidableEq, Repr

structure VkDescriptorPoolCreateInfo where
  pPoolSizes : List VkDescriptorPoolSize
  maxSets : Nat
  flags : VkFlags
  deriving DecidableEq, Repr

/-- One set handed out by `vkAllocateDescriptorSets`: the member that holds it and the
layout named in `pSetLayouts`. -/
structure DescriptorSetAllocation where
  descriptor_set : DescriptorSetId
  layout : DescriptorSetLayoutId
  deriving DecidableEq, Repr

/-- A `PointLight` (position, radius, intensity, padding).  Its members are floats and are
not tracked: a light is one element of the vector `pointlights`. -/
abbrev PointLight := Unit

/-- What a `memcpy` into mapped memory reads from. -/
inductive HostData where
  /-- The local `int light_num` holding this value. -/
  | light_num (value : Int)
  /-- The array `pointlights.data()` of a vector of this many elements. -/
  | pointlights_data (count : Nat)
  /-- A local `CameraUbo`. -/
  | camera_ubo
  /-- A local `SceneObjectUbo`. -/
  | scene_object_ubo
  deriving DecidableEq, Repr

/-- Member functions whose entry is logged. -/
inductive Fn where
  | recreateSwapChain
  | createSwapChain
  | createSwapChainImageViews
  | createRenderPasses
  | createGraphicsPipelines
  | createDepthResources
  | createFrameBuffers
  | createLightVisibilityBuffer
  | updateIntermediateDescriptorSet
  | createGraphicsCommandBuffers
  | createLightCullingCommandBuffer
  | createDepthPrePassCommandBuffer
  deriving DecidableEq, Repr

/-- Entries of the call log. -/
inductive Event where
  | enter (f : Fn)
  | vkDeviceWaitIdle
  | vkAcquireNextImageKHR (timeout : Nat) (semaphore : Semaphore)
  | queueSubmit (queue : Queue) (submit_info : SubmitInfo)
  | vkQueuePresentKHR (queue : Queue) (present_info : VkPresentInfoKHR)
  | singleTimeCommands (commands : List Cmd)
  | updateDescriptorSets (descriptor_writes : List WriteDescriptorSet)
  | vkMapMemory (memory : BufferId) (offset size : Nat)
  | memcpy (memory : BufferId) (offset : Nat) (source : HostData) (size : Nat)
  | vkUnmapMemory (memory : BufferId)
  deriving DecidableEq, Repr

/-- One attachment of a render pass, tracked part: the layout the pass expects the attached
image in when it begins, and the layout it leaves the image in when it ends. -/
structure VkAttachmentDescription where
  initialLayout : VkImageLayout
  finalLayout : VkImageLayout
  deriving DecidableEq, Repr

/-- A render pass as handed to `vkCreateRenderPass`: its attachments, in order. -/
structure RenderPassObject where
  attachments : List VkAttachmentDescription
  deriving DecidableEq, Repr

/-- The tracked members of `_VulkanRenderer_Impl` and the call log. -/
structure Renderer where
  queue_family_indices : QueueFamilyIndices := {}
  swap_chain_images : List Nat := []
  swap_chain_extent : VkExtent2D := { width := 0, height := 0 }
  swap_chain_imageviews : List Nat := []
  swap_chain_framebuffers : List FramebufferObject := []
  depth_image : Option ImageObject := none
  pre_pass_depth_image : Option ImageObject := none
  command_buffers : List CommandBuffer := []
  depth_prepass_command_buffer : Option CommandBuffer := none
  light_culling_command_buffer : Option CommandBuffer := none
  vertex_indices : List Nat := []
  pointlight_buffer_size : Nat := 0
  light_visibility_buffer : Option VkBufferCreateInfo := none
  light_visibility_buffer_size : Nat := 0
  window_framebuffer_width : Int := 0
  window_framebuffer_height : Int := 0
  tile_count_per_row : Int := 0
  tile_count_per_col : Int := 0
  debug_view_index : Int := 0
  log : List Event := []
  /-- The bindings each descriptor set layout was created with. -/
  object_descriptor_set_layout : List VkDescriptorSetLayoutBinding := []
  camera_descriptor_set_layout : List VkDescriptorSetLayoutBinding := []
  light_culling_descriptor_set_layout : List VkDescriptorSetLayoutBinding := []
  intermediate_descriptor_set_layout : List VkDescriptorSetLayoutBinding := []
  /-- The `pSetLayouts` each pipeline layout was created with. -/
  pipeline_layout : List DescriptorSetLayoutId := []
  depth_pipeline_layout : List DescriptorSetLayoutId := []
  compute_pipeline_layout : List DescriptorSetLayoutId := []
  descriptor_pool : Option VkDescriptorPoolCreateInfo := none
  /-- The sets allocated from `descriptor_pool`, in order; none is ever freed. -/
  allocated_descriptor_sets : List DescriptorSetAllocation := []
  camera_uniform_buffer : Option VkBufferCreateInfo := none
  pointlight_buffer : Option VkBufferCreateInfo := none
  lights_staging_buffer : Option VkBufferCreateInfo := none
  pointlights : List PointLight := []
  /-- The bit patterns of the floats of `view_matrix` and of `cam_pos`. -/
  view_matrix : List Nat := []
  cam_pos : List Nat := []
  /-- The two render passes, as `createRenderPasses` created them. -/
  depth_pre_pass : Option RenderPassObject := none
  render_pass : Option RenderPassObject := none
  deriving DecidableEq, Repr

/-- What the device and the window system answer during one call into the renderer. -/
structure Env where
  /-- Answer of `vkGetPhysicalDeviceSurfaceCapabilitiesKHR`. -/
  capabilities : VkSurfaceCapabilitiesKHR
  /-- Image count reported by `vkGetSwapchainImagesKHR`. -/
  image_count : Nat
  /-- Result code and image index of `vkAcquireNextImageKHR`. -/
  aquiring_result : VkResult
  image_index : Nat
  /-- Result of `graphics_queue.submit` for the depth pre-pass. -/
  depth_prepass_submit_result : VkResult
  /-- Result of `compute_queue.submit` for the light culling. -/
  light_culling_submit_result : VkResult
  /-- Result of `vkQueueSubmit` for the forward pass. -/
  submit_result : VkResult
  /-- Result of `vkQueuePresentKHR`. -/
  present_result : VkResult
  /-- Width reported by `glfwGetFramebufferSize`. -/
  framebuffer_width : Int
  /-- Height reported by `glfwGetFramebufferSize`. -/
  framebuffer_height : Int
  deriving DecidableEq, Repr

/-- Outcome of a member function that may throw: the state reached, and the exception. -/
structure Run where
  state : Renderer
  error : Option String
  deriving DecidableEq, Repr

def Run.ok (r : Renderer) : Run := { state := r, error := none }

def Run.throw (r : Renderer) (what : String) : Run := { state := r, error := some what }

/-- Sequencing: the next statement runs only if no exception is pending. -/
def Run.bind (x : Run) (f : Renderer → Run) : Run :=
  match x.error with
  | none => f x.state
  | some _ => x

def Renderer.logEvent (r : Renderer) (e : Event) : Renderer :=
  { r with log := r.log ++ [e] }

/-! ## Device answers to creation requests -/

/-- The statement `if (result != VK_SUCCESS) throw std::runtime_error(what);`. -/
def throwUnlessSuccess (result : VkResult) (what : String) (r : Renderer) : Run :=
  if result ≠ VK_SUCCESS then Run.throw r what else Run.ok r

/-- A call, made in state `r`, of a helper that returns a value or throws: the exception
leaves the calling function, the value goes to the statements that follow. -/
def Run.call {α : Type} (x : Except String α) (r : Renderer) (next : α → Run) : Run :=
  match x with
  | .error what => Run.throw r what
  | .ok value => next value

/-- Answer of `vkGetPhysicalDeviceFormatProperties` for one format. -/
structure VkFormatProperties where
  linearTilingFeatures : VkFlags
  optimalTilingFeatures : VkFlags
  deriving DecidableEq, Repr

/-- What the device answers to the calls made by one `createImage`. -/
structure ImageDevice where
  image_result : VkResult
  memory_req : VkMemoryRequirements
  memory_properties : VkPhysicalDeviceMemoryProperties
  memory_result : VkResult
  deriving DecidableEq, Repr

/-- The shader modules the renderer creates, by the file their code is read from. -/
inductive Shader where
  | forwardplus_vert
  | forwardplus_frag
  | depth_vert
  | light_culling_comp
  deriving DecidableEq, Repr

/-- A memory-type table with a device-local type 0 and a host-visible, coherent type 1. -/
def twoTypeMemoryProperties : VkPhysicalDeviceMemoryProperties :=
  { memoryTypeCount := 2
    memoryTypes :=
      [ { propertyFlags := VK_MEMORY_PROPERTY_DEVICE_LOCAL_BIT },
        { propertyFlags :=
            VK_MEMORY_PROPERTY_HOST_VISIBLE_BIT ||| VK_MEMORY_PROPERTY_HOST_COHERENT_BIT } ] }

/-- Answers of a device that creates a buffer, offers both memory types of
`twoTypeMemoryProperties` for it, allocates the memory and binds it. -/
def BufferDevice.honouring : BufferDevice :=
  { buffer_result := VK_SUCCESS
    memory_req := { size := 0, memoryTypeBits := 3 }
    memory_properties := twoTypeMemoryProperties
    memory_result := VK_SUCCESS
    bind_result := VK_SUCCESS }

/-- Answers of a device that creates an image, offers both memory types of
`twoTypeMemoryProperties` for it and allocates the memory. -/
def ImageDevice.honouring : ImageDevice :=
  { image_result := VK_SUCCESS
    memory_req := { size := 0, memoryTypeBits := 3 }
    memory_properties := twoTypeMemoryProperties
    memory_result := VK_SUCCESS }

/-- What the device, the loader and the window system answer to the creation requests that
initialisation and a swapchain rebuild make through the checked calls of this file.  Each
field is named after the call it answers; the default of every field is the answer of a
device that honours the request. -/
structure DeviceAnswers where
  /-- Answer of `checkValidationLayerSupport` (line 571). -/
  checkValidationLayerSupport : Bool := true
  /-- Result of `vkCreateInstance` (line 630). -/
  vkCreateInstance : VkResult := VK_SUCCESS
  /-- Result of `CreateDebugReportCallbackEXT` (line 698). -/
  CreateDebugReportCallbackEXT : VkResult := VK_SUCCESS
  /-- Result of `glfwCreateWindowSurface` (line 561). -/
  glfwCreateWindowSurface : VkResult := VK_SUCCESS
  /-- Result of `vkCreateDevice` (line 843). -/
  vkCreateDevice : VkResult := VK_SUCCESS
  /-- Result of `vkCreateSwapchainKHR` (line 907). -/
  vkCreateSwapchainKHR : VkResult := VK_SUCCESS
  /-- Result of `vkCreateImageView` for the view of swapchain image `i` (line 931). -/
  vkCreateImageView_swap_chain : Nat → VkResult := fun _ => VK_SUCCESS
  /-- Answer of `vkGetPhysicalDeviceFormatProperties` (line 2580). -/
  format_properties : VkFormat → VkFormatProperties := fun _ =>
    { linearTilingFeatures := 0
      optimalTilingFeatures := VK_FORMAT_FEATURE_DEPTH_STENCIL_ATTACHMENT_BIT }
  /-- Result of `vkCreateRenderPass` for each of the two passes (lines 979 and 1048). -/
  vkCreateRenderPass : RenderPassId → VkResult := fun _ => VK_SUCCESS
  /-- Result of `vkCreateDescriptorSetLayout` for the object layout (line 1093) and for the
  light-culling layout (line 1155). -/
  vkCreateDescriptorSetLayout : DescriptorSetLayoutId → VkResult := fun _ => VK_SUCCESS
  /-- Result of `vkCreateShaderModule` (line 2512). -/
  vkCreateShaderModule : Shader → VkResult := fun _ => VK_SUCCESS
  /-- Result of `vkCreatePipelineLayout` for `pipeline_layout` (line 1336). -/
  vkCreatePipelineLayout : VkResult := VK_SUCCESS
  /-- Result of `vkCreateGraphicsPipelines` for `graphics_pipeline` (line 1363). -/
  vkCreateGraphicsPipelines : VkResult := VK_SUCCESS
  /-- Result of `vkCreateCommandPool` (line 1496). -/
  vkCreateCommandPool : VkResult := VK_SUCCESS
  /-- Answers to the calls of `createImage` for one image member. -/
  image_device : ImageId → ImageDevice := fun _ => ImageDevice.honouring
  /-- Result of `vkCreateImageView` for the view of one image member (line 2745). -/
  vkCreateImageView : ImageId → VkResult := fun _ => VK_SUCCESS
  /-- Result of `vkCreateFramebuffer` for swapchain framebuffer `i` (line 1454). -/
  vkCreateFramebuffer : Nat → VkResult := fun _ => VK_SUCCESS
  /-- Result of `vkCreateSampler` (line 1561). -/
  vkCreateSampler : VkResult := VK_SUCCESS
  /-- Answers to the calls of `createBuffer` for one buffer member. -/
  buffer_device : BufferId → BufferDevice := fun _ => BufferDevice.honouring
  /-- Result of `vkCreateDescriptorPool` (line 1744). -/
  vkCreateDescriptorPool : VkResult := VK_SUCCESS
  /-- Result of `vkAllocateDescriptorSets` for the object set (line 1760). -/
  vkAllocateDescriptorSets : VkResult := VK_SUCCESS
  /-- Result of `vkAllocateCommandBuffers` for the forward command buffers (line 1986). -/
  vkAllocateCommandBuffers : VkResult := VK_SUCCESS
  /-- Result of `vkEndCommandBuffer` for forward command buffer `i` (line 2050). -/
  vkEndCommandBuffer : Nat → VkResult := fun _ => VK_SUCCESS

/-- The answers of a device that honours every creation request. -/
def DeviceAnswers.honouring : DeviceAnswers := {}

/-- Model of `findSupportedFormat` (lines 2574-2593); `format_properties` is what
`vkGetPhysicalDeviceFormatProperties` reports. -/
def findSupportedFormat (format_properties : VkFormat → VkFormatProperties) :
    List VkFormat → Nat → VkFlags → Except String VkFormat
  | [], _, _ => .error "Failed to find supported format!"
  | format :: candidates, tiling, features =>
    let props := format_properties format
    if tiling = VK_IMAGE_TILING_LINEAR ∧ props.linearTilingFeatures &&& features = features then
      .ok format
    else if tiling = VK_IMAGE_TILING_OPTIMAL
        ∧ props.optimalTilingFeatures &&& features = features then
      .ok format
    else
      findSupportedFormat format_properties candidates tiling features

/-- Model of `findDepthFormat` (lines 415-422). -/
def findDepthFormat (format_properties : VkFormat → VkFormatProperties) :
    Except String VkFormat :=
  findSupportedFormat format_properties
    [VK_FORMAT_D32_SFLOAT, VK_FORMAT_D32_SFLOAT_S8_UINT, VK_FORMAT_D24_UNORM_S8_UINT]
    VK_IMAGE_TILING_OPTIMAL VK_FORMAT_FEATURE_DEPTH_STENCIL_ATTACHMENT_BIT

/-- Model of `createImage` (lines 2658-2705).  Whatever the image is for, it is created with
`initialLayout = VK_IMAGE_LAYOUT_PREINITIALIZED` (line 2675).  The result of
`vkBindImageMemory` is not consulted by the source. -/
def createImage (dev : ImageDevice) (image_width image_height : Nat) (format : VkFormat)
    (tiling : Nat) (usage memory_properties : VkFlags) : Except String ImageObject :=
  if dev.image_result ≠ VK_SUCCESS then
    .error "failed to create image!"
  else
    match findMemoryType dev.memory_req.memoryTypeBits memory_properties
        dev.memory_properties with
    | .error e => .error e
    | .ok _memoryTypeIndex =>
      if dev.memory_result ≠ VK_SUCCESS then
        .error "failed to allocate image memory!"
      else
        .ok { width := image_width
              height := image_height
              format := format
              tiling := tiling
              usage := usage
              initialLayout := VK_IMAGE_LAYOUT_PREINITIALIZED }

/-- Model of `createImageView` (lines 2725-2749), for the result code `result` of
`vkCreateImageView`. -/
def createImageView (result : VkResult) : Except String Unit :=
  if result ≠ VK_SUCCESS then .error "failed to create image view!" else .ok ()

/-- Model of `createShaderModule` (lines 2505-2517), for the result code `result` of
`vkCreateShaderModule`. -/
def createShaderModule (result : VkResult) : Except String Unit :=
  if result ≠ VK_SUCCESS then .error "failed to create shader module!" else .ok ()

/-! ## Swapchain rebuild -/

/-- Model of `_VulkanRenderer_Impl::chooseSwapExtent` (lines 2554-2572); all arithmetic is
on `uint32_t`. -/
def chooseSwapExtent (r : Renderer) (capabilities : VkSurfaceCapabilitiesKHR) : VkExtent2D :=
  if capabilities.currentExtent.width ≠ 4294967295 then
    capabilities.currentExtent
  else
    let actual_extent : VkExtent2D :=
      { width := toUInt32 r.window_framebuffer_width
        height := toUInt32 r.window_framebuffer_height }
    { width := max capabilities.minImageExtent.width
        (min capabilities.maxImageExtent.width actual_extent.width)
      height := max capabilities.minImageExtent.height
        (min capabilities.maxImageExtent.height actual_extent.height) }

/-- Model of `createSwapChain` (lines 856-921), tracked part: the extent chosen, the check
of `vkCreateSwapchainKHR`, and the images the new swapchain reports. -/
def createSwapChain (env : Env) (r : Renderer)
    (answers : DeviceAnswers := DeviceAnswers.honouring) : Run :=
  let r := r.logEvent (.enter .createSwapChain)
  let extent := chooseSwapExtent r env.capabilities
  (throwUnlessSuccess answers.vkCreateSwapchainKHR "Failed to create swap chain!" r).bind
    fun r =>
  Run.ok { r with
    swap_chain_images := List.range env.image_count
    swap_chain_extent := extent }

/-- The loop of `createSwapChainImageViews` (lines 928-932) from image number `i` on: each
pass appends a view to `swap_chain_imageviews` and then creates it.  Yields the views held
when the loop is left, and the exception if one was thrown. -/
def createSwapChainImageViews.loop (answers : DeviceAnswers) :
    List Nat → Nat → List Nat → List Nat × Option String
  | [], _, swap_chain_imageviews => (swap_chain_imageviews, none)
  | image :: rest, i, swap_chain_imageviews =>
    let swap_chain_imageviews := swap_chain_imageviews ++ [image]
    match createImageView (answers.vkCreateImageView_swap_chain i) with
    | .error what => (swap_chain_imageviews, some what)
    | .ok _ => createSwapChainImageViews.loop answers rest (i + 1) swap_chain_imageviews

/-- Model of `createSwapChainImageViews` (lines 923-933): one view per swapchain image. -/
def createSwapChainImageViews (r : Renderer)
    (answers : DeviceAnswers := DeviceAnswers.honouring) : Run :=
  let r := r.logEvent (.enter .createSwapChainImageViews)
  let result := createSwapChainImageViews.loop answers r.swap_chain_images 0 []
  { state := { r with swap_chain_imageviews := result.1 }, error := result.2 }

/-- Model of `createRenderPasses` (lines 935-1053), tracked part: the initial and the final
layout of every attachment of the two passes, the two calls of `findDepthFormat` and the
two checks of `vkCreateRenderPass`. -/
def createRenderPasses (r : Renderer) (answers : DeviceAnswers := DeviceAnswers.honouring) : Run :=
  let r := r.logEvent (.enter .createRenderPasses)
  -- depth pre pass
  Run.call (findDepthFormat answers.format_properties) r fun _format =>
  let depth_attachment : VkAttachmentDescription :=
    { initialLayout := VK_IMAGE_LAYOUT_DEPTH_STENCIL_ATTACHMENT_OPTIMAL
      finalLayout := VK_IMAGE_LAYOUT_SHADER_READ_ONLY_OPTIMAL }
  (throwUnlessSuccess (answers.vkCreateRenderPass .depth_pre_pass)
    "failed to create depth pre-pass!" r).bind fun r =>
  let r := { r with depth_pre_pass := some { attachments := [depth_attachment] } }
  -- the render pass
  let color_attachment : VkAttachmentDescription :=
    { initialLayout := VK_IMAGE_LAYOUT_UNDEFINED
      finalLayout := VK_IMAGE_LAYOUT_PRESENT_SRC_KHR }
  Run.call (findDepthFormat answers.format_properties) r fun _format =>
  let depth_attachment : VkAttachmentDescription :=
    { initialLayout := VK_IMAGE_LAYOUT_DEPTH_STENCIL_ATTACHMENT_OPTIMAL
      finalLayout := VK_IMAGE_LAYOUT_DEPTH_STENCIL_ATTACHMENT_OPTIMAL }
  (throwUnlessSuccess (answers.vkCreateRenderPass .render_pass)
    "failed to create render pass!" r).bind fun r =>
  Run.ok { r with render_pass := some { attachments := [color_attachment, depth_attachment] } }

/-- Model of `createGraphicsPipelines` (lines 1190-1430), tracked part: the set layouts the
two pipeline layouts are created with (lines 1329 and 1384) and the checked creations.  The
depth pipeline layout and the depth pipeline are created through `vulkan.hpp`. -/
def createGraphicsPipelines (r : Renderer)
    (answers : DeviceAnswers := DeviceAnswers.honouring) : Run :=
  let r := r.logEvent (.enter .createGraphicsPipelines)
  -- create graphics pipeline
  Run.call (createShaderModule (answers.vkCreateShaderModule .forwardplus_vert)) r fun _ =>
  Run.call (createShaderModule (answers.vkCreateShaderModule .forwardplus_frag)) r fun _ =>
  (throwUnlessSuccess answers.vkCreatePipelineLayout "failed to create pipeline layout!" r).bind
    fun r =>
  let r := { r with
    pipeline_layout :=
      [ .object_descriptor_set_layout, .camera_descriptor_set_layout,
        .light_culling_descriptor_set_layout, .intermediate_descriptor_set_layout ] }
  (throwUnlessSuccess answers.vkCreateGraphicsPipelines "failed to create graphics pipeline!"
    r).bind fun r =>
  -- create depth pipeline
  Run.call (createShaderModule (answers.vkCreateShaderModule .depth_vert)) r fun _ =>
  Run.ok { r with
    depth_pipeline_layout :=
      [ .object_descriptor_set_layout, .camera_descriptor_set_layout ] }

/-- Model of `transitImageLayout` (lines 2716-2723): a one-shot command buffer holding the
transition, submitted to the graphics queue and waited for. -/
def transitImageLayout (image : ImageId) (old_layout new_layout : VkImageLayout)
    (r : Renderer) : Run :=
  match recordTransitImageLayout [] image old_layout new_layout with
  | .error what => Run.throw r what
  | .ok commands => Run.ok (r.logEvent (.singleTimeCommands commands))

/-- Model of `createDepthResources` (lines 1503-1527). -/
def createDepthResources (r : Renderer)
    (answers : DeviceAnswers := DeviceAnswers.honouring) : Run :=
  let r := r.logEvent (.enter .createDepthResources)
  Run.call (findDepthFormat answers.format_properties) r fun depth_format =>
  Run.call (createImage (answers.image_device .depth_image) r.swap_chain_extent.width
    r.swap_chain_extent.height depth_format VK_IMAGE_TILING_OPTIMAL
    VK_IMAGE_USAGE_DEPTH_STENCIL_ATTACHMENT_BIT VK_MEMORY_PROPERTY_DEVICE_LOCAL_BIT) r
    fun depth_image =>
  let r := { r with depth_image := some depth_image }
  Run.call (createImageView (answers.vkCreateImageView .depth_image)) r fun _ =>
  (transitImageLayout .depth_image VK_IMAGE_LAYOUT_UNDEFINED
      VK_IMAGE_LAYOUT_DEPTH_STENCIL_ATTACHMENT_OPTIMAL r).bind fun r =>
  -- for depth pre pass and output as texture
  Run.call (createImage (answers.image_device .pre_pass_depth_image) r.swap_chain_extent.width
    r.swap_chain_extent.height depth_format VK_IMAGE_TILING_OPTIMAL
    (VK_IMAGE_USAGE_DEPTH_STENCIL_ATTACHMENT_BIT ||| VK_IMAGE_USAGE_SAMPLED_BIT)
    VK_MEMORY_PROPERTY_DEVICE_LOCAL_BIT) r fun pre_pass_depth_image =>
  let r := { r with pre_pass_depth_image := some pre_pass_depth_image }
  Run.call (createImageView (answers.vkCreateImageView .pre_pass_depth_image)) r fun _ =>
  transitImageLayout .pre_pass_depth_image VK_IMAGE_LAYOUT_UNDEFINED
    VK_IMAGE_LAYOUT_DEPTH_STENCIL_ATTACHMENT_OPTIMAL r

/-- The loop of `createFrameBuffers` (lines 1440-1459) from image view number `i` on: each
pass appends a framebuffer to `swap_chain_framebuffers` and then creates it for the view and
the current extent.  Yields the framebuffers held when the loop is left, and the exception
if one was thrown. -/
def createFrameBuffers.loop (r : Renderer) (answers : DeviceAnswers) :
    List Nat → Nat → List FramebufferObject → List FramebufferObject × Option String
  | [], _, swap_chain_framebuffers => (swap_chain_framebuffers, none)
  | view :: rest, i, swap_chain_framebuffers =>
    let swap_chain_framebuffers := swap_chain_framebuffers ++
      [ { imageview := view
          width := r.swap_chain_extent.width
          height := r.swap_chain_extent.height } ]
    if answers.vkCreateFramebuffer i ≠ VK_SUCCESS then
      (swap_chain_framebuffers, some "Failed to create framebuffer!")
    else
      createFrameBuffers.loop r answers rest (i + 1) swap_chain_framebuffers

/-- Model of `createFrameBuffers` (lines 1432-1483): one framebuffer per image view.  The
framebuffer of the depth pre-pass is created through `vulkan.hpp`. -/
def createFrameBuffers (r : Renderer) (answers : DeviceAnswers := DeviceAnswers.honouring) : Run :=
  let r := r.logEvent (.enter .createFrameBuffers)
  let result := createFrameBuffers.loop r answers r.swap_chain_imageviews 0 []
  { state := { r with swap_chain_framebuffers := result.1 }, error := result.2 }

/-- The tile count along one axis computed at lines 2176-2177:
`(extent - 1) / TILE_SIZE + 1` in `uint32_t`, stored into an `int`. -/
def tileCount (extent : Nat) : Int :=
  toInt32 ((((extent + 4294967296 - 1) % 4294967296) / toUInt32 TILE_SIZE + 1) % 4294967296)

/-- Model of `createLightVisibilityBuffer` (lines 2172-2233). -/
def createLightVisibilityBuffer (r : Renderer)
    (answers : DeviceAnswers := DeviceAnswers.honouring) : Run :=
  let r := r.logEvent (.enter .createLightVisibilityBuffer)
  let tile_count_per_row := tileCount r.swap_chain_extent.width
  let tile_count_per_col := tileCount r.swap_chain_extent.height
  let light_visibility_buffer_size :=
    (((sizeof_Dummy_VisibleLightsForTile * toUInt64 tile_count_per_row)
      % 18446744073709551616) * toUInt64 tile_count_per_col) % 18446744073709551616
  let r := { r with
    tile_count_per_row := tile_count_per_row
    tile_count_per_col := tile_count_per_col
    light_visibility_buffer_size := light_visibility_buffer_size }
  Run.call (createBuffer (answers.buffer_device .light_visibility_buffer)
    r.light_visibility_buffer_size VK_BUFFER_USAGE_STORAGE_BUFFER_BIT
    VK_MEMORY_PROPERTY_DEVICE_LOCAL_BIT (-1) (-1)) r fun light_visibility_buffer =>
  let r := { r with light_visibility_buffer := some light_visibility_buffer.buffer_info }
  Run.ok (r.logEvent (.updateDescriptorSets
    [ { dstSet := .light_culling_descriptor_set
        dstBinding := 0
        dstArrayElement := 0
        descriptorCount := 1
        descriptorType := VK_DESCRIPTOR_TYPE_STORAGE_BUFFER
        buffer := some (.light_visibility_buffer, 0, r.light_visibility_buffer_size)
        image := none },
      { dstSet := .light_culling_descriptor_set
        dstBinding := 1
        dstArrayElement := 0
        descriptorCount := 1
        descriptorType := VK_DESCRIPTOR_TYPE_STORAGE_BUFFER
        buffer := some (.pointlight_buffer, 0, r.pointlight_buffer_size)
        image := none } ]))

/-- Model of `updateIntermediateDescriptorSet` (lines 1878-1904). -/
def updateIntermediateDescriptorSet (r : Renderer) : Run :=
  let r := r.logEvent (.enter .updateIntermediateDescriptorSet)
  Run.ok (r.logEvent (.updateDescriptorSets
    [ { dstSet := .intermediate_descriptor_set
        dstBinding := 0
        dstArrayElement := 0
        descriptorCount := 1
        descriptorType := VK_DESCRIPTOR_TYPE_COMBINED_IMAGE_SAMPLER
        buffer := none
        image := some (.pre_pass_depth_image, VK_IMAGE_LAYOUT_SHADER_READ_ONLY_OPTIMAL) } ]))

/-! ## Command recording -/

/-- The commands recorded into `command_buffers[i]` inside the render-pass block of
`createGraphicsCommandBuffers`, up to and including `vkCmdEndRenderPass` (lines 2003-2045). -/
def createGraphicsCommandBuffers.renderPassCommands (r : Renderer) (i : Nat) : List Cmd :=
  let pco : PushConstantObject :=
    { viewport_size := (toInt32 r.swap_chain_extent.width, toInt32 r.swap_chain_extent.height)
      tile_nums := (r.tile_count_per_row, r.tile_count_per_col)
      debugview_index := r.debug_view_index }
  [ .beginRenderPass .render_pass (.swap_chain_framebuffer i) r.swap_chain_extent 2,
    .pushConstants .pipeline_layout VK_SHADER_STAGE_FRAGMENT_BIT 0 pco,
    .bindPipeline .graphics .graphics_pipeline,
    .bindVertexBuffers 0 [.vertex_buffer] [0],
    .bindIndexBuffer .index_buffer 0,
    .bindDescriptorSets .graphics .pipeline_layout 0
      [ .object_descriptor_set, .camera_descriptor_set, .light_culling_descriptor_set,
        .intermediate_descriptor_set ],
    .drawIndexed (r.vertex_indices.length % 4294967296) 1 0 0 0,
    .endRenderPass ]

/-- Recording of `command_buffers[i]`: the body of the loop at lines 1993-2055, which ends
with the check of `vkEndCommandBuffer`. -/
def createGraphicsCommandBuffers.record (r : Renderer) (i : Nat)
    (answers : DeviceAnswers := DeviceAnswers.honouring) : Except String CommandBuffer :=
  match recordTransitImageLayout (createGraphicsCommandBuffers.renderPassCommands r i)
      .pre_pass_depth_image VK_IMAGE_LAYOUT_SHADER_READ_ONLY_OPTIMAL
      VK_IMAGE_LAYOUT_DEPTH_STENCIL_ATTACHMENT_OPTIMAL with
  | .error what => .error what
  | .ok commands =>
    if answers.vkEndCommandBuffer i ≠ VK_SUCCESS then
      .error "Failed to record command buffer!"
    else
      .ok { flags := VK_COMMAND_BUFFER_USAGE_SIMULTANEOUS_USE_BIT, commands := commands }

/-- The loop `for (i = ...; i < command_buffers.size(); i++)` with `remaining` iterations
left; yields the buffers recorded from index `i` on. -/
def createGraphicsCommandBuffers.loop (r : Renderer) (answers : DeviceAnswers) :
    Nat → Nat → Except String (List CommandBuffer)
  | 0, _ => .ok []
  | remaining + 1, i =>
    match createGraphicsCommandBuffers.record r i answers with
    | .error what => .error what
    | .ok command_buffer =>
      match createGraphicsCommandBuffers.loop r answers remaining (i + 1) with
      | .error what => .error what
      | .ok rest => .ok (command_buffer :: rest)

/-- Model of `createGraphicsCommandBuffers` (lines 1968-2056): one command buffer per
swapchain framebuffer.  `command_buffers` holds what was recorded; it is assigned once every
recording has ended, so a call that throws leaves it as it was. -/
def createGraphicsCommandBuffers (r : Renderer)
    (answers : DeviceAnswers := DeviceAnswers.honouring) : Run :=
  let r := r.logEvent (.enter .createGraphicsCommandBuffers)
  (throwUnlessSuccess answers.vkAllocateCommandBuffers "failed to allocate command buffers!"
    r).bind fun r =>
  -- record command buffers
  Run.call (createGraphicsCommandBuffers.loop r answers r.swap_chain_framebuffers.length 0) r
    fun command_buffers =>
  Run.ok { r with command_buffers := command_buffers }

/-- The two buffer barriers `barriers_before` of `createLightCullingCommandBuffer`
(lines 2270-2290). -/
def createLightCullingCommandBuffer.barriers_before (r : Renderer) : List BufferMemoryBarrier :=
  [ { srcAccessMask := VK_ACCESS_SHADER_READ_BIT
      dstAccessMask := VK_ACCESS_SHADER_WRITE_BIT
      srcQueueFamilyIndex := toUInt32 r.queue_family_indices.graphics_family
      dstQueueFamilyIndex := toUInt32 r.queue_family_indices.compute_family
      buffer := .light_visibility_buffer
      offset := 0
      size := r.light_visibility_buffer_size },
    { srcAccessMask := VK_ACCESS_SHADER_READ_BIT
      dstAccessMask := VK_ACCESS_SHADER_WRITE_BIT
      srcQueueFamilyIndex := toUInt32 r.queue_family_indices.graphics_family
      dstQueueFamilyIndex := toUInt32 r.queue_family_indices.compute_family
      buffer := .pointlight_buffer
      offset := 0
      size := r.pointlight_buffer_size } ]

/-- The two buffer barriers `barriers_after` of `createLightCullingCommandBuffer`
(lines 2321-2341). -/
def createLightCullingCommandBuffer.barriers_after (r : Renderer) : List BufferMemoryBarrier :=
  [ { srcAccessMask := VK_ACCESS_SHADER_WRITE_BIT
      dstAccessMask := VK_ACCESS_SHADER_READ_BIT
      srcQueueFamilyIndex := toUInt32 r.queue_family_indices.compute_family
      dstQueueFamilyIndex := toUInt32 r.queue_family_indices.graphics_family
      buffer := .light_visibility_buffer
      offset := 0
      size := r.light_visibility_buffer_size },
    { srcAccessMask := VK_ACCESS_SHADER_WRITE_BIT
      dstAccessMask := VK_ACCESS_SHADER_READ_BIT
      srcQueueFamilyIndex := toUInt32 r.queue_family_indices.compute_family
      dstQueueFamilyIndex := toUInt32 r.queue_family_indices.graphics_family
      buffer := .pointlight_buffer
      offset := 0
      size := r.pointlight_buffer_size } ]

/-- The commands recorded by `createLightCullingCommandBuffer` (lines 2265-2352). -/
def createLightCullingCommandBuffer.commands (r : Renderer) : List Cmd :=
  let pco : PushConstantObject :=
    { viewport_size := (toInt32 r.swap_chain_extent.width, toInt32 r.swap_chain_extent.height)
      tile_nums := (r.tile_count_per_row, r.tile_count_per_col)
      debugview_index := 0 }
  [ .pipelineBarrier VK_PIPELINE_STAGE_FRAGMENT_SHADER_BIT VK_PIPELINE_STAGE_COMPUTE_SHADER_BIT
      (createLightCullingCommandBuffer.barriers_before r) [],
    .bindDescriptorSets .compute .compute_pipeline_layout 0
      [ .light_culling_descriptor_set, .camera_descriptor_set, .intermediate_descriptor_set ],
    .pushConstants .compute_pipeline_layout VK_SHADER_STAGE_COMPUTE_BIT 0 pco,
    .bindPipeline .compute .compute_pipeline,
    .dispatch (toUInt32 r.tile_count_per_row) (toUInt32 r.tile_count_per_col) 1,
    .pipelineBarrier VK_PIPELINE_STAGE_COMPUTE_SHADER_BIT VK_PIPELINE_STAGE_FRAGMENT_SHADER_BIT
      (createLightCullingCommandBuffer.barriers_after r) [] ]

/-- Model of `createLightCullingCommandBuffer` (lines 2235-2354). -/
def createLightCullingCommandBuffer (r : Renderer) : Run :=
  let r := r.logEvent (.enter .createLightCullingCommandBuffer)
  Run.ok { r with
    light_culling_command_buffer := some
      { flags := VK_COMMAND_BUFFER_USAGE_SIMULTANEOUS_USE_BIT
        commands := createLightCullingCommandBuffer.commands r } }

/-- The commands recorded by `createDepthPrePassCommandBuffer` (lines 1935-1962). -/
def createDepthPrePassCommandBuffer.commands (r : Renderer) : List Cmd :=
  [ .beginRenderPass .depth_pre_pass .depth_pre_pass_framebuffer r.swap_chain_extent 1,
    .bindPipeline .graphics .depth_pipeline,
    .bindDescriptorSets .graphics .depth_pipeline_layout 0
      [ .object_descriptor_set, .camera_descriptor_set ],
    .bindVertexBuffers 0 [.vertex_buffer] [0],
    .bindIndexBuffer .index_buffer 0,
    .drawIndexed (r.vertex_indices.length % 4294967296) 1 0 0 0,
    .endRenderPass ]

/-- Model of `createDepthPrePassCommandBuffer` (lines 1906-1966). -/
def createDepthPrePassCommandBuffer (r : Renderer) : Run :=
  let r := r.logEvent (.enter .createDepthPrePassCommandBuffer)
  Run.ok { r with
    depth_prepass_command_buffer := some
      { flags := VK_COMMAND_BUFFER_USAGE_SIMULTANEOUS_USE_BIT
        commands := createDepthPrePassCommandBuffer.commands r } }

/-- Model of `recreateSwapChain` (lines 349-364). -/
def recreateSwapChain (env : Env) (r : Renderer)
    (answers : DeviceAnswers := DeviceAnswers.honouring) : Run :=
  let r := r.logEvent (.enter .recreateSwapChain)
  let r := r.logEvent .vkDeviceWaitIdle
  (((((((((((createSwapChain env r answers).bind
    (fun r => createSwapChainImageViews r answers)).bind
    (fun r => createRenderPasses r answers)).bind
    (fun r => createGraphicsPipelines r answers)).bind
    (fun r => createDepthResources r answers)).bind
    (fun r => createFrameBuffers r answers)).bind
    (fun r => createLightVisibilityBuffer r answers)).bind
    updateIntermediateDescriptorSet).bind
    (fun r => createGraphicsCommandBuffers r answers)).bind
    createLightCullingCommandBuffer).bind
    createDepthPrePassCommandBuffer)

/-! ## drawFrame -/

/-- Model of `_VulkanRenderer_Impl::drawFrame` (lines 2407-2503).  The two `vk::Queue::submit`
calls of the depth pre-pass and the light culling return a result that the source discards;
`vkQueueSubmit` of the forward pass and `vkQueuePresentKHR` are checked.  An exception thrown
inside `recreateSwapChain` leaves `drawFrame`. -/
def drawFrame (env : Env) (r : Renderer)
    (answers : DeviceAnswers := DeviceAnswers.honouring) : Run :=
  -- 1. Acquiring an image from the swap chain
  let r := r.logEvent
    (.vkAcquireNextImageKHR ACQUIRE_NEXT_IMAGE_TIMEOUT .image_available_semaphore)
  let image_index := env.image_index
  if env.aquiring_result = VK_ERROR_OUT_OF_DATE_KHR then
    recreateSwapChain env r answers
  else if env.aquiring_result ≠ VK_SUCCESS ∧ env.aquiring_result ≠ VK_SUBOPTIMAL_KHR then
    Run.throw r "Failed to acquire swap chain image!"
  else
    -- submit depth pre-pass command buffer
    let r := r.logEvent (.queueSubmit .graphics_queue
      { waitSemaphores := []
        waitDstStageMask := []
        commandBuffers := [.depth_prepass_command_buffer]
        signalSemaphores := [.depth_prepass_finished_semaphore] })
    -- submit light culling command buffer
    let r := r.logEvent (.queueSubmit .compute_queue
      { waitSemaphores := [.depth_prepass_finished_semaphore]
        waitDstStageMask := [VK_PIPELINE_STAGE_COMPUTE_SHADER_BIT]
        commandBuffers := [.light_culling_command_buffer]
        signalSemaphores := [.lightculling_completed_semaphore] })
    -- 2. Submitting the command buffer
    let r := r.logEvent (.queueSubmit .graphics_queue
      { waitSemaphores := [.image_available_semaphore, .lightculling_completed_semaphore]
        waitDstStageMask := [VK_PIPELINE_STAGE_COLOR_ATTACHMENT_OUTPUT_BIT,
          VK_PIPELINE_STAGE_FRAGMENT_SHADER_BIT]
        commandBuffers := [.command_buffers image_index]
        signalSemaphores := [.render_finished_semaphore] })
    if env.submit_result ≠ VK_SUCCESS then
      Run.throw r "Failed to submit draw command buffer!"
    else
      -- 3. Submitting the result back to the swap chain to show it on screen
      let r := r.logEvent (.vkQueuePresentKHR .present_queue
        { waitSemaphores := [.render_finished_semaphore]
          imageIndices := [image_index] })
      if env.present_result = VK_ERROR_OUT_OF_DATE_KHR
          ∨ env.present_result = VK_SUBOPTIMAL_KHR then
        recreateSwapChain env r answers
      else if env.present_result ≠ VK_SUCCESS then
        Run.throw r "Failed to present swap chain image!"
      else
        Run.ok r

/-- The command buffer a reference denotes in the current state, if it has been recorded. -/
def Renderer.commandBuffer (r : Renderer) : CommandBufferRef → Option CommandBuffer
  | .depth_prepass_command_buffer => r.depth_prepass_command_buffer
  | .light_culling_command_buffer => r.light_culling_command_buffer
  | .command_buffers image_index => r.command_buffers.get? image_index


/-! ## Public operations -/

/-- Model of `getDebugViewIndex` (lines 158-161). -/
def getDebugViewIndex (r : Renderer) : Int :=
  r.debug_view_index

/-- Model of `changeDebugViewIndex` (lines 166-170).  `%` on `int` is the C++ remainder,
which truncates toward zero. -/
def changeDebugViewIndex (env : Env) (target_view : Int) (r : Renderer)
    (answers : DeviceAnswers := DeviceAnswers.honouring) : Run :=
  let r := { r with debug_view_index := Int.tmod target_view 5 }
  recreateSwapChain env r answers

/-- Model of `_VulkanRenderer_Impl::resize` (lines 532-539). -/
def resize (env : Env) (width height : Int) (r : Renderer)
    (answers : DeviceAnswers := DeviceAnswers.honouring) : Run :=
  if width = 0 ∨ height = 0 then
    Run.ok r
  else
    let r := { r with
      window_framebuffer_width := env.framebuffer_width
      window_framebuffer_height := env.framebuffer_height }
    recreateSwapChain env r answers

/-! ## Swapchain format and present mode selection -/

structure VkSurfaceFormatKHR where
  format : VkFormat
  colorSpace : Nat
  deriving DecidableEq, Repr

/-- The loop of `chooseSwapSurfaceFormat` (lines 2527-2534): the first entry that is
B8G8R8A8_UNORM with the SRGB-nonlinear color space, if the loop returns. -/
def chooseSwapSurfaceFormat.search : List VkSurfaceFormatKHR → Option VkSurfaceFormatKHR
  | [] => none
  | available_format :: rest =>
    if available_format.format = VK_FORMAT_B8G8R8A8_UNORM
        ∧ available_format.colorSpace = VK_COLOR_SPACE_SRGB_NONLINEAR_KHR then
      some available_format
    else
      chooseSwapSurfaceFormat.search rest

/-- Model of `chooseSwapSurfaceFormat` (lines 2519-2539).  The result is `none` where the
source reads `available_formats[0]` of an empty vector. -/
def chooseSwapSurfaceFormat (available_formats : List VkSurfaceFormatKHR) :
    Option VkSurfaceFormatKHR :=
  let free_to_choose : Bool :=
    match available_formats with
    | [only] => only.format == VK_FORMAT_UNDEFINED
    | _ => false
  if free_to_choose then
    some { format := VK_FORMAT_B8G8R8A8_UNORM, colorSpace := VK_COLOR_SPACE_SRGB_NONLINEAR_KHR }
  else
    match chooseSwapSurfaceFormat.search available_formats with
    | some available_format => some available_format
    | none => available_formats.head?

/-- Model of `chooseSwapPresentMode` (lines 2541-2552). -/
def chooseSwapPresentMode : List VkPresentModeKHR → VkPresentModeKHR
  | [] => VK_PRESENT_MODE_FIFO_KHR
  | available_present_mode :: rest =>
    if available_present_mode = VK_PRESENT_MODE_MAILBOX_KHR then
      available_present_mode
    else
      chooseSwapPresentMode rest

/-! ## Device selection -/

def VK_QUEUE_GRAPHICS_BIT : VkFlags := 0x1
def VK_QUEUE_COMPUTE_BIT : VkFlags := 0x2

/-- One queue family of a physical device: its `VkQueueFamilyProperties` fields and the
answer of `vkGetPhysicalDeviceSurfaceSupportKHR` for the window surface. -/
structure QueueFamily where
  queueFlags : VkFlags
  queueCount : Nat
  presentSupport : Bool
  deriving DecidableEq, Repr

/-- What a physical device reports to the queries of device selection. -/
structure PhysicalDevice where
  /-- Answer of `vkGetPhysicalDeviceQueueFamilyProperties`, with present support. -/
  queuefamilies : List QueueFamily
  /-- Names reported by `vkEnumerateDeviceExtensionProperties`. -/
  available_extensions : List String
  /-- Answer of `vkGetPhysicalDeviceSurfaceFormatsKHR`. -/
  formats : List VkSurfaceFormatKHR
  /-- Answer of `vkGetPhysicalDeviceSurfacePresentModesKHR`. -/
  present_modes : List VkPresentModeKHR
  deriving DecidableEq, Repr

/-- The member `DEVICE_EXTENSIONS` (lines 307-309): `VK_KHR_SWAPCHAIN_EXTENSION_NAME`. -/
def DEVICE_EXTENSIONS : List String := ["VK_KHR_swapchain"]

/-- Model of `QueueFamilyIndices::isComplete` (lines 90-93). -/
def QueueFamilyIndices.isComplete (indices : QueueFamilyIndices) : Bool :=
  decide (indices.graphics_family ≥ 0) && decide (indices.present_family ≥ 0)
    && decide (indices.compute_family ≥ 0)

/-- The three tests of the loop body of `findQueueFamilies` (lines 108-123) for the family
numbered `i`. -/
def QueueFamilyIndices.findQueueFamilies.visit (queuefamily : QueueFamily) (i : Int)
    (indices : QueueFamilyIndices) : QueueFamilyIndices :=
  let indices :=
    if queuefamily.queueCount > 0 ∧ queuefamily.queueFlags &&& VK_QUEUE_GRAPHICS_BIT ≠ 0 then
      { indices with graphics_family := i }
    else indices
  let indices :=
    if queuefamily.queueCount > 0 ∧ queuefamily.queueFlags &&& VK_QUEUE_COMPUTE_BIT ≠ 0 then
      { indices with compute_family := i }
    else indices
  if queuefamily.queueCount > 0 ∧ queuefamily.presentSupport = true then
    { indices with present_family := i }
  else indices

/-- The loop of `findQueueFamilies` (lines 105-130) from family number `i` on, with its
`break` as soon as the indices are complete. -/
def QueueFamilyIndices.findQueueFamilies.loop :
    List QueueFamily → Int → QueueFamilyIndices → QueueFamilyIndices
  | [], _, indices => indices
  | queuefamily :: rest, i, indices =>
    let indices := QueueFamilyIndices.findQueueFamilies.visit queuefamily i indices
    if indices.isComplete then indices
    else QueueFamilyIndices.findQueueFamilies.loop rest (i + 1) indices

/-- Model of `QueueFamilyIndices::findQueueFamilies` (lines 95-133). -/
def QueueFamilyIndices.findQueueFamilies (device : PhysicalDevice) : QueueFamilyIndices :=
  QueueFamilyIndices.findQueueFamilies.loop device.queuefamilies 0 {}

/-- Model of `checkDeviceExtensionSupport` (lines 781-797): the required names form a set
from which every available name is erased. -/
def checkDeviceExtensionSupport (device : PhysicalDevice) : Bool :=
  let required_extensions : List String :=
    device.available_extensions.foldl
      (fun required extension => required.filter fun name => name != extension)
      DEVICE_EXTENSIONS
  required_extensions.isEmpty

/-- Model of `isDeviceSuitable` (lines 756-779). -/
def isDeviceSuitable (device : PhysicalDevice) : Bool :=
  let indices := QueueFamilyIndices.findQueueFamilies device
  let extensions_supported := checkDeviceExtensionSupport device
  let swap_chain_adequate : Bool :=
    if extensions_supported then
      !device.formats.isEmpty && !device.present_modes.isEmpty
    else false
  indices.isComplete && extensions_supported && swap_chain_adequate

structure VkDeviceQueueCreateInfo where
  queueFamilyIndex : Nat
  queueCount : Nat
  deriving DecidableEq, Repr

/-- The insertion of `std::set<int>`: an element already present is not inserted again, and
the elements are kept in ascending order. -/
def stdSetInsert (set : List Int) (x : Int) : List Int :=
  if x ∈ set then set else List.orderedInsert (fun a b => a ≤ b) x set

/-- The list `queue_create_infos` built by `createLogicalDevice` (lines 803-817): one entry
per element of the set of the three family indices. -/
def createLogicalDevice.queue_create_infos (indices : QueueFamilyIndices) :
    List VkDeviceQueueCreateInfo :=
  let queue_families : List Int :=
    [indices.graphics_family, indices.present_family, indices.compute_family].foldl
      stdSetInsert []
  queue_families.map fun _family =>
    { queueFamilyIndex := toUInt32 indices.graphics_family
      queueCount := 1 }

/-- Model of `createLogicalDevice` (lines 799-854), tracked part: the queue-create list
handed to `vkCreateDevice`, whose result code is `result`. -/
def createLogicalDevice (device : PhysicalDevice) (result : VkResult) :
    Except String (List VkDeviceQueueCreateInfo) :=
  let indices := QueueFamilyIndices.findQueueFamilies device
  let queue_create_infos := createLogicalDevice.queue_create_infos indices
  if result ≠ VK_SUCCESS then
    .error "Failed to create logical device!"
  else
    .ok queue_create_infos

/-! ## Initialisation -/

/-- The build option `ENABLE_VALIDATION_LAYERS` (lines 296-301): `false` when `NDEBUG` is
defined, `true` otherwise.  The build without `NDEBUG` is the one modelled. -/
def ENABLE_VALIDATION_LAYERS : Bool := true

/-- Model of `createInstance` (lines 567-636), tracked part: its two checks. -/
def createInstance (r : Renderer) (answers : DeviceAnswers := DeviceAnswers.honouring) : Run :=
  if ENABLE_VALIDATION_LAYERS = true ∧ ¬ answers.checkValidationLayerSupport = true then
    Run.throw r "validation layers requested, but not available!"
  else
    throwUnlessSuccess answers.vkCreateInstance "failed to create instance!" r

/-- Model of `setupDebugCallback` (lines 686-702), tracked part: its check. -/
def setupDebugCallback (r : Renderer) (answers : DeviceAnswers := DeviceAnswers.honouring) : Run :=
  if ¬ ENABLE_VALIDATION_LAYERS = true then
    Run.ok r
  else
    throwUnlessSuccess answers.CreateDebugReportCallbackEXT "failed to set up debug callback!" r

/-- Model of `createWindowSurface` (lines 559-567). -/
def createWindowSurface (r : Renderer) (answers : DeviceAnswers := DeviceAnswers.honouring) : Run :=
  throwUnlessSuccess answers.glfwCreateWindowSurface "Failed to create window surface!" r

/-- Model of `findQueueFamilyIndices` (lines 746-754). -/
def findQueueFamilyIndices (physical_device : PhysicalDevice) (r : Renderer) : Run :=
  let r := { r with queue_family_indices := QueueFamilyIndices.findQueueFamilies physical_device }
  if ¬ r.queue_family_indices.isComplete = true then
    Run.throw r "Queue family indices not complete!"
  else
    Run.ok r

/-- Model of `createDescriptorSetLayouts` (lines 1055-1189): the bindings of the four
layouts.  The object layout and the light-culling layout are created with a checked call,
the camera layout and the intermediate layout through `vulkan.hpp`. -/
def createDescriptorSetLayouts (r : Renderer)
    (answers : DeviceAnswers := DeviceAnswers.honouring) : Run :=
  (throwUnlessSuccess (answers.vkCreateDescriptorSetLayout .object_descriptor_set_layout)
    "Failed to create descriptor set layout!" r).bind fun r =>
  let r := { r with
    object_descriptor_set_layout :=
      [ { binding := 0
          descriptorType := VK_DESCRIPTOR_TYPE_UNIFORM_BUFFER
          descriptorCount := 1
          stageFlags := VK_SHADER_STAGE_VERTEX_BIT ||| VK_SHADER_STAGE_FRAGMENT_BIT },
        { binding := 1
          descriptorType := VK_DESCRIPTOR_TYPE_COMBINED_IMAGE_SAMPLER
          descriptorCount := 1
          stageFlags := VK_SHADER_STAGE_FRAGMENT_BIT },
        { binding := 2
          descriptorType := VK_DESCRIPTOR_TYPE_COMBINED_IMAGE_SAMPLER
          descriptorCount := 1
          stageFlags := VK_SHADER_STAGE_FRAGMENT_BIT } ]
    camera_descriptor_set_layout :=
      [ { binding := 0
          descriptorType := VK_DESCRIPTOR_TYPE_STORAGE_BUFFER
          descriptorCount := 1
          stageFlags := VK_SHADER_STAGE_VERTEX_BIT ||| VK_SHADER_STAGE_FRAGMENT_BIT
            ||| VK_SHADER_STAGE_COMPUTE_BIT } ] }
  (throwUnlessSuccess (answers.vkCreateDescriptorSetLayout .light_culling_descriptor_set_layout)
    "Unable to create descriptor layout for command queue!" r).bind fun r =>
  Run.ok { r with
    light_culling_descriptor_set_layout :=
      [ { binding := 0
          descriptorType := VK_DESCRIPTOR_TYPE_STORAGE_BUFFER
          descriptorCount := 1
          stageFlags := VK_SHADER_STAGE_COMPUTE_BIT ||| VK_SHADER_STAGE_FRAGMENT_BIT },
        { binding := 1
          descriptorType := VK_DESCRIPTOR_TYPE_STORAGE_BUFFER
          descriptorCount := 1
          stageFlags := VK_SHADER_STAGE_COMPUTE_BIT ||| VK_SHADER_STAGE_FRAGMENT_BIT } ]
    intermediate_descriptor_set_layout :=
      [ { binding := 0
          descriptorType := VK_DESCRIPTOR_TYPE_COMBINED_IMAGE_SAMPLER
          descriptorCount := 1
          stageFlags := VK_SHADER_STAGE_COMPUTE_BIT ||| VK_SHADER_STAGE_FRAGMENT_BIT } ] }

/-- Model of `createComputePipeline` (lines 2089-2140), tracked part: the set layouts the
compute pipeline layout is created with (line 2104) and the creation of the shader module.
The three results handed to `vulkan_util::checkResult` are not modelled. -/
def createComputePipeline (r : Renderer)
    (answers : DeviceAnswers := DeviceAnswers.honouring) : Run :=
  let r := { r with
    compute_pipeline_layout :=
      [ .light_culling_descriptor_set_layout, .camera_descriptor_set_layout,
        .intermediate_descriptor_set_layout ] }
  Run.call (createShaderModule (answers.vkCreateShaderModule .light_culling_comp)) r fun _ =>
  Run.ok r

/-- Model of `createCommandPool` (lines 1485-1501), tracked part: its check. -/
def createCommandPool (r : Renderer) (answers : DeviceAnswers := DeviceAnswers.honouring) : Run :=
  throwUnlessSuccess answers.vkCreateCommandPool "failed to create command pool!" r

/-- Model of `createTextureSampler` (lines 1535-1566), tracked part: its check. -/
def createTextureSampler (r : Renderer)
    (answers : DeviceAnswers := DeviceAnswers.honouring) : Run :=
  throwUnlessSuccess answers.vkCreateSampler "Failed to create texture sampler!" r

/-- Model of `recordCopyBuffer` (lines 2852-2860). -/
def recordCopyBuffer (command_buffer : List Cmd) (src_buffer dst_buffer : BufferId)
    (size : Nat) : List Cmd :=
  command_buffer ++ [.copyBuffer src_buffer dst_buffer 0 0 size]

/-- Model of `copyBuffer` (lines 2649-2656): a one-shot command buffer holding the copy,
submitted to the graphics queue and waited for. -/
def copyBuffer (src_buffer dst_buffer : BufferId) (size : Nat) (r : Renderer) : Renderer :=
  r.logEvent (.singleTimeCommands (recordCopyBuffer [] src_buffer dst_buffer size))

/-- Model of `createUniformBuffers` (lines 1644-1691): the four buffers, the upload of the
scene object matrix, and the camera buffer, which is created for the graphics and the
compute family. -/
def createUniformBuffers (r : Renderer)
    (answers : DeviceAnswers := DeviceAnswers.honouring) : Run :=
  -- create buffers for scene object
  Run.call (createBuffer (answers.buffer_device .object_staging_buffer) sizeof_SceneObjectUbo
    VK_BUFFER_USAGE_TRANSFER_SRC_BIT
    (VK_MEMORY_PROPERTY_HOST_VISIBLE_BIT ||| VK_MEMORY_PROPERTY_HOST_COHERENT_BIT) (-1) (-1)) r
    fun _object_staging_buffer =>
  Run.call (createBuffer (answers.buffer_device .object_uniform_buffer) sizeof_SceneObjectUbo
    (VK_BUFFER_USAGE_TRANSFER_DST_BIT ||| VK_BUFFER_USAGE_UNIFORM_BUFFER_BIT)
    VK_MEMORY_PROPERTY_DEVICE_LOCAL_BIT (-1) (-1)) r fun _object_uniform_buffer =>
  -- Adding data to scene object buffer
  let r := r.logEvent (.vkMapMemory .object_staging_buffer 0 sizeof_SceneObjectUbo)
  let r := r.logEvent (.memcpy .object_staging_buffer 0 .scene_object_ubo sizeof_SceneObjectUbo)
  let r := r.logEvent (.vkUnmapMemory .object_staging_buffer)
  let r := copyBuffer .object_staging_buffer .object_uniform_buffer sizeof_SceneObjectUbo r
  -- create buffers for camera
  Run.call (createBuffer (answers.buffer_device .camera_staging_buffer) sizeof_CameraUbo
    VK_BUFFER_USAGE_TRANSFER_SRC_BIT
    (VK_MEMORY_PROPERTY_HOST_VISIBLE_BIT ||| VK_MEMORY_PROPERTY_HOST_COHERENT_BIT) (-1) (-1)) r
    fun _camera_staging_buffer =>
  Run.call (createBuffer (answers.buffer_device .camera_uniform_buffer) sizeof_CameraUbo
    (VK_BUFFER_USAGE_TRANSFER_DST_BIT ||| VK_BUFFER_USAGE_STORAGE_BUFFER_BIT)
    VK_MEMORY_PROPERTY_DEVICE_LOCAL_BIT
    r.queue_family_indices.graphics_family r.queue_family_indices.compute_family) r
    fun camera_uniform_buffer =>
  Run.ok { r with camera_uniform_buffer := some camera_uniform_buffer.buffer_info }

/-- The loop `for (int i = 0; i < 200; i++) pointlights.emplace_back(...)` of `createLights`
with `remaining` iterations left. -/
def createLights.loop : Nat → List PointLight → List PointLight
  | 0, pointlights => pointlights
  | remaining + 1, pointlights => createLights.loop remaining (pointlights ++ [()])

/-- Model of `createLights` (lines 1693-1720).  `pointlight_buffer_size` is assigned twice;
the second assignment (line 1706) is the one the buffers are created with. -/
def createLights (r : Renderer) (answers : DeviceAnswers := DeviceAnswers.honouring) : Run :=
  let r := { r with pointlights := createLights.loop 200 r.pointlights }
  let r := { r with
    pointlight_buffer_size :=
      (sizeof_PointLight * toUInt64 MAX_POINT_LIGHT_COUNT + sizeof_int) % 18446744073709551616 }
  let r := { r with
    pointlight_buffer_size :=
      (sizeof_PointLight * toUInt64 MAX_POINT_LIGHT_COUNT + sizeof_vec4) % 18446744073709551616 }
  Run.call (createBuffer (answers.buffer_device .lights_staging_buffer) r.pointlight_buffer_size
    VK_BUFFER_USAGE_TRANSFER_SRC_BIT
    (VK_MEMORY_PROPERTY_HOST_VISIBLE_BIT ||| VK_MEMORY_PROPERTY_HOST_COHERENT_BIT) (-1) (-1)) r
    fun lights_staging_buffer =>
  let r := { r with lights_staging_buffer := some lights_staging_buffer.buffer_info }
  Run.call (createBuffer (answers.buffer_device .pointlight_buffer) r.pointlight_buffer_size
    (VK_BUFFER_USAGE_STORAGE_BUFFER_BIT ||| VK_BUFFER_USAGE_TRANSFER_DST_BIT)
    VK_MEMORY_PROPERTY_DEVICE_LOCAL_BIT (-1) (-1)) r fun pointlight_buffer =>
  Run.ok { r with pointlight_buffer := some pointlight_buffer.buffer_info }

/-- Model of `createDescriptorPool` (lines 1722-1748). -/
def createDescriptorPool (r : Renderer)
    (answers : DeviceAnswers := DeviceAnswers.honouring) : Run :=
  (throwUnlessSuccess answers.vkCreateDescriptorPool "Failed to create descriptor pool!" r).bind
    fun r =>
  Run.ok { r with
    descriptor_pool := some
      { pPoolSizes :=
          [ { type := VK_DESCRIPTOR_TYPE_UNIFORM_BUFFER, descriptorCount := 4 },
            { type := VK_DESCRIPTOR_TYPE_COMBINED_IMAGE_SAMPLER, descriptorCount := 3 },
            { type := VK_DESCRIPTOR_TYPE_STORAGE_BUFFER, descriptorCount := 3 } ]
        maxSets := 4
        flags := 0 }
    allocated_descriptor_sets := [] }

/-- Model of `createSceneObjectDescriptorSet` (lines 1750-1821). -/
def createSceneObjectDescriptorSet (r : Renderer)
    (answers : DeviceAnswers := DeviceAnswers.honouring) : Run :=
  (throwUnlessSuccess answers.vkAllocateDescriptorSets "Failed to allocate descriptor set!"
    r).bind fun r =>
  let r := { r with
    allocated_descriptor_sets := r.allocated_descriptor_sets ++
      [ ({ descriptor_set := .object_descriptor_set
           layout := .object_descriptor_set_layout } : DescriptorSetAllocation) ] }
  Run.ok (r.logEvent (.updateDescriptorSets
    [ { dstSet := .object_descriptor_set
        dstBinding := 0
        dstArrayElement := 0
        descriptorCount := 1
        descriptorType := VK_DESCRIPTOR_TYPE_UNIFORM_BUFFER
        buffer := some (.object_uniform_buffer, 0, sizeof_SceneObjectUbo)
        image := none },
      { dstSet := .object_descriptor_set
        dstBinding := 1
        dstArrayElement := 0
        descriptorCount := 1
        descriptorType := VK_DESCRIPTOR_TYPE_COMBINED_IMAGE_SAMPLER
        buffer := none
        image := some (.texture_image, VK_IMAGE_LAYOUT_SHADER_READ_ONLY_OPTIMAL) },
      { dstSet := .object_descriptor_set
        dstBinding := 2
        dstArrayElement := 0
        descriptorCount := 1
        descriptorType := VK_DESCRIPTOR_TYPE_COMBINED_IMAGE_SAMPLER
        buffer := none
        image := some (.normalmap_image, VK_IMAGE_LAYOUT_SHADER_READ_ONLY_OPTIMAL) } ]))

/-- Model of `createCameraDescriptorSet` (lines 1823-1861). -/
def createCameraDescriptorSet (r : Renderer) : Run :=
  let r := { r with
    allocated_descriptor_sets := r.allocated_descriptor_sets ++
      [ ({ descriptor_set := .camera_descriptor_set
           layout := .camera_descriptor_set_layout } : DescriptorSetAllocation) ] }
  Run.ok (r.logEvent (.updateDescriptorSets
    [ { dstSet := .camera_descriptor_set
        dstBinding := 0
        dstArrayElement := 0
        descriptorCount := 1
        descriptorType := VK_DESCRIPTOR_TYPE_STORAGE_BUFFER
        buffer := some (.camera_uniform_buffer, 0, sizeof_CameraUbo)
        image := none } ]))

/-- Model of `createIntermediateDescriptorSet` (lines 1863-1876). -/
def createIntermediateDescriptorSet (r : Renderer) : Run :=
  Run.ok { r with
    allocated_descriptor_sets := r.allocated_descriptor_sets ++
      [ ({ descriptor_set := .intermediate_descriptor_set
           layout := .intermediate_descriptor_set_layout } : DescriptorSetAllocation) ] }

/-- Model of `createLigutCullingDescriptorSet` (lines 2145-2161). -/
def createLigutCullingDescriptorSet (r : Renderer) : Run :=
  Run.ok { r with
    allocated_descriptor_sets := r.allocated_descriptor_sets ++
      [ ({ descriptor_set := .light_culling_descriptor_set
           layout := .light_culling_descriptor_set_layout } : DescriptorSetAllocation) ] }

/-- Model of `initVulkan` (lines 311-347).  `physical_device` is the device that
`pickPhysicalDevice` picked and `model_indices` the index list that `util::loadModel`
returns.  Four steps are left out, and with them the uploads they perform and the exceptions
they may throw: `createTextureAndNormal`, `createVertexBuffer`, `createIndexBuffer` and
`createSemaphores`; they assign no tracked member. -/
def initVulkan (env : Env) (physical_device : PhysicalDevice) (model_indices : List Nat)
    (r : Renderer) (answers : DeviceAnswers := DeviceAnswers.honouring) : Run :=
  (((((((((((((((((((((((((((createInstance r answers).bind
    (fun r => setupDebugCallback r answers)).bind
    (fun r => createWindowSurface r answers)).bind
    (findQueueFamilyIndices physical_device)).bind
    (fun r => Run.call (createLogicalDevice physical_device answers.vkCreateDevice) r
      fun _ => Run.ok r)).bind
    (fun r => createSwapChain env r answers)).bind
    (fun r => createSwapChainImageViews r answers)).bind
    (fun r => createRenderPasses r answers)).bind
    (fun r => createDescriptorSetLayouts r answers)).bind
    (fun r => createGraphicsPipelines r answers)).bind
    (fun r => createComputePipeline r answers)).bind
    (fun r => createCommandPool r answers)).bind
    (fun r => createDepthResources r answers)).bind
    (fun r => createFrameBuffers r answers)).bind
    (fun r => createTextureSampler r answers)).bind
    (fun r => Run.ok { r with vertex_indices := model_indices })).bind
    (fun r => createUniformBuffers r answers)).bind
    (fun r => createLights r answers)).bind
    (fun r => createDescriptorPool r answers)).bind
    (fun r => createSceneObjectDescriptorSet r answers)).bind
    createCameraDescriptorSet).bind
    createIntermediateDescriptorSet).bind
    updateIntermediateDescriptorSet).bind
    createLigutCullingDescriptorSet).bind
    (fun r => createLightVisibilityBuffer r answers)).bind
    (fun r => createGraphicsCommandBuffers r answers)).bind
    createLightCullingCommandBuffer).bind
    createDepthPrePassCommandBuffer

/-- Model of the constructor of `_VulkanRenderer_Impl` (lines 480-492) for a non-null
window: the members start default-initialised, the framebuffer size is read from the window
and `initVulkan` runs. -/
def VulkanRenderer_Impl.create (env : Env) (physical_device : PhysicalDevice)
    (model_indices : List Nat) (answers : DeviceAnswers := DeviceAnswers.honouring) : Run :=
  initVulkan env physical_device model_indices
    { window_framebuffer_width := env.framebuffer_width
      window_framebuffer_height := env.framebuffer_height } answers

/-! ## Per-frame update -/

/-- Model of `updateUniformBuffers` (lines 2358-2403).  `deltatime` is the bit pattern of the
float argument.  The loop at lines 2388-2393 assigns the position of each existing light and
neither adds nor removes an element, so `pointlights` is left as it is. -/
def updateUniformBuffers (_deltatime : Nat) (r : Renderer) : Renderer :=
  -- update camera ubo
  let r := r.logEvent (.vkMapMemory .camera_staging_buffer 0 sizeof_CameraUbo)
  let r := r.logEvent (.memcpy .camera_staging_buffer 0 .camera_ubo sizeof_CameraUbo)
  let r := r.logEvent (.vkUnmapMemory .camera_staging_buffer)
  let r := copyBuffer .camera_staging_buffer .camera_uniform_buffer sizeof_CameraUbo r
  -- update light ubo
  let light_num := toInt32 r.pointlights.length
  let pointlights_size := (sizeof_PointLight * r.pointlights.length) % 18446744073709551616
  let r := r.logEvent (.vkMapMemory .lights_staging_buffer 0 r.pointlight_buffer_size)
  let r := r.logEvent (.memcpy .lights_staging_buffer 0 (.light_num light_num) sizeof_int)
  let r := r.logEvent (.memcpy .lights_staging_buffer sizeof_vec4
    (.pointlights_data r.pointlights.length) pointlights_size)
  let r := r.logEvent (.vkUnmapMemory .lights_staging_buffer)
  copyBuffer .lights_staging_buffer .pointlight_buffer r.pointlight_buffer_size r

/-- Model of `requestDraw` (lines 541-545). -/
def requestDraw (env : Env) (deltatime : Nat) (r : Renderer)
    (answers : DeviceAnswers := DeviceAnswers.honouring) : Run :=
  drawFrame env (updateUniformBuffers deltatime r) answers

/-- Model of `setCamera` (lines 552-556); the arguments are the bit patterns of the floats of
the matrix and of the position. -/
def setCamera (view : List Nat) (campos : List Nat) (r : Renderer) : Renderer :=
  { r with view_matrix := view, cam_pos := campos }

/-! ## Observations on the call log -/

/-- The queue submissions of frame command buffers in a log, in order. -/
def submissions : List Event → List (Queue × SubmitInfo)
  | [] => []
  | .queueSubmit queue submit_info :: rest => (queue, submit_info) :: submissions rest
  | _ :: rest => submissions rest

/-- The presents in a log, in order. -/
def presents : List Event → List (Queue × VkPresentInfoKHR)
  | [] => []
  | .vkQueuePresentKHR queue present_info :: rest => (queue, present_info) :: presents rest
  | _ :: rest => presents rest

/-- The number of times `recreateSwapChain` was entered in a log. -/
def rebuilds : List Event → Nat
  | [] => 0
  | .enter .recreateSwapChain :: rest => rebuilds rest + 1
  | _ :: rest => rebuilds rest

/-- The one-shot command buffers (`beginSingleTimeCommands` / `endSingleTimeCommands`) a log
submits to the graphics queue, in order. -/
def oneShotSubmissions : List Event → List (List Cmd)
  | [] => []
  | .singleTimeCommands commands :: rest => commands :: oneShotSubmissions rest
  | _ :: rest => oneShotSubmissions rest

/-- The acquire, submit and present operations of a log, in order. -/
def frameOperations : List Event → List Event
  | [] => []
  | .vkAcquireNextImageKHR timeout semaphore :: rest =>
    .vkAcquireNextImageKHR timeout semaphore :: frameOperations rest
  | .queueSubmit queue submit_info :: rest =>
    .queueSubmit queue submit_info :: frameOperations rest
  | .vkQueuePresentKHR queue present_info :: rest =>
    .vkQueuePresentKHR queue present_info :: frameOperations rest
  | _ :: rest => frameOperations rest

/-- A stretch of the log that holds no acquire, no queue submission, no present and no entry
into `recreateSwapChain`. -/
def quietLog (added : List Event) : Prop :=
  submissions added = [] ∧ presents added = [] ∧ frameOperations added = [] ∧
    rebuilds added = 0

/-- The run appended nothing but a quiet stretch to the log `before`. -/
def Run.quietSince (x : Run) (before : List Event) : Prop :=
  ∃ added, x.state.log = before ++ added ∧ quietLog added

/-- The log entries appended by one call of `drawFrame`. -/
def frameLog (env : Env) (r : Renderer)
    (answers : DeviceAnswers := DeviceAnswers.honouring) : List Event :=
  (drawFrame env r answers).state.log.drop r.log.length

/-- The semaphores an operation signals. -/
def Event.signals : Event → List Semaphore
  | .vkAcquireNextImageKHR _ semaphore => [semaphore]
  | .queueSubmit _ submit_info => submit_info.signalSemaphores
  | _ => []

/-- The semaphores an operation waits on. -/
def Event.waits : Event → List Semaphore
  | .queueSubmit _ submit_info => submit_info.waitSemaphores
  | .vkQueuePresentKHR _ present_info => present_info.waitSemaphores
  | _ => []

/-- How often a semaphore is signalled by a list of operations. -/
def signalCount (s : Semaphore) (ops : List Event) : Nat :=
  (ops.map fun e => e.signals.count s).sum

/-- How often a semaphore is waited on by a list of operations. -/
def waitCount (s : Semaphore) (ops : List Event) : Nat :=
  (ops.map fun e => e.waits.count s).sum

/-- Position of the first operation that signals the semaphore. -/
def signalIndex (s : Semaphore) (ops : List Event) : Nat :=
  ops.findIdx fun e => decide (s ∈ e.signals)

/-- Position of the first operation that waits on the semaphore. -/
def waitIndex (s : Semaphore) (ops : List Event) : Nat :=
  ops.findIdx fun e => decide (s ∈ e.waits)

/-- The depth pre-pass submission of `drawFrame`. -/
def depthPrePassSubmission : Event :=
  .queueSubmit .graphics_queue
    { waitSemaphores := []
      waitDstStageMask := []
      commandBuffers := [.depth_prepass_command_buffer]
      signalSemaphores := [.depth_prepass_finished_semaphore] }

/-- The light-culling submission of `drawFrame`. -/
def lightCullingSubmission : Event :=
  .queueSubmit .compute_queue
    { waitSemaphores := [.depth_prepass_finished_semaphore]
      waitDstStageMask := [VK_PIPELINE_STAGE_COMPUTE_SHADER_BIT]
      commandBuffers := [.light_culling_command_buffer]
      signalSemaphores := [.lightculling_completed_semaphore] }

/-- The forward submission of `drawFrame` for image index `i`. -/
def forwardSubmission (i : Nat) : Event :=
  .queueSubmit .graphics_queue
    { waitSemaphores := [.image_available_semaphore, .lightculling_completed_semaphore]
      waitDstStageMask := [VK_PIPELINE_STAGE_COLOR_ATTACHMENT_OUTPUT_BIT,
        VK_PIPELINE_STAGE_FRAGMENT_SHADER_BIT]
      commandBuffers := [.command_buffers i]
      signalSemaphores := [.render_finished_semaphore] }

/-- The present of `drawFrame` for image index `i`. -/
def framePresent (i : Nat) : Event :=
  .vkQueuePresentKHR .present_queue
    { waitSemaphores := [.render_finished_semaphore]
      imageIndices := [i] }

/-- The acquire of `drawFrame`. -/
def frameAcquire : Event :=
  .vkAcquireNextImageKHR ACQUIRE_NEXT_IMAGE_TIMEOUT .image_available_semaphore

/-- The transition recorded for a fresh depth image by `createDepthResources`. -/
def initialDepthTransition (image : ImageId) : Cmd :=
  .pipelineBarrier VK_PIPELINE_STAGE_TOP_OF_PIPE_BIT VK_PIPELINE_STAGE_TOP_OF_PIPE_BIT []
    [ { srcAccessMask := 0
        dstAccessMask := VK_ACCESS_DEPTH_STENCIL_ATTACHMENT_READ_BIT
          ||| VK_ACCESS_DEPTH_STENCIL_ATTACHMENT_WRITE_BIT
        oldLayout := VK_IMAGE_LAYOUT_UNDEFINED
        newLayout := VK_IMAGE_LAYOUT_DEPTH_STENCIL_ATTACHMENT_OPTIMAL
        srcQueueFamilyIndex := VK_QUEUE_FAMILY_IGNORED
        dstQueueFamilyIndex := VK_QUEUE_FAMILY_IGNORED
        image := image
        aspectMask := VK_IMAGE_ASPECT_DEPTH_BIT
        baseMipLevel := 0
        levelCount := 1
        baseArrayLayer := 0
        layerCount := 1 } ]

/-- The transition that ends every forward command buffer (line 2046). -/
def forwardTransition : Cmd :=
  .pipelineBarrier VK_PIPELINE_STAGE_TOP_OF_PIPE_BIT VK_PIPELINE_STAGE_TOP_OF_PIPE_BIT []
    [ { srcAccessMask := VK_ACCESS_SHADER_READ_BIT
        dstAccessMask := VK_ACCESS_DEPTH_STENCIL_ATTACHMENT_READ_BIT
          ||| VK_ACCESS_DEPTH_STENCIL_ATTACHMENT_WRITE_BIT
        oldLayout := VK_IMAGE_LAYOUT_SHADER_READ_ONLY_OPTIMAL
        newLayout := VK_IMAGE_LAYOUT_DEPTH_STENCIL_ATTACHMENT_OPTIMAL
        srcQueueFamilyIndex := VK_QUEUE_FAMILY_IGNORED
        dstQueueFamilyIndex := VK_QUEUE_FAMILY_IGNORED
        image := .pre_pass_depth_image
        aspectMask := VK_IMAGE_ASPECT_DEPTH_BIT
        baseMipLevel := 0
        levelCount := 1
        baseArrayLayer := 0
        layerCount := 1 } ]

/-- The forward command buffer for framebuffer `i`, as recorded in state `r`. -/
def forwardCommandBuffer (r : Renderer) (i : Nat) : CommandBuffer :=
  { flags := VK_COMMAND_BUFFER_USAGE_SIMULTANEOUS_USE_BIT
    commands := createGraphicsCommandBuffers.renderPassCommands r i ++ [forwardTransition] }

/-- The state in which `drawFrame` checks the result of the forward submission. -/
def afterSubmissions (env : Env) (r : Renderer) : Renderer :=
  { r with log := r.log ++ [frameAcquire, depthPrePassSubmission, lightCullingSubmission,
      forwardSubmission env.image_index] }

/-- The state in which `drawFrame` checks the result of the present. -/
def afterPresent (env : Env) (r : Renderer) : Renderer :=
  { r with log := r.log ++ [frameAcquire, depthPrePassSubmission, lightCullingSubmission,
      forwardSubmission env.image_index, framePresent env.image_index] }

/-! ## Buffer barriers of the submitted command buffers -/

/-- All buffer memory barriers recorded in a command buffer, in order. -/
def bufferBarriers (command_buffer : CommandBuffer) : List BufferMemoryBarrier :=
  (command_buffer.commands.map fun
    | .pipelineBarrier _ _ bufferMemoryBarriers _ => bufferMemoryBarriers
    | _ => []).flatten

/-- The command buffers that the submissions among `events` hand to `queue`, looked up in
the state `r` in which they are submitted. -/
def submittedTo (queue : Queue) (r : Renderer) (events : List Event) : List CommandBuffer :=
  (((submissions events).filter fun p => decide (p.1 = queue)).map fun p =>
    p.2.commandBuffers.filterMap r.commandBuffer).flatten

/-- A barrier that names two different queue families. -/
def BufferMemoryBarrier.isQueueFamilyTransfer (b : BufferMemoryBarrier) : Bool :=
  decide (b.srcQueueFamilyIndex ≠ b.dstQueueFamilyIndex)

/-- A barrier on the light buffer or on the visibility buffer. -/
def BufferMemoryBarrier.onLightOrVisibility (b : BufferMemoryBarrier) : Bool :=
  decide (b.buffer = .pointlight_buffer ∨ b.buffer = .light_visibility_buffer)

/-- Same buffer, offset, size and source/destination family pair. -/
def BufferMemoryBarrier.matching (a b : BufferMemoryBarrier) : Bool :=
  decide (a.buffer = b.buffer ∧ a.offset = b.offset ∧ a.size = b.size
    ∧ a.srcQueueFamilyIndex = b.srcQueueFamilyIndex
    ∧ a.dstQueueFamilyIndex = b.dstQueueFamilyIndex)

/-- The same barrier seen from the other side: access masks and families exchanged. -/
def BufferMemoryBarrier.mirror (b : BufferMemoryBarrier) : BufferMemoryBarrier :=
  { b with
    srcAccessMask := b.dstAccessMask
    dstAccessMask := b.srcAccessMask
    srcQueueFamilyIndex := b.dstQueueFamilyIndex
    dstQueueFamilyIndex := b.srcQueueFamilyIndex }

/-- The pairing of ownership-transfer barriers across the two queues, as the specification
words it: every acquire barrier on the light or visibility buffer in a command buffer of the
compute queue (a transfer whose destination is the compute family) has a matching barrier in
a command buffer of the graphics queue, and every transfer barrier on these buffers in a
command buffer of the graphics queue has a matching barrier on the compute queue. -/
def barrierPairing (compute_family : Nat) (onCompute onGraphics : List CommandBuffer) : Bool :=
  (onCompute.all fun cb => (bufferBarriers cb).all fun b =>
    !(b.onLightOrVisibility && b.isQueueFamilyTransfer
        && decide (b.dstQueueFamilyIndex = compute_family))
      || onGraphics.any fun cb' => (bufferBarriers cb').any fun b' => b.matching b')
  && (onGraphics.all fun cb => (bufferBarriers cb).all fun b =>
    !(b.onLightOrVisibility && b.isQueueFamilyTransfer)
      || onCompute.any fun cb' => (bufferBarriers cb').any fun b' => b.matching b')

/-- The recorded command buffers agree with the other members: each is what its recording
function yields in this state. -/
def Renderer.Recorded (s : Renderer) : Prop :=
  s.light_culling_command_buffer = some
      { flags := VK_COMMAND_BUFFER_USAGE_SIMULTANEOUS_USE_BIT
        commands := createLightCullingCommandBuffer.commands s } ∧
  s.depth_prepass_command_buffer = some
      { flags := VK_COMMAND_BUFFER_USAGE_SIMULTANEOUS_USE_BIT
        commands := createDepthPrePassCommandBuffer.commands s } ∧
  s.command_buffers
    = (List.range' 0 s.swap_chain_framebuffers.length).map (forwardCommandBuffer s)

/-! ## Layout transitions as the specification enumerates them -/

/-- The seven legal (old layout, new layout) pairs named by the specification. -/
def legalTransitions : List (VkImageLayout × VkImageLayout) :=
  [ (VK_IMAGE_LAYOUT_UNDEFINED, VK_IMAGE_LAYOUT_DEPTH_STENCIL_ATTACHMENT_OPTIMAL),
    (VK_IMAGE_LAYOUT_PREINITIALIZED, VK_IMAGE_LAYOUT_TRANSFER_SRC_OPTIMAL),
    (VK_IMAGE_LAYOUT_PREINITIALIZED, VK_IMAGE_LAYOUT_TRANSFER_DST_OPTIMAL),
    (VK_IMAGE_LAYOUT_TRANSFER_DST_OPTIMAL, VK_IMAGE_LAYOUT_SHADER_READ_ONLY_OPTIMAL),
    (VK_IMAGE_LAYOUT_DEPTH_STENCIL_ATTACHMENT_OPTIMAL, VK_IMAGE_LAYOUT_SHADER_READ_ONLY_OPTIMAL),
    (VK_IMAGE_LAYOUT_SHADER_READ_ONLY_OPTIMAL, VK_IMAGE_LAYOUT_DEPTH_STENCIL_ATTACHMENT_OPTIMAL),
    (VK_IMAGE_LAYOUT_UNDEFINED, VK_IMAGE_LAYOUT_SHADER_READ_ONLY_OPTIMAL) ]

/-- The depth-stencil attachment read and write access bits together. -/
def depthStencilReadWrite : VkFlags :=
  VK_ACCESS_DEPTH_STENCIL_ATTACHMENT_READ_BIT ||| VK_ACCESS_DEPTH_STENCIL_ATTACHMENT_WRITE_BIT

/-- The pipeline barrier a layout transition is expected to record: top-of-pipe to
top-of-pipe, no buffer barrier, one image barrier with the given access masks, layouts and
aspect, both queue families ignored, mip level 0 and array layer 0 only. -/
def transitionCommand (image : ImageId) (old_layout new_layout : VkImageLayout)
    (srcAccessMask dstAccessMask aspectMask : VkFlags) : Cmd :=
  .pipelineBarrier VK_PIPELINE_STAGE_TOP_OF_PIPE_BIT VK_PIPELINE_STAGE_TOP_OF_PIPE_BIT []
    [ { srcAccessMask := srcAccessMask
        dstAccessMask := dstAccessMask
        oldLayout := old_layout
        newLayout := new_layout
        srcQueueFamilyIndex := VK_QUEUE_FAMILY_IGNORED
        dstQueueFamilyIndex := VK_QUEUE_FAMILY_IGNORED
        image := image
        aspectMask := aspectMask
        baseMipLevel := 0
        levelCount := 1
        baseArrayLayer := 0
        layerCount := 1 } ]

/-- Memory type `i` is suitable: bit `i` of the type filter is set and the property flags of
table entry `i` contain every requested flag. -/
def memoryTypeSuitable (type_filter : Nat) (properties : VkFlags)
    (memory_properties : VkPhysicalDeviceMemoryProperties) (i : Nat) : Prop :=
  type_filter.testBit i = true ∧
  ∀ k, properties.testBit k = true → (memory_properties.entry i).propertyFlags.testBit k = true

/-! ## Observations for the public operations and the selection functions -/

/-- The log entries a call appends: what `after` holds beyond the log of `before`. -/
def logAdded (before : Renderer) (after : Run) : List Event :=
  after.state.log.drop before.log.length

/-- The member functions entered and the idle waits of a log, in order. -/
def callSequence : List Event → List Event
  | [] => []
  | .enter f :: rest => .enter f :: callSequence rest
  | .vkDeviceWaitIdle :: rest => .vkDeviceWaitIdle :: callSequence rest
  | _ :: rest => callSequence rest

/-- The call sequence of one full swapchain rebuild: `recreateSwapChain` is entered, waits
for the device to become idle, and then enters its eleven steps. -/
def fullRebuildSequence : List Event :=
  [ .enter .recreateSwapChain, .vkDeviceWaitIdle, .enter .createSwapChain,
    .enter .createSwapChainImageViews, .enter .createRenderPasses,
    .enter .createGraphicsPipelines, .enter .createDepthResources, .enter .createFrameBuffers,
    .enter .createLightVisibilityBuffer, .enter .updateIntermediateDescriptorSet,
    .enter .createGraphicsCommandBuffers, .enter .createLightCullingCommandBuffer,
    .enter .createDepthPrePassCommandBuffer ]

/-- The members that no step of a rebuild assigns have the same values in both states. -/
def Renderer.sameSettings (a b : Renderer) : Prop :=
  a.debug_view_index = b.debug_view_index ∧
  a.queue_family_indices = b.queue_family_indices ∧
  a.vertex_indices = b.vertex_indices ∧
  a.pointlight_buffer_size = b.pointlight_buffer_size ∧
  a.window_framebuffer_width = b.window_framebuffer_width ∧
  a.window_framebuffer_height = b.window_framebuffer_height

/-- The surface format the selection prefers. -/
def preferredSurfaceFormat : VkSurfaceFormatKHR :=
  { format := VK_FORMAT_B8G8R8A8_UNORM, colorSpace := VK_COLOR_SPACE_SRGB_NONLINEAR_KHR }

/-- A family with at least one queue that supports graphics. -/
def QueueFamily.supportsGraphics (f : QueueFamily) : Prop :=
  f.queueCount > 0 ∧ f.queueFlags &&& VK_QUEUE_GRAPHICS_BIT ≠ 0

/-- A family with at least one queue that supports compute. -/
def QueueFamily.supportsCompute (f : QueueFamily) : Prop :=
  f.queueCount > 0 ∧ f.queueFlags &&& VK_QUEUE_COMPUTE_BIT ≠ 0

/-- A family with at least one queue that can present to the surface. -/
def QueueFamily.supportsPresent (f : QueueFamily) : Prop :=
  f.queueCount > 0 ∧ f.presentSupport = true

/-- How many entries of a queue-create list name the family `family`. -/
def entriesForFamily (infos : List VkDeviceQueueCreateInfo) (family : Int) : Nat :=
  (infos.filter fun info => decide ((info.queueFamilyIndex : Int) = family)).length

/-! ## Observations for initialisation, the lights and the descriptor pool -/

/-- Every per-image array has one entry per presentable image, and every image index below
the image count names a forward command buffer. -/
def Renderer.sizedFor (image_count : Nat) (s : Renderer) : Prop :=
  s.swap_chain_images.length = image_count ∧
  s.swap_chain_imageviews.length = image_count ∧
  s.swap_chain_framebuffers.length = image_count ∧
  s.command_buffers.length = image_count ∧
  ∀ image_index, image_index < image_count →
    ∃ command_buffer, s.commandBuffer (.command_buffers image_index) = some command_buffer

/-- The public operations of the renderer after construction. -/
inductive Operation where
  | requestDraw (deltatime : Nat)
  | resize (width height : Int)
  | setCamera (view campos : List Nat)
  | changeDebugViewIndex (target_view : Int)
  deriving DecidableEq, Repr

/-- One public operation, with the answers of the frame it meets, on a device that honours
every creation request. -/
def Operation.run (env : Env) : Operation → Renderer → Run
  | .requestDraw deltatime, r => ForwardPlus.requestDraw env deltatime r
  | .resize width height, r => ForwardPlus.resize env width height r
  | .setCamera view campos, r => Run.ok (ForwardPlus.setCamera view campos r)
  | .changeDebugViewIndex target_view, r => ForwardPlus.changeDebugViewIndex env target_view r

/-- A sequence of public operations; an exception ends the sequence. -/
def runOperations : List (Env × Operation) → Renderer → Run
  | [], r => Run.ok r
  | (env, operation) :: rest, r => (operation.run env r).bind (runOperations rest)

/-- One step of following the light count through a log.  The pair holds the `int` at offset
0 of the staging memory and the `int` at offset 0 of the device-local light buffer: a host
write of `light_num` at offset 0 of the staging memory sets the first, a copy from the
staging buffer to the light buffer that starts at offset 0 of both and is at least four
bytes long carries it over to the second. -/
def lightBufferCount.step (held : Option Int × Option Int) : Event → Option Int × Option Int
  | .memcpy .lights_staging_buffer 0 (.light_num value) 4 => (some value, held.2)
  | .singleTimeCommands [.copyBuffer .lights_staging_buffer .pointlight_buffer 0 0 size] =>
    if 4 ≤ size then (held.1, held.1) else held
  | _ => held

/-- The light count held at offset 0 of the device-local light buffer after a log. -/
def lightBufferCount (events : List Event) : Option Int :=
  (events.foldl lightBufferCount.step (none, none)).2

/-- The set layouts a pipeline layout was created with. -/
def Renderer.setLayouts (s : Renderer) : PipelineLayoutId → List DescriptorSetLayoutId
  | .pipeline_layout => s.pipeline_layout
  | .depth_pipeline_layout => s.depth_pipeline_layout
  | .compute_pipeline_layout => s.compute_pipeline_layout

/-- The layout a descriptor set was allocated with, if it has been allocated. -/
def Renderer.allocatedFrom (s : Renderer) (descriptor_set : DescriptorSetId) :
    Option DescriptorSetLayoutId :=
  (s.allocated_descriptor_sets.find? fun a => decide (a.descriptor_set = descriptor_set)).map
    fun a => a.layout

/-- The descriptor-set binds of a command list: pipeline layout, first slot and sets. -/
def descriptorBinds : List Cmd → List (PipelineLayoutId × Nat × List DescriptorSetId)
  | [] => []
  | .bindDescriptorSets _ layout firstSet sets :: rest =>
    (layout, firstSet, sets) :: descriptorBinds rest
  | _ :: rest => descriptorBinds rest

/-- A bind puts every set into the slot whose set layout, in the pipeline layout named by
the bind, is the layout the set was allocated with. -/
def Renderer.slotsAgree (s : Renderer)
    (bind : PipelineLayoutId × Nat × List DescriptorSetId) : Prop :=
  ∀ k, k < bind.2.2.length →
    (bind.2.2.get? k).bind s.allocatedFrom = (s.setLayouts bind.1).get? (bind.2.1 + k)
    ∧ ((s.setLayouts bind.1).get? (bind.2.1 + k)).isSome = true

/-- All command buffers recorded in a state. -/
def Renderer.recordedCommandBuffers (s : Renderer) : List CommandBuffer :=
  s.command_buffers ++ s.light_culling_command_buffer.toList
    ++ s.depth_prepass_command_buffer.toList

/-- The bindings of a descriptor set layout member. -/
def Renderer.layoutBindings (s : Renderer) :
    DescriptorSetLayoutId → List VkDescriptorSetLayoutBinding
  | .object_descriptor_set_layout => s.object_descriptor_set_layout
  | .camera_descriptor_set_layout => s.camera_descriptor_set_layout
  | .light_culling_descriptor_set_layout => s.light_culling_descriptor_set_layout
  | .intermediate_descriptor_set_layout => s.intermediate_descriptor_set_layout

/-- The number of descriptors of one type that the sets allocated so far take from the
pool: the descriptor counts of the bindings of that type in their layouts, added up. -/
def Renderer.descriptorsAllocated (s : Renderer) (type : Nat) : Nat :=
  (s.allocated_descriptor_sets.map fun a =>
    (((s.layoutBindings a.layout).filter fun b => decide (b.descriptorType = type)).map
      fun b => b.descriptorCount).sum).sum

/-- The number of descriptors of one type a pool was created with. -/
def VkDescriptorPoolCreateInfo.capacity (pool : VkDescriptorPoolCreateInfo) (type : Nat) : Nat :=
  ((pool.pPoolSizes.filter fun p => decide (p.type = type)).map fun p => p.descriptorCount).sum

/-- The dispatches of a command list, in order. -/
def dispatches : List Cmd → List (Nat × Nat × Nat)
  | [] => []
  | .dispatch x y z :: rest => (x, y, z) :: dispatches rest
  | _ :: rest => dispatches rest

/-- The pipeline barriers of a command list, in order. -/
def pipelineBarriers : List Cmd → List Cmd
  | [] => []
  | .pipelineBarrier src dst buffers images :: rest =>
    .pipelineBarrier src dst buffers images :: pipelineBarriers rest
  | _ :: rest => pipelineBarriers rest

/-- The push constants of a command list, in order. -/
def pushConstantObjects : List Cmd → List PushConstantObject
  | [] => []
  | .pushConstants _ _ _ pco :: rest => pco :: pushConstantObjects rest
  | _ :: rest => pushConstantObjects rest

/-- The ownership transfer of a whole buffer from the graphics family to the compute family
that precedes the dispatch: shader read before, shader write after. -/
def acquireForCompute (s : Renderer) (buffer : BufferId) (size : Nat) : BufferMemoryBarrier :=
  { srcAccessMask := VK_ACCESS_SHADER_READ_BIT
    dstAccessMask := VK_ACCESS_SHADER_WRITE_BIT
    srcQueueFamilyIndex := toUInt32 s.queue_family_indices.graphics_family
    dstQueueFamilyIndex := toUInt32 s.queue_family_indices.compute_family
    buffer := buffer
    offset := 0
    size := size }

/-- The extent of the swapchain is at least 1x1 and both sides fit an `int`. -/
def Renderer.extentFits (s : Renderer) : Prop :=
  1 ≤ s.swap_chain_extent.width ∧ s.swap_chain_extent.width < 2147483648 ∧
  1 ≤ s.swap_chain_extent.height ∧ s.swap_chain_extent.height < 2147483648

/-- The size-dependent recorded state agrees with the current swapchain extent. -/
def Renderer.sizeAgrees (s : Renderer) : Prop :=
  s.tile_count_per_row = ⌈(s.swap_chain_extent.width : ℚ) / 16⌉ ∧
  s.tile_count_per_col = ⌈(s.swap_chain_extent.height : ℚ) / 16⌉ ∧
  (s.light_visibility_buffer_size : Int)
    = 256 * (s.tile_count_per_row * s.tile_count_per_col) ∧
  (256 : Int) = 4 * (1 + MAX_POINT_LIGHT_PER_TILE) ∧
  (∃ command_buffer, s.light_culling_command_buffer = some command_buffer ∧
    (dispatches command_buffer.commands).map
        (fun d => ((d.1 : Int), (d.2.1 : Int), (d.2.2 : Int)))
      = [(s.tile_count_per_row, s.tile_count_per_col, 1)] ∧
    (pushConstantObjects command_buffer.commands).map (fun pco => (pco.viewport_size, pco.tile_nums))
      = [(((s.swap_chain_extent.width : Int), (s.swap_chain_extent.height : Int)),
          (s.tile_count_per_row, s.tile_count_per_col))]) ∧
  (∀ command_buffer ∈ s.command_buffers,
    pushConstantObjects command_buffer.commands
      = [{ viewport_size := ((s.swap_chain_extent.width : Int), (s.swap_chain_extent.height : Int))
           tile_nums := (s.tile_count_per_row, s.tile_count_per_col)
           debugview_index := s.debug_view_index }])

/-- The host writes into one mapped memory in a log: offset and size of each `memcpy`. -/
def hostWrites (memory : BufferId) : List Event → List (Nat × Nat)
  | [] => []
  | .memcpy m offset _ size :: rest =>
    if m = memory then (offset, size) :: hostWrites memory rest else hostWrites memory rest
  | _ :: rest => hostWrites memory rest

/-- The ranges of one memory that a log maps: offset and size of each `vkMapMemory`. -/
def mappedRanges (memory : BufferId) : List Event → List (Nat × Nat)
  | [] => []
  | .vkMapMemory m offset size :: rest =>
    if m = memory then (offset, size) :: mappedRanges memory rest else mappedRanges memory rest
  | _ :: rest => mappedRanges memory rest

/-- The buffer copies a log submits, in order. -/
def bufferCopies (events : List Event) : List Cmd :=
  (oneShotSubmissions events).flatten.filter fun
    | .copyBuffer _ _ _ _ _ => true
    | _ => false

/-- The members that only initialisation assigns. -/
def Renderer.initMembers (s : Renderer) :=
  (s.object_descriptor_set_layout, s.camera_descriptor_set_layout,
    s.light_culling_descriptor_set_layout, s.intermediate_descriptor_set_layout,
    s.compute_pipeline_layout, s.descriptor_pool, s.allocated_descriptor_sets,
    s.camera_uniform_buffer, s.pointlight_buffer, s.lights_staging_buffer, s.pointlights)

/-- The framebuffer `createFrameBuffers` makes for one swapchain image view. -/
def swapChainFramebuffer (extent : VkExtent2D) (view : Nat) : FramebufferObject :=
  { imageview := view, width := extent.width, height := extent.height }

/-- The size `createLightVisibilityBuffer` computes for a tile grid, in 64-bit arithmetic. -/
def visibilityBufferSize (tile_count_per_row tile_count_per_col : Int) : Nat :=
  (((sizeof_Dummy_VisibleLightsForTile * toUInt64 tile_count_per_row)
    % 18446744073709551616) * toUInt64 tile_count_per_col) % 18446744073709551616

/-- What every build of the swapchain-dependent objects leaves behind: the per-image arrays
follow the swapchain images, the tile grid and the visibility buffer follow the extent, the
forward and depth pipeline layouts are created, and the command buffers are recorded from
the final state. -/
def Renderer.Built (image_count : Nat) (s : Renderer) : Prop :=
  s.swap_chain_images = List.range image_count ∧
  s.swap_chain_imageviews = List.range image_count ∧
  s.swap_chain_framebuffers
    = (List.range image_count).map (swapChainFramebuffer s.swap_chain_extent) ∧
  s.tile_count_per_row = tileCount s.swap_chain_extent.width ∧
  s.tile_count_per_col = tileCount s.swap_chain_extent.height ∧
  s.light_visibility_buffer_size
    = visibilityBufferSize s.tile_count_per_row s.tile_count_per_col ∧
  s.light_visibility_buffer = some (createBuffer.buffer_info s.light_visibility_buffer_size
    VK_BUFFER_USAGE_STORAGE_BUFFER_BIT (-1) (-1)) ∧
  s.pipeline_layout = [ .object_descriptor_set_layout, .camera_descriptor_set_layout,
    .light_culling_descriptor_set_layout, .intermediate_descriptor_set_layout ] ∧
  s.depth_pipeline_layout = [ .object_descriptor_set_layout, .camera_descriptor_set_layout ] ∧
  s.Recorded

/-- The four sets that initialisation allocates, in the order of allocation. -/
def initialAllocations : List DescriptorSetAllocation :=
  [ { descriptor_set := .object_descriptor_set, layout := .object_descriptor_set_layout },
    { descriptor_set := .camera_descriptor_set, layout := .camera_descriptor_set_layout },
    { descriptor_set := .intermediate_descriptor_set
      layout := .intermediate_descriptor_set_layout },
    { descriptor_set := .light_culling_descriptor_set
      layout := .light_culling_descriptor_set_layout } ]

/-- The members that initialisation sets up hold what the creating functions put there. -/
def Renderer.Initialised (s : Renderer) : Prop :=
  s.object_descriptor_set_layout
    = (createDescriptorSetLayouts {}).state.object_descriptor_set_layout ∧
  s.camera_descriptor_set_layout
    = (createDescriptorSetLayouts {}).state.camera_descriptor_set_layout ∧
  s.light_culling_descriptor_set_layout
    = (createDescriptorSetLayouts {}).state.light_culling_descriptor_set_layout ∧
  s.intermediate_descriptor_set_layout
    = (createDescriptorSetLayouts {}).state.intermediate_descriptor_set_layout ∧
  s.compute_pipeline_layout = (createComputePipeline {}).state.compute_pipeline_layout ∧
  s.descriptor_pool = (createDescriptorPool {}).state.descriptor_pool ∧
  s.allocated_descriptor_sets = initialAllocations ∧
  s.pointlight_buffer = (createLights {}).state.pointlight_buffer ∧
  s.lights_staging_buffer = (createLights {}).state.lights_staging_buffer ∧
  s.pointlight_buffer_size = (createLights {}).state.pointlight_buffer_size

/-- A state in which the renderer can draw: initialised, and built for some image count. -/
def Renderer.Ready (s : Renderer) : Prop :=
  s.Initialised ∧ ∃ image_count, s.Built image_count

/-- The log entries one `updateUniformBuffers` appends: the camera block is written to its
staging memory and copied, then the light count and the lights are written to the light
staging memory and the whole light buffer is copied. -/
def uniformUpload (r : Renderer) : List Event :=
  [ .vkMapMemory .camera_staging_buffer 0 sizeof_CameraUbo,
    .memcpy .camera_staging_buffer 0 .camera_ubo sizeof_CameraUbo,
    .vkUnmapMemory .camera_staging_buffer,
    .singleTimeCommands
      [.copyBuffer .camera_staging_buffer .camera_uniform_buffer 0 0 sizeof_CameraUbo],
    .vkMapMemory .lights_staging_buffer 0 r.pointlight_buffer_size,
    .memcpy .lights_staging_buffer 0 (.light_num (toInt32 r.pointlights.length)) sizeof_int,
    .memcpy .lights_staging_buffer sizeof_vec4 (.pointlights_data r.pointlights.length)
      ((sizeof_PointLight * r.pointlights.length) % 18446744073709551616),
    .vkUnmapMemory .lights_staging_buffer,
    .singleTimeCommands
      [.copyBuffer .lights_staging_buffer .pointlight_buffer 0 0 r.pointlight_buffer_size] ]

/-- The log entries of one rebuild, given the two descriptor updates it performs. -/
def rebuildLog (w₁ w₂ : List WriteDescriptorSet) : List Event :=
  [ .enter .recreateSwapChain, .vkDeviceWaitIdle, .enter .createSwapChain,
    .enter .createSwapChainImageViews, .enter .createRenderPasses,
    .enter .createGraphicsPipelines, .enter .createDepthResources,
    .singleTimeCommands [initialDepthTransition .depth_image],
    .singleTimeCommands [initialDepthTransition .pre_pass_depth_image],
    .enter .createFrameBuffers, .enter .createLightVisibilityBuffer,
    .updateDescriptorSets w₁, .enter .updateIntermediateDescriptorSet,
    .updateDescriptorSets w₂, .enter .createGraphicsCommandBuffers,
    .enter .createLightCullingCommandBuffer, .enter .createDepthPrePassCommandBuffer ]

/-! ## Observations on descriptor slots and on the descriptor pool -/

/-- The sets bound at record time sit in the slots of the layouts they were allocated with:
the three pipeline layouts hold the set layouts in the stated order, each command buffer
binds the stated sets from slot 0 against its own pipeline layout, every set was allocated
with the layout of its name, and every bind of every recorded command buffer agrees slot by
slot with the pipeline layout it names. -/
def Renderer.bindsFollowLayouts (s : Renderer) : Prop :=
  s.setLayouts .pipeline_layout
    = [ .object_descriptor_set_layout, .camera_descriptor_set_layout,
        .light_culling_descriptor_set_layout, .intermediate_descriptor_set_layout ] ∧
  (∀ command_buffer ∈ s.command_buffers,
    descriptorBinds command_buffer.commands
      = [(.pipeline_layout, 0,
          [ .object_descriptor_set, .camera_descriptor_set, .light_culling_descriptor_set,
            .intermediate_descriptor_set ])]) ∧
  s.setLayouts .compute_pipeline_layout
    = [ .light_culling_descriptor_set_layout, .camera_descriptor_set_layout,
        .intermediate_descriptor_set_layout ] ∧
  (∃ command_buffer, s.light_culling_command_buffer = some command_buffer ∧
    descriptorBinds command_buffer.commands
      = [(.compute_pipeline_layout, 0,
          [ .light_culling_descriptor_set, .camera_descriptor_set,
            .intermediate_descriptor_set ])]) ∧
  s.setLayouts .depth_pipeline_layout
    = [ .object_descriptor_set_layout, .camera_descriptor_set_layout ] ∧
  (∃ command_buffer, s.depth_prepass_command_buffer = some command_buffer ∧
    descriptorBinds command_buffer.commands
      = [(.depth_pipeline_layout, 0, [ .object_descriptor_set, .camera_descriptor_set ])]) ∧
  (s.allocatedFrom .object_descriptor_set = some .object_descriptor_set_layout ∧
    s.allocatedFrom .camera_descriptor_set = some .camera_descriptor_set_layout ∧
    s.allocatedFrom .light_culling_descriptor_set = some .light_culling_descriptor_set_layout ∧
    s.allocatedFrom .intermediate_descriptor_set = some .intermediate_descriptor_set_layout) ∧
  ∀ command_buffer ∈ s.recordedCommandBuffers,
    ∀ bind ∈ descriptorBinds command_buffer.commands, s.slotsAgree bind

/-- The descriptor pool is large enough for the sets allocated from it: the four sets
(object, camera, intermediate, light culling, each with the layout of its name) are no more
than `maxSets`, and for every descriptor type the descriptors their layouts declare are no
more than the pool was created with; for the three types in use the totals are 1 of 4
uniform buffers, 3 of 3 combined image samplers and 3 of 3 storage buffers. -/
def Renderer.poolSuffices (s : Renderer) : Prop :=
  ∃ pool, s.descriptor_pool = some pool ∧
    s.allocated_descriptor_sets = initialAllocations ∧
    s.allocated_descriptor_sets.length ≤ pool.maxSets ∧
    (∀ type, s.descriptorsAllocated type ≤ pool.capacity type) ∧
    (s.descriptorsAllocated VK_DESCRIPTOR_TYPE_UNIFORM_BUFFER = 1 ∧
      pool.capacity VK_DESCRIPTOR_TYPE_UNIFORM_BUFFER = 4) ∧
    (s.descriptorsAllocated VK_DESCRIPTOR_TYPE_COMBINED_IMAGE_SAMPLER = 3 ∧
      pool.capacity VK_DESCRIPTOR_TYPE_COMBINED_IMAGE_SAMPLER = 3) ∧
    (s.descriptorsAllocated VK_DESCRIPTOR_TYPE_STORAGE_BUFFER = 3 ∧
      pool.capacity VK_DESCRIPTOR_TYPE_STORAGE_BUFFER = 3)

/-! ## Observations on the resources the two queues use -/

/-- A buffer or an image that a command buffer can refer to. -/
inductive Resource where
  | buffer (id : BufferId)
  | image (id : ImageId)
  | swap_chain_image (i : Nat)
  deriving DecidableEq, Repr

/-- The buffer, or the image behind the image view, that a descriptor write names. -/
def WriteDescriptorSet.resource (w : WriteDescriptorSet) : Option Resource :=
  match w.buffer, w.image with
  | some (buffer, _, _), _ => some (.buffer buffer)
  | none, some (image, _) => some (.image image)
  | none, none => none

/-- One descriptor write applied to the table of what each binding of each set holds: the
entry of the binding is replaced, or added when the binding held nothing. -/
def descriptorTable.write (table : List ((DescriptorSetId × Nat) × Resource))
    (w : WriteDescriptorSet) : List ((DescriptorSetId × Nat) × Resource) :=
  match w.resource with
  | none => table
  | some resource =>
    if table.any (fun entry => decide (entry.1 = (w.dstSet, w.dstBinding))) then
      table.map fun entry =>
        if entry.1 = (w.dstSet, w.dstBinding) then (entry.1, resource) else entry
    else
      table ++ [((w.dstSet, w.dstBinding), resource)]

/-- One log entry applied to the descriptor table. -/
def descriptorTable.step (table : List ((DescriptorSetId × Nat) × Resource)) :
    Event → List ((DescriptorSetId × Nat) × Resource)
  | .updateDescriptorSets descriptor_writes => descriptor_writes.foldl descriptorTable.write table
  | _ => table

/-- What each binding of each descriptor set holds after the descriptor updates of a log. -/
def descriptorTable (events : List Event) : List ((DescriptorSetId × Nat) × Resource) :=
  events.foldl descriptorTable.step []

/-- The resources held by the bindings of one descriptor set. -/
def setResources (table : List ((DescriptorSetId × Nat) × Resource))
    (descriptor_set : DescriptorSetId) : List Resource :=
  (table.filter fun entry => decide (entry.1.1 = descriptor_set)).map fun entry => entry.2

/-- The descriptor table that initialisation leaves. -/
def initialDescriptorTable : List ((DescriptorSetId × Nat) × Resource) :=
  [ ((.object_descriptor_set, 0), .buffer .object_uniform_buffer),
    ((.object_descriptor_set, 1), .image .texture_image),
    ((.object_descriptor_set, 2), .image .normalmap_image),
    ((.camera_descriptor_set, 0), .buffer .camera_uniform_buffer),
    ((.intermediate_descriptor_set, 0), .image .pre_pass_depth_image),
    ((.light_culling_descriptor_set, 0), .buffer .light_visibility_buffer),
    ((.light_culling_descriptor_set, 1), .buffer .pointlight_buffer) ]

/-- The descriptor sets hold what initialisation wrote into them. -/
def Renderer.DescriptorsWritten (s : Renderer) : Prop :=
  descriptorTable s.log = initialDescriptorTable

/-- The images attached to a framebuffer by `createFrameBuffers` (lines 1443 and 1465). -/
def FramebufferId.attachments : FramebufferId → List Resource
  | .swap_chain_framebuffer i => [.swap_chain_image i, .image .depth_image]
  | .depth_pre_pass_framebuffer => [.image .pre_pass_depth_image]

/-- The buffers and images one recorded command refers to: the attachments of the framebuffer
it renders to, the contents of the descriptor sets it binds, the buffers it binds, copies or
places a barrier on, and the images it places a barrier on. -/
def Cmd.resources (table : List ((DescriptorSetId × Nat) × Resource)) : Cmd → List Resource
  | .beginRenderPass _ framebuffer _ _ => framebuffer.attachments
  | .bindDescriptorSets _ _ _ sets => (sets.map (setResources table)).flatten
  | .bindVertexBuffers _ buffers _ => buffers.map .buffer
  | .bindIndexBuffer buffer _ => [.buffer buffer]
  | .pipelineBarrier _ _ bufferMemoryBarriers imageMemoryBarriers =>
    bufferMemoryBarriers.map (fun b => .buffer b.buffer)
      ++ imageMemoryBarriers.map (fun b => .image b.image)
  | .copyBuffer src_buffer dst_buffer _ _ _ => [.buffer src_buffer, .buffer dst_buffer]
  | _ => []

/-- The buffers and images the command buffers that one frame submits to a queue refer to,
in the state in which the frame starts. -/
def referencedOn (queue : Queue) (s : Renderer) (env : Env) : List Resource :=
  ((submittedTo queue s (frameLog env s)).map fun command_buffer =>
    (command_buffer.commands.map (Cmd.resources (descriptorTable s.log))).flatten).flatten

/-- The buffers and images held by the descriptor sets that the light-culling command
buffer binds. -/
def boundForLightCulling (s : Renderer) : List Resource :=
  ((s.light_culling_command_buffer.toList.map fun command_buffer =>
    (descriptorBinds command_buffer.commands).map fun bind =>
      (bind.2.2.map (setResources (descriptorTable s.log))).flatten).flatten).flatten

/-! ## Observations on the layout of the pre-pass depth image -/

/-- What Vulkan guarantees of a record that `vkGetPhysicalDeviceSurfaceCapabilitiesKHR`
reports: `currentExtent` is either the special value (0xFFFFFFFF, 0xFFFFFFFF), which says
that the size of the surface is decided by the swapchain, or the current size of the
surface, and then each of its sides lies between those of `minImageExtent` and of
`maxImageExtent`. -/
def VkSurfaceCapabilitiesKHR.asReported (capabilities : VkSurfaceCapabilitiesKHR) : Prop :=
  (capabilities.currentExtent.width = 4294967295
    ∧ capabilities.currentExtent.height = 4294967295) ∨
  (capabilities.minImageExtent.width ≤ capabilities.currentExtent.width
    ∧ capabilities.currentExtent.width ≤ capabilities.maxImageExtent.width
    ∧ capabilities.minImageExtent.height ≤ capabilities.currentExtent.height
    ∧ capabilities.currentExtent.height ≤ capabilities.maxImageExtent.height)

/-! ## Sample inputs -/

/-- Surface capabilities of an 800x600 window surface. -/
def sampleCapabilities : VkSurfaceCapabilitiesKHR :=
  { minImageCount := 2
    maxImageCount := 3
    currentExtent := { width := 800, height := 600 }
    minImageExtent := { width := 1, height := 1 }
    maxImageExtent := { width := 4096, height := 4096 } }

/-- Device answers of a frame in which every call succeeds and image 1 is acquired. -/
def sampleEnv : Env :=
  { capabilities := sampleCapabilities
    image_count := 3
    aquiring_result := VK_SUCCESS
    image_index := 1
    depth_prepass_submit_result := VK_SUCCESS
    light_culling_submit_result := VK_SUCCESS
    submit_result := VK_SUCCESS
    present_result := VK_SUCCESS
    framebuffer_width := 800
    framebuffer_height := 600 }

/-- A renderer whose graphics and present queues are of family 0 and whose compute queue is
of family 1, with a 36-index mesh and the light buffer of `createLights`. -/
def sampleRenderer : Renderer :=
  { queue_family_indices := { graphics_family := 0, present_family := 0, compute_family := 1 }
    vertex_indices := List.range 36
    pointlight_buffer_size := 32016
    window_framebuffer_width := 800
    window_framebuffer_height := 600 }

/-- The sample renderer after a rebuild for the sample surface: three swapchain images,
extent 800x600, all command buffers recorded. -/
def rebuiltSample : Renderer :=
  (recreateSwapChain sampleEnv sampleRenderer).state

/-- The sample renderer with all three queues of family 0, after a rebuild. -/
def rebuiltSingleFamilySample : Renderer :=
  (recreateSwapChain sampleEnv
    { sampleRenderer with
      queue_family_indices :=
        { graphics_family := 0, present_family := 0, compute_family := 0 } }).state

/-- A memory-type table with a host-visible and coherent type 0 and device-local types 1
and 2. -/
def sampleMemoryProperties : VkPhysicalDeviceMemoryProperties :=
  { memoryTypeCount := 3
    memoryTypes := [{ propertyFlags := 6 }, { propertyFlags := 1 }, { propertyFlags := 1 }] }

/-- Device answers under which a buffer of 256 bytes is created, allocated and bound. -/
def sampleBufferDevice : BufferDevice :=
  { buffer_result := VK_SUCCESS
    memory_req := { size := 256, memoryTypeBits := 6 }
    memory_properties := sampleMemoryProperties
    memory_result := VK_SUCCESS
    bind_result := VK_SUCCESS }

/-- A device whose family 0 offers graphics, compute and present, and whose family 1 offers
compute only. -/
def sampleDevice : PhysicalDevice :=
  { queuefamilies :=
      [ { queueFlags := VK_QUEUE_GRAPHICS_BIT ||| VK_QUEUE_COMPUTE_BIT, queueCount := 1,
          presentSupport := true },
        { queueFlags := VK_QUEUE_COMPUTE_BIT, queueCount := 2, presentSupport := false } ]
    available_extensions := ["VK_KHR_maintenance1", "VK_KHR_swapchain"]
    formats := [{ format := 50, colorSpace := 0 }, { format := 44, colorSpace := 0 }]
    present_modes := [VK_PRESENT_MODE_FIFO_KHR, VK_PRESENT_MODE_MAILBOX_KHR] }

/-- A device whose family 0 offers graphics and compute but cannot present to the surface,
and whose family 1 offers compute and present. -/
def splitPresentDevice : PhysicalDevice :=
  { sampleDevice with
    queuefamilies :=
      [ { queueFlags := VK_QUEUE_GRAPHICS_BIT ||| VK_QUEUE_COMPUTE_BIT, queueCount := 1,
          presentSupport := false },
        { queueFlags := VK_QUEUE_COMPUTE_BIT, queueCount := 2, presentSupport := true } ] }
/-- The renderer as constructed for the sample device on the sample surface, with a
36-index mesh. -/
def initialisedSample : Renderer :=
  (VulkanRenderer_Impl.create sampleEnv sampleDevice (List.range 36)).state

/-- The sample answers, except that the device rejects the depth pre-pass submission. -/
def depthPrePassRejectedEnv : Env :=
  { sampleEnv with depth_prepass_submit_result := VK_ERROR_DEVICE_LOST }

/-- The sample answers, except that the device rejects the light-culling submission. -/
def lightCullingRejectedEnv : Env :=
  { sampleEnv with light_culling_submit_result := VK_ERROR_DEVICE_LOST }


/-- Device answers of a frame on a surface whose extent has become 0x0, as for a minimised
window: the acquire reports out-of-date and the surface reports the extent 0x0 for its
current, its minimum and its maximum image extent. -/
def emptySurfaceEnv : Env :=
  { sampleEnv with
    capabilities :=
      { sampleCapabilities with
        currentExtent := { width := 0, height := 0 }
        minImageExtent := { width := 0, height := 0 }
        maxImageExtent := { width := 0, height := 0 } }
    aquiring_result := VK_ERROR_OUT_OF_DATE_KHR
    framebuffer_width := 0
    framebuffer_height := 0 }

/-- The answers of a device that honours every creation request but the one for a new
swapchain, which it refuses for lack of device memory. -/
def swapchainRefusedAnswers : DeviceAnswers :=
  { vkCreateSwapchainKHR := VK_ERROR_OUT_OF_DEVICE_MEMORY }

/-! ## Lemmas on the rebuild -/

theorem Run.bind_of_ok (x : Run) (f : Renderer → Run) (h : x.error = none) :
    x.bind f = f x.state := by
  simp [Run.bind, h]

theorem submissions_append (a b : List Event) :
    submissions (a ++ b) = submissions a ++ submissions b := by
  induction a with
  | nil => rfl
  | cons e a ih => cases e <;> simp [submissions, ih]

theorem presents_append (a b : List Event) :
    presents (a ++ b) = presents a ++ presents b := by
  induction a with
  | nil => rfl
  | cons e a ih => cases e <;> simp [presents, ih]

theorem rebuilds_append (a b : List Event) :
    rebuilds (a ++ b) = rebuilds a + rebuilds b := by
  induction a with
  | nil => simp [rebuilds]
  | cons e a ih =>
    cases e with
    | enter f => cases f <;> simp [rebuilds, ih]; omega
    | _ => simp [rebuilds, ih]

theorem frameOperations_append (a b : List Event) :
    frameOperations (a ++ b) = frameOperations a ++ frameOperations b := by
  induction a with
  | nil => rfl
  | cons e a ih => cases e <;> simp [frameOperations, ih]

theorem recordTransitImageLayout_forward (cmds : List Cmd) :
    recordTransitImageLayout cmds .pre_pass_depth_image VK_IMAGE_LAYOUT_SHADER_READ_ONLY_OPTIMAL
      VK_IMAGE_LAYOUT_DEPTH_STENCIL_ATTACHMENT_OPTIMAL = .ok (cmds ++ [forwardTransition]) := rfl

theorem createGraphicsCommandBuffers_record_ok (r : Renderer) (i : Nat) :
    createGraphicsCommandBuffers.record r i = .ok (forwardCommandBuffer r i) := rfl

theorem createGraphicsCommandBuffers_loop_ok (r : Renderer) (n i : Nat) :
    createGraphicsCommandBuffers.loop r DeviceAnswers.honouring n i
      = .ok ((List.range' i n).map (forwardCommandBuffer r)) := by
  induction n generalizing i with
  | zero => rfl
  | succ n ih =>
    simp only [createGraphicsCommandBuffers.loop, createGraphicsCommandBuffers_record_ok, ih,
      List.range', List.map]

theorem createSwapChainImageViews_loop_ok (images : List Nat) (i : Nat) (views : List Nat) :
    createSwapChainImageViews.loop DeviceAnswers.honouring images i views
      = (views ++ images, none) := by
  induction images generalizing i views with
  | nil => simp [createSwapChainImageViews.loop]
  | cons image rest ih =>
    have h : DeviceAnswers.honouring.vkCreateImageView_swap_chain i = VK_SUCCESS := rfl
    simp [createSwapChainImageViews.loop, createImageView, h, ih]

theorem createSwapChainImageViews_eq (r : Renderer) :
    createSwapChainImageViews r
      = Run.ok { r with
          log := r.log ++ [.enter .createSwapChainImageViews]
          swap_chain_imageviews := r.swap_chain_images } := by
  simp only [createSwapChainImageViews, createSwapChainImageViews_loop_ok, Renderer.logEvent,
    Run.ok, List.nil_append]

theorem createFrameBuffers_loop_ok (r : Renderer) (views : List Nat) (i : Nat)
    (framebuffers : List FramebufferObject) :
    createFrameBuffers.loop r DeviceAnswers.honouring views i framebuffers
      = (framebuffers ++ views.map fun view =>
          { imageview := view
            width := r.swap_chain_extent.width
            height := r.swap_chain_extent.height }, none) := by
  induction views generalizing i framebuffers with
  | nil => simp [createFrameBuffers.loop]
  | cons view rest ih =>
    have h : DeviceAnswers.honouring.vkCreateFramebuffer i = VK_SUCCESS := rfl
    simp [createFrameBuffers.loop, h, ih]

theorem createFrameBuffers_eq (r : Renderer) :
    createFrameBuffers r
      = Run.ok { r with
          log := r.log ++ [.enter .createFrameBuffers]
          swap_chain_framebuffers := r.swap_chain_imageviews.map fun view =>
            { imageview := view
              width := r.swap_chain_extent.width
              height := r.swap_chain_extent.height } } := by
  simp only [createFrameBuffers, createFrameBuffers_loop_ok, Renderer.logEvent,
    Run.ok, List.nil_append]

theorem createGraphicsCommandBuffers_eq (x : Renderer) :
    createGraphicsCommandBuffers x
      = Run.ok { x with
          log := x.log ++ [.enter .createGraphicsCommandBuffers]
          command_buffers := (List.range' 0 x.swap_chain_framebuffers.length).map
            (forwardCommandBuffer x) } := by
  have h : DeviceAnswers.honouring.vkAllocateCommandBuffers = VK_SUCCESS := rfl
  simp only [createGraphicsCommandBuffers, throwUnlessSuccess, h, ne_eq, not_true_eq_false,
    if_false, Run.bind, Run.call, createGraphicsCommandBuffers_loop_ok, Renderer.logEvent,
    Run.ok]
  rfl

theorem createSwapChainImageViews_fun :
    (fun r => createSwapChainImageViews r) = fun r => Run.ok { r with
      log := r.log ++ [.enter .createSwapChainImageViews]
      swap_chain_imageviews := r.swap_chain_images } :=
  funext createSwapChainImageViews_eq

theorem createFrameBuffers_fun :
    (fun r => createFrameBuffers r) = fun r => Run.ok { r with
      log := r.log ++ [.enter .createFrameBuffers]
      swap_chain_framebuffers := r.swap_chain_imageviews.map fun view =>
        { imageview := view
          width := r.swap_chain_extent.width
          height := r.swap_chain_extent.height } } :=
  funext createFrameBuffers_eq

theorem createGraphicsCommandBuffers_fun :
    (fun r => createGraphicsCommandBuffers r) = fun x => Run.ok { x with
      log := x.log ++ [.enter .createGraphicsCommandBuffers]
      command_buffers := (List.range' 0 x.swap_chain_framebuffers.length).map
        (forwardCommandBuffer x) } :=
  funext createGraphicsCommandBuffers_eq

theorem findQueueFamilyIndices_ok (physical_device : PhysicalDevice) (r : Renderer)
    (h : (QueueFamilyIndices.findQueueFamilies physical_device).isComplete = true) :
    findQueueFamilyIndices physical_device r
      = Run.ok { r with
          queue_family_indices := QueueFamilyIndices.findQueueFamilies physical_device } := by
  simp [findQueueFamilyIndices, h]

theorem findQueueFamilyIndices_fun (physical_device : PhysicalDevice)
    (h : (QueueFamilyIndices.findQueueFamilies physical_device).isComplete = true) :
    findQueueFamilyIndices physical_device
      = fun r => Run.ok { r with
          queue_family_indices := QueueFamilyIndices.findQueueFamilies physical_device } :=
  funext fun r => findQueueFamilyIndices_ok physical_device r h

/-- With the answers of the honouring device, the steps of initialisation up to the creation
of the logical device leave the queue family indices found and nothing else. -/
theorem initVulkan_start (physical_device : PhysicalDevice) (r : Renderer)
    (h : (QueueFamilyIndices.findQueueFamilies physical_device).isComplete = true) :
    (((((createInstance r).bind
      (fun r => setupDebugCallback r)).bind
      (fun r => createWindowSurface r)).bind
      (findQueueFamilyIndices physical_device)).bind
      (fun r => Run.call
        (createLogicalDevice physical_device DeviceAnswers.honouring.vkCreateDevice) r
        fun _ => Run.ok r))
      = Run.ok { r with
          queue_family_indices := QueueFamilyIndices.findQueueFamilies physical_device } := by
  rw [findQueueFamilyIndices_fun _ h]
  rfl

/-! With the answers of the honouring device every step of a rebuild and of initialisation
takes the form in which it cannot throw. -/

theorem createSwapChain_eq (env : Env) (r : Renderer) :
    createSwapChain env r
      = (let r := r.logEvent (.enter .createSwapChain)
         let extent := chooseSwapExtent r env.capabilities
         Run.ok { r with
           swap_chain_images := List.range env.image_count
           swap_chain_extent := extent }) := rfl

theorem createDepthResources_eq (r : Renderer) :
    createDepthResources r
      = (let r := r.logEvent (.enter .createDepthResources)
         let depth_image : ImageObject :=
           { width := r.swap_chain_extent.width
             height := r.swap_chain_extent.height
             format := VK_FORMAT_D32_SFLOAT
             tiling := VK_IMAGE_TILING_OPTIMAL
             usage := VK_IMAGE_USAGE_DEPTH_STENCIL_ATTACHMENT_BIT
             initialLayout := VK_IMAGE_LAYOUT_PREINITIALIZED }
         let r := { r with depth_image := some depth_image }
         (transitImageLayout .depth_image VK_IMAGE_LAYOUT_UNDEFINED
             VK_IMAGE_LAYOUT_DEPTH_STENCIL_ATTACHMENT_OPTIMAL r).bind fun r =>
         let pre_pass_depth_image : ImageObject :=
           { width := r.swap_chain_extent.width
             height := r.swap_chain_extent.height
             format := VK_FORMAT_D32_SFLOAT
             tiling := VK_IMAGE_TILING_OPTIMAL
             usage := VK_IMAGE_USAGE_DEPTH_STENCIL_ATTACHMENT_BIT ||| VK_IMAGE_USAGE_SAMPLED_BIT
             initialLayout := VK_IMAGE_LAYOUT_PREINITIALIZED }
         let r := { r with pre_pass_depth_image := some pre_pass_depth_image }
         transitImageLayout .pre_pass_depth_image VK_IMAGE_LAYOUT_UNDEFINED
           VK_IMAGE_LAYOUT_DEPTH_STENCIL_ATTACHMENT_OPTIMAL r) := rfl

theorem createLightVisibilityBuffer_eq (r : Renderer) :
    createLightVisibilityBuffer r
      = (let r := r.logEvent (.enter .createLightVisibilityBuffer)
         let tile_count_per_row := tileCount r.swap_chain_extent.width
         let tile_count_per_col := tileCount r.swap_chain_extent.height
         let light_visibility_buffer_size :=
           (((sizeof_Dummy_VisibleLightsForTile * toUInt64 tile_count_per_row)
             % 18446744073709551616) * toUInt64 tile_count_per_col) % 18446744073709551616
         let r := { r with
           tile_count_per_row := tile_count_per_row
           tile_count_per_col := tile_count_per_col
           light_visibility_buffer_size := light_visibility_buffer_size
           light_visibility_buffer := some (createBuffer.buffer_info light_visibility_buffer_size
             VK_BUFFER_USAGE_STORAGE_BUFFER_BIT (-1) (-1)) }
         Run.ok (r.logEvent (.updateDescriptorSets
           [ { dstSet := .light_culling_descriptor_set
               dstBinding := 0
               dstArrayElement := 0
               descriptorCount := 1
               descriptorType := VK_DESCRIPTOR_TYPE_STORAGE_BUFFER
               buffer := some (.light_visibility_buffer, 0, r.light_visibility_buffer_size)
               image := none },
             { dstSet := .light_culling_descriptor_set
               dstBinding := 1
               dstArrayElement := 0
               descriptorCount := 1
               descriptorType := VK_DESCRIPTOR_TYPE_STORAGE_BUFFER
               buffer := some (.pointlight_buffer, 0, r.pointlight_buffer_size)
               image := none } ]))) := rfl

theorem createUniformBuffers_eq (r : Renderer) :
    createUniformBuffers r
      = (let r := r.logEvent (.vkMapMemory .object_staging_buffer 0 sizeof_SceneObjectUbo)
         let r := r.logEvent
           (.memcpy .object_staging_buffer 0 .scene_object_ubo sizeof_SceneObjectUbo)
         let r := r.logEvent (.vkUnmapMemory .object_staging_buffer)
         let r := copyBuffer .object_staging_buffer .object_uniform_buffer
           sizeof_SceneObjectUbo r
         Run.ok { r with
           camera_uniform_buffer := some (createBuffer.buffer_info sizeof_CameraUbo
             (VK_BUFFER_USAGE_TRANSFER_DST_BIT ||| VK_BUFFER_USAGE_STORAGE_BUFFER_BIT)
             r.queue_family_indices.graphics_family
             r.queue_family_indices.compute_family) }) := rfl

theorem createLights_eq (r : Renderer) :
    createLights r
      = (let r := { r with pointlights := createLights.loop 200 r.pointlights }
         let r := { r with
           pointlight_buffer_size :=
             (sizeof_PointLight * toUInt64 MAX_POINT_LIGHT_COUNT + sizeof_int)
               % 18446744073709551616 }
         let r := { r with
           pointlight_buffer_size :=
             (sizeof_PointLight * toUInt64 MAX_POINT_LIGHT_COUNT + sizeof_vec4)
               % 18446744073709551616 }
         let r := { r with
           lights_staging_buffer := some (createBuffer.buffer_info r.pointlight_buffer_size
             VK_BUFFER_USAGE_TRANSFER_SRC_BIT (-1) (-1)) }
         Run.ok { r with
           pointlight_buffer := some (createBuffer.buffer_info r.pointlight_buffer_size
             (VK_BUFFER_USAGE_STORAGE_BUFFER_BIT ||| VK_BUFFER_USAGE_TRANSFER_DST_BIT)
             (-1) (-1)) }) := rfl

theorem createSceneObjectDescriptorSet_eq (r : Renderer) :
    createSceneObjectDescriptorSet r
      = (let r := { r with
           allocated_descriptor_sets := r.allocated_descriptor_sets ++
             [ ({ descriptor_set := .object_descriptor_set
                  layout := .object_descriptor_set_layout } : DescriptorSetAllocation) ] }
         Run.ok (r.logEvent (.updateDescriptorSets
           [ { dstSet := .object_descriptor_set
               dstBinding := 0
               dstArrayElement := 0
               descriptorCount := 1
               descriptorType := VK_DESCRIPTOR_TYPE_UNIFORM_BUFFER
               buffer := some (.object_uniform_buffer, 0, sizeof_SceneObjectUbo)
               image := none },
             { dstSet := .object_descriptor_set
               dstBinding := 1
               dstArrayElement := 0
               descriptorCount := 1
               descriptorType := VK_DESCRIPTOR_TYPE_COMBINED_IMAGE_SAMPLER
               buffer := none
               image := some (.texture_image, VK_IMAGE_LAYOUT_SHADER_READ_ONLY_OPTIMAL) },
             { dstSet := .object_descriptor_set
               dstBinding := 2
               dstArrayElement := 0
               descriptorCount := 1
               descriptorType := VK_DESCRIPTOR_TYPE_COMBINED_IMAGE_SAMPLER
               buffer := none
               image :=
                 some (.normalmap_image, VK_IMAGE_LAYOUT_SHADER_READ_ONLY_OPTIMAL) } ]))) :=
  rfl

theorem createSwapChain_error (env : Env) (r : Renderer) :
    (createSwapChain env r).error = none := rfl

theorem createSwapChain_log (env : Env) (r : Renderer) :
    (createSwapChain env r).state.log = r.log ++ [.enter .createSwapChain] := rfl

theorem createSwapChainImageViews_error (r : Renderer) :
    (createSwapChainImageViews r).error = none := by
  rw [createSwapChainImageViews_eq]; rfl

theorem createSwapChainImageViews_log (r : Renderer) :
    (createSwapChainImageViews r).state.log
      = r.log ++ [.enter .createSwapChainImageViews] := by
  rw [createSwapChainImageViews_eq]; rfl

theorem createRenderPasses_error (r : Renderer) : (createRenderPasses r).error = none := rfl

theorem createRenderPasses_log (r : Renderer) :
    (createRenderPasses r).state.log = r.log ++ [.enter .createRenderPasses] := rfl

theorem createGraphicsPipelines_error (r : Renderer) :
    (createGraphicsPipelines r).error = none := rfl

theorem createGraphicsPipelines_log (r : Renderer) :
    (createGraphicsPipelines r).state.log = r.log ++ [.enter .createGraphicsPipelines] := rfl

theorem createDepthResources_error (r : Renderer) : (createDepthResources r).error = none := rfl

theorem createDepthResources_log (r : Renderer) :
    (createDepthResources r).state.log
      = r.log ++ [.enter .createDepthResources,
          .singleTimeCommands [initialDepthTransition .depth_image],
          .singleTimeCommands [initialDepthTransition .pre_pass_depth_image]] := by
  simp [createDepthResources_eq, transitImageLayout, Run.bind, Run.ok, Renderer.logEvent,
    recordTransitImageLayout, VK_IMAGE_LAYOUT_UNDEFINED, VK_IMAGE_LAYOUT_PREINITIALIZED,
    VK_IMAGE_LAYOUT_DEPTH_STENCIL_ATTACHMENT_OPTIMAL, VK_IMAGE_LAYOUT_TRANSFER_DST_OPTIMAL,
    VK_IMAGE_LAYOUT_SHADER_READ_ONLY_OPTIMAL, initialDepthTransition]

theorem createFrameBuffers_error (r : Renderer) : (createFrameBuffers r).error = none := by
  rw [createFrameBuffers_eq]; rfl

theorem createFrameBuffers_log (r : Renderer) :
    (createFrameBuffers r).state.log = r.log ++ [.enter .createFrameBuffers] := by
  rw [createFrameBuffers_eq]; rfl

theorem createLightVisibilityBuffer_error (r : Renderer) :
    (createLightVisibilityBuffer r).error = none := rfl

theorem createLightVisibilityBuffer_log (r : Renderer) :
    ∃ w, (createLightVisibilityBuffer r).state.log
      = r.log ++ [.enter .createLightVisibilityBuffer, .updateDescriptorSets w] :=
  ⟨_, by simp [createLightVisibilityBuffer_eq, Run.ok, Renderer.logEvent]; rfl⟩

theorem updateIntermediateDescriptorSet_error (r : Renderer) :
    (updateIntermediateDescriptorSet r).error = none := rfl

theorem updateIntermediateDescriptorSet_log (r : Renderer) :
    ∃ w, (updateIntermediateDescriptorSet r).state.log
      = r.log ++ [.enter .updateIntermediateDescriptorSet, .updateDescriptorSets w] :=
  ⟨_, by simp [updateIntermediateDescriptorSet, Run.ok, Renderer.logEvent]; rfl⟩

theorem createGraphicsCommandBuffers_error (r : Renderer) :
    (createGraphicsCommandBuffers r).error = none := by
  rw [createGraphicsCommandBuffers_eq]; rfl

theorem createGraphicsCommandBuffers_log (r : Renderer) :
    (createGraphicsCommandBuffers r).state.log
      = r.log ++ [.enter .createGraphicsCommandBuffers] := by
  rw [createGraphicsCommandBuffers_eq]; rfl

theorem createLightCullingCommandBuffer_error (r : Renderer) :
    (createLightCullingCommandBuffer r).error = none := rfl

theorem createLightCullingCommandBuffer_log (r : Renderer) :
    (createLightCullingCommandBuffer r).state.log
      = r.log ++ [.enter .createLightCullingCommandBuffer] := rfl

theorem createDepthPrePassCommandBuffer_error (r : Renderer) :
    (createDepthPrePassCommandBuffer r).error = none := rfl

theorem createDepthPrePassCommandBuffer_log (r : Renderer) :
    (createDepthPrePassCommandBuffer r).state.log
      = r.log ++ [.enter .createDepthPrePassCommandBuffer] := rfl

/-- A rebuild never throws, and appends exactly these entries to the call log. -/
theorem recreateSwapChain_spec (env : Env) (r : Renderer) :
    (recreateSwapChain env r).error = none ∧
    ∃ w₁ w₂, (recreateSwapChain env r).state.log
      = r.log ++ [.enter .recreateSwapChain, .vkDeviceWaitIdle, .enter .createSwapChain,
          .enter .createSwapChainImageViews, .enter .createRenderPasses,
          .enter .createGraphicsPipelines, .enter .createDepthResources,
          .singleTimeCommands [initialDepthTransition .depth_image],
          .singleTimeCommands [initialDepthTransition .pre_pass_depth_image],
          .enter .createFrameBuffers, .enter .createLightVisibilityBuffer,
          .updateDescriptorSets w₁, .enter .updateIntermediateDescriptorSet,
          .updateDescriptorSets w₂, .enter .createGraphicsCommandBuffers,
          .enter .createLightCullingCommandBuffer, .enter .createDepthPrePassCommandBuffer] := by
  unfold recreateSwapChain
  simp only []
  have e := createSwapChain_error env
    ((r.logEvent (.enter .recreateSwapChain)).logEvent .vkDeviceWaitIdle)
  have l := createSwapChain_log env
    ((r.logEvent (.enter .recreateSwapChain)).logEvent .vkDeviceWaitIdle)
  generalize createSwapChain env
    ((r.logEvent (.enter .recreateSwapChain)).logEvent .vkDeviceWaitIdle) = x₁ at e l ⊢
  rw [Run.bind_of_ok _ _ e]
  have e₂ := createSwapChainImageViews_error x₁.state
  have l₂ := createSwapChainImageViews_log x₁.state
  rw [l] at l₂
  generalize createSwapChainImageViews x₁.state = x₂ at e₂ l₂ ⊢
  rw [Run.bind_of_ok _ _ e₂]
  have e₃ := createRenderPasses_error x₂.state
  have l₃ := createRenderPasses_log x₂.state
  rw [l₂] at l₃
  generalize createRenderPasses x₂.state = x₃ at e₃ l₃ ⊢
  rw [Run.bind_of_ok _ _ e₃]
  have e₄ := createGraphicsPipelines_error x₃.state
  have l₄ := createGraphicsPipelines_log x₃.state
  rw [l₃] at l₄
  generalize createGraphicsPipelines x₃.state = x₄ at e₄ l₄ ⊢
  rw [Run.bind_of_ok _ _ e₄]
  have e₅ := createDepthResources_error x₄.state
  have l₅ := createDepthResources_log x₄.state
  rw [l₄] at l₅
  generalize createDepthResources x₄.state = x₅ at e₅ l₅ ⊢
  rw [Run.bind_of_ok _ _ e₅]
  have e₆ := createFrameBuffers_error x₅.state
  have l₆ := createFrameBuffers_log x₅.state
  rw [l₅] at l₆
  generalize createFrameBuffers x₅.state = x₆ at e₆ l₆ ⊢
  rw [Run.bind_of_ok _ _ e₆]
  have e₇ := createLightVisibilityBuffer_error x₆.state
  obtain ⟨w₁, l₇⟩ := createLightVisibilityBuffer_log x₆.state
  rw [l₆] at l₇
  generalize createLightVisibilityBuffer x₆.state = x₇ at e₇ l₇ ⊢
  rw [Run.bind_of_ok _ _ e₇]
  have e₈ := updateIntermediateDescriptorSet_error x₇.state
  obtain ⟨w₂, l₈⟩ := updateIntermediateDescriptorSet_log x₇.state
  rw [l₇] at l₈
  generalize updateIntermediateDescriptorSet x₇.state = x₈ at e₈ l₈ ⊢
  rw [Run.bind_of_ok _ _ e₈]
  have e₉ := createGraphicsCommandBuffers_error x₈.state
  have l₉ := createGraphicsCommandBuffers_log x₈.state
  rw [l₈] at l₉
  generalize createGraphicsCommandBuffers x₈.state = x₉ at e₉ l₉ ⊢
  rw [Run.bind_of_ok _ _ e₉]
  have e₁₀ := createLightCullingCommandBuffer_error x₉.state
  have l₁₀ := createLightCullingCommandBuffer_log x₉.state
  rw [l₉] at l₁₀
  generalize createLightCullingCommandBuffer x₉.state = x₁₀ at e₁₀ l₁₀ ⊢
  rw [Run.bind_of_ok _ _ e₁₀]
  have e₁₁ := createDepthPrePassCommandBuffer_error x₁₀.state
  have l₁₁ := createDepthPrePassCommandBuffer_log x₁₀.state
  rw [l₁₀] at l₁₁
  refine ⟨e₁₁, w₁, w₂, ?_⟩
  rw [l₁₁]
  simp [Renderer.logEvent]

/-- The part of the log a rebuild appends holds no frame submission, no present and no
acquire, one entry into `recreateSwapChain`, and the two one-shot layout transitions of
`createDepthResources`. -/
theorem recreateSwapChain_appends (env : Env) (r : Renderer) :
    (recreateSwapChain env r).error = none ∧
    ∃ added, (recreateSwapChain env r).state.log = r.log ++ added ∧
      submissions added = [] ∧ presents added = [] ∧ frameOperations added = [] ∧
      rebuilds added = 1 ∧
      oneShotSubmissions added = [[initialDepthTransition .depth_image],
        [initialDepthTransition .pre_pass_depth_image]] := by
  obtain ⟨he, w₁, w₂, hl⟩ := recreateSwapChain_spec env r
  exact ⟨he, _, hl, rfl, rfl, rfl, rfl, rfl⟩

/-! ## Lemmas on the rebuild, whatever the device answers -/

theorem quietLog_nil : quietLog [] := ⟨rfl, rfl, rfl, rfl⟩

theorem quietLog_append {a b : List Event} (ha : quietLog a) (hb : quietLog b) :
    quietLog (a ++ b) := by
  obtain ⟨ha₁, ha₂, ha₃, ha₄⟩ := ha
  obtain ⟨hb₁, hb₂, hb₃, hb₄⟩ := hb
  refine ⟨?_, ?_, ?_, ?_⟩
  · rw [submissions_append, ha₁, hb₁]; rfl
  · rw [presents_append, ha₂, hb₂]; rfl
  · rw [frameOperations_append, ha₃, hb₃]; rfl
  · rw [rebuilds_append, ha₄, hb₄]

theorem Run.quietSince_same (x : Run) (r : Renderer) (h : x.state.log = r.log) :
    x.quietSince r.log :=
  ⟨[], by rw [h, List.append_nil], quietLog_nil⟩

theorem Run.quietSince_bind {x : Run} {before : List Event} {f : Renderer → Run}
    (hx : x.quietSince before) (hf : ∀ s, (f s).quietSince s.log) :
    (x.bind f).quietSince before := by
  unfold Run.bind
  split
  · obtain ⟨a, ha, qa⟩ := hx
    obtain ⟨b, hb, qb⟩ := hf x.state
    exact ⟨a ++ b, by rw [hb, ha, List.append_assoc], quietLog_append qa qb⟩
  · exact hx

theorem Run.quietSince_logEvent {x : Run} {r : Renderer} (e : Event) (he : quietLog [e])
    (hx : x.quietSince (r.logEvent e).log) : x.quietSince r.log := by
  obtain ⟨a, ha, qa⟩ := hx
  exact ⟨[e] ++ a, by rw [ha]; simp [Renderer.logEvent], quietLog_append he qa⟩

theorem throwUnlessSuccess_quiet (result : VkResult) (what : String) (r : Renderer) :
    (throwUnlessSuccess result what r).quietSince r.log := by
  unfold throwUnlessSuccess
  split <;> exact Run.quietSince_same _ r rfl

theorem Run.call_quiet {α : Type} (x : Except String α) (r : Renderer) (next : α → Run)
    (h : ∀ value, (next value).quietSince r.log) : (Run.call x r next).quietSince r.log := by
  unfold Run.call
  split
  · exact Run.quietSince_same _ r rfl
  · exact h _

theorem transitImageLayout_quiet (image : ImageId) (old_layout new_layout : VkImageLayout)
    (r : Renderer) :
    (transitImageLayout image old_layout new_layout r).quietSince r.log := by
  unfold transitImageLayout
  split
  · exact Run.quietSince_same _ r rfl
  · exact ⟨[_], rfl, rfl, rfl, rfl, rfl⟩

theorem createSwapChain_quiet (env : Env) (r : Renderer) (answers : DeviceAnswers) :
    (createSwapChain env r answers).quietSince r.log := by
  unfold createSwapChain
  refine Run.quietSince_logEvent (.enter .createSwapChain) ⟨rfl, rfl, rfl, rfl⟩ ?_
  exact Run.quietSince_bind (throwUnlessSuccess_quiet _ _ _)
    (fun s => Run.quietSince_same _ s rfl)

theorem createSwapChainImageViews_quiet (r : Renderer) (answers : DeviceAnswers) :
    (createSwapChainImageViews r answers).quietSince r.log :=
  ⟨[.enter .createSwapChainImageViews], rfl, rfl, rfl, rfl, rfl⟩

theorem createRenderPasses_quiet (r : Renderer) (answers : DeviceAnswers) :
    (createRenderPasses r answers).quietSince r.log := by
  unfold createRenderPasses
  refine Run.quietSince_logEvent (.enter .createRenderPasses) ⟨rfl, rfl, rfl, rfl⟩ ?_
  refine Run.call_quiet _ _ _ fun _ => ?_
  refine Run.quietSince_bind (throwUnlessSuccess_quiet _ _ _) fun s => ?_
  refine Run.call_quiet _ { s with depth_pre_pass := _ } _ fun _ => ?_
  exact Run.quietSince_bind (throwUnlessSuccess_quiet _ _ { s with depth_pre_pass := _ })
    (fun s => Run.quietSince_same _ s rfl)

theorem createGraphicsPipelines_quiet (r : Renderer) (answers : DeviceAnswers) :
    (createGraphicsPipelines r answers).quietSince r.log := by
  unfold createGraphicsPipelines
  refine Run.quietSince_logEvent (.enter .createGraphicsPipelines) ⟨rfl, rfl, rfl, rfl⟩ ?_
  refine Run.call_quiet _ _ _ fun _ => ?_
  refine Run.call_quiet _ _ _ fun _ => ?_
  refine Run.quietSince_bind (throwUnlessSuccess_quiet _ _ _) fun s => ?_
  refine Run.quietSince_bind (throwUnlessSuccess_quiet _ _ { s with pipeline_layout := _ })
    fun s => ?_
  exact Run.call_quiet _ _ _ fun _ => Run.quietSince_same _ s rfl

theorem createDepthResources_quiet (r : Renderer) (answers : DeviceAnswers) :
    (createDepthResources r answers).quietSince r.log := by
  unfold createDepthResources
  refine Run.quietSince_logEvent (.enter .createDepthResources) ⟨rfl, rfl, rfl, rfl⟩ ?_
  refine Run.call_quiet _ _ _ fun _ => ?_
  refine Run.call_quiet _ _ _ fun _ => ?_
  refine Run.call_quiet _ { (r.logEvent _) with depth_image := _ } _ fun _ => ?_
  refine Run.quietSince_bind
    (transitImageLayout_quiet _ _ _ { (r.logEvent _) with depth_image := _ }) fun s => ?_
  refine Run.call_quiet _ _ _ fun _ => ?_
  refine Run.call_quiet _ { s with pre_pass_depth_image := _ } _ fun _ => ?_
  exact transitImageLayout_quiet _ _ _ { s with pre_pass_depth_image := _ }

theorem createFrameBuffers_quiet (r : Renderer) (answers : DeviceAnswers) :
    (createFrameBuffers r answers).quietSince r.log :=
  ⟨[.enter .createFrameBuffers], rfl, rfl, rfl, rfl, rfl⟩

theorem createLightVisibilityBuffer_quiet (r : Renderer) (answers : DeviceAnswers) :
    (createLightVisibilityBuffer r answers).quietSince r.log := by
  unfold createLightVisibilityBuffer
  refine Run.quietSince_logEvent (.enter .createLightVisibilityBuffer) ⟨rfl, rfl, rfl, rfl⟩ ?_
  refine Run.call_quiet _ { (r.logEvent _) with
    tile_count_per_row := _, tile_count_per_col := _, light_visibility_buffer_size := _ } _
    fun _ => ?_
  exact ⟨[_], rfl, rfl, rfl, rfl, rfl⟩

theorem updateIntermediateDescriptorSet_quiet (r : Renderer) :
    (updateIntermediateDescriptorSet r).quietSince r.log := by
  unfold updateIntermediateDescriptorSet
  refine Run.quietSince_logEvent (.enter .updateIntermediateDescriptorSet)
    ⟨rfl, rfl, rfl, rfl⟩ ?_
  exact ⟨[_], rfl, rfl, rfl, rfl, rfl⟩

theorem createGraphicsCommandBuffers_quiet (r : Renderer) (answers : DeviceAnswers) :
    (createGraphicsCommandBuffers r answers).quietSince r.log := by
  unfold createGraphicsCommandBuffers
  refine Run.quietSince_logEvent (.enter .createGraphicsCommandBuffers) ⟨rfl, rfl, rfl, rfl⟩ ?_
  refine Run.quietSince_bind (throwUnlessSuccess_quiet _ _ _) fun s => ?_
  exact Run.call_quiet _ _ _ fun _ => Run.quietSince_same _ s rfl

theorem createLightCullingCommandBuffer_quiet (r : Renderer) :
    (createLightCullingCommandBuffer r).quietSince r.log :=
  ⟨[.enter .createLightCullingCommandBuffer], rfl, rfl, rfl, rfl, rfl⟩

theorem createDepthPrePassCommandBuffer_quiet (r : Renderer) :
    (createDepthPrePassCommandBuffer r).quietSince r.log :=
  ⟨[.enter .createDepthPrePassCommandBuffer], rfl, rfl, rfl, rfl, rfl⟩

/-- Whatever the device answers, a rebuild appends to the log one entry into
`recreateSwapChain` and otherwise no acquire, no queue submission and no present. -/
theorem recreateSwapChain_quiet (env : Env) (r : Renderer) (answers : DeviceAnswers) :
    ∃ added, (recreateSwapChain env r answers).state.log = r.log ++ added ∧
      submissions added = [] ∧ presents added = [] ∧ frameOperations added = [] ∧
      rebuilds added = 1 := by
  have h : (recreateSwapChain env r answers).quietSince
      ((r.logEvent (.enter .recreateSwapChain)).logEvent .vkDeviceWaitIdle).log := by
    unfold recreateSwapChain
    refine Run.quietSince_bind ?_ createDepthPrePassCommandBuffer_quiet
    refine Run.quietSince_bind ?_ createLightCullingCommandBuffer_quiet
    refine Run.quietSince_bind ?_ (fun s => createGraphicsCommandBuffers_quiet s answers)
    refine Run.quietSince_bind ?_ updateIntermediateDescriptorSet_quiet
    refine Run.quietSince_bind ?_ (fun s => createLightVisibilityBuffer_quiet s answers)
    refine Run.quietSince_bind ?_ (fun s => createFrameBuffers_quiet s answers)
    refine Run.quietSince_bind ?_ (fun s => createDepthResources_quiet s answers)
    refine Run.quietSince_bind ?_ (fun s => createGraphicsPipelines_quiet s answers)
    refine Run.quietSince_bind ?_ (fun s => createRenderPasses_quiet s answers)
    refine Run.quietSince_bind ?_ (fun s => createSwapChainImageViews_quiet s answers)
    exact createSwapChain_quiet env _ answers
  obtain ⟨a, ha, qa₁, qa₂, qa₃, qa₄⟩ := h
  refine ⟨[.enter .recreateSwapChain, .vkDeviceWaitIdle] ++ a, ?_, ?_, ?_, ?_, ?_⟩
  · rw [ha]; simp [Renderer.logEvent]
  · rw [submissions_append, qa₁]; rfl
  · rw [presents_append, qa₂]; rfl
  · rw [frameOperations_append, qa₃]; rfl
  · rw [rebuilds_append, qa₄]; rfl

/-! ## Lemmas on drawFrame -/

theorem frameLog_of_log (env : Env) (r : Renderer) (added : List Event)
    (h : (drawFrame env r).state.log = r.log ++ added) : frameLog env r = added := by
  simp [frameLog, h]

/-- The four branches of `drawFrame` that end without a rebuild or with one. -/
theorem drawFrame_out_of_date (env : Env) (r : Renderer)
    (h : env.aquiring_result = VK_ERROR_OUT_OF_DATE_KHR) :
    drawFrame env r = recreateSwapChain env (r.logEvent frameAcquire) := by
  simp [drawFrame, h, frameAcquire]

theorem drawFrame_acquire_failed (env : Env) (r : Renderer)
    (h₁ : env.aquiring_result ≠ VK_ERROR_OUT_OF_DATE_KHR)
    (h₂ : env.aquiring_result ≠ VK_SUCCESS) (h₃ : env.aquiring_result ≠ VK_SUBOPTIMAL_KHR) :
    drawFrame env r
      = Run.throw (r.logEvent frameAcquire) "Failed to acquire swap chain image!" := by
  simp [drawFrame, h₁, h₂, h₃, frameAcquire]

theorem drawFrame_acquired (env : Env) (r : Renderer)
    (h : env.aquiring_result = VK_SUCCESS ∨ env.aquiring_result = VK_SUBOPTIMAL_KHR) :
    drawFrame env r =
      if env.submit_result ≠ VK_SUCCESS then
        Run.throw (afterSubmissions env r) "Failed to submit draw command buffer!"
      else if env.present_result = VK_ERROR_OUT_OF_DATE_KHR
          ∨ env.present_result = VK_SUBOPTIMAL_KHR then
        recreateSwapChain env (afterPresent env r)
      else if env.present_result ≠ VK_SUCCESS then
        Run.throw (afterPresent env r) "Failed to present swap chain image!"
      else
        Run.ok (afterPresent env r) := by
  have h₁ : env.aquiring_result ≠ VK_ERROR_OUT_OF_DATE_KHR := by
    rcases h with h | h <;> rw [h] <;> decide
  have h₂ : ¬ (env.aquiring_result ≠ VK_SUCCESS ∧ env.aquiring_result ≠ VK_SUBOPTIMAL_KHR) := by
    rcases h with h | h <;> simp [h]
  simp only [drawFrame, if_neg h₁, if_neg h₂]
  simp [afterSubmissions, afterPresent, Renderer.logEvent, frameAcquire, depthPrePassSubmission,
    lightCullingSubmission, forwardSubmission, framePresent]

/-- What `drawFrame` appends to the log once the acquire did not stop the frame. -/
theorem frameLog_acquired (env : Env) (r : Renderer)
    (h : env.aquiring_result = VK_SUCCESS ∨ env.aquiring_result = VK_SUBOPTIMAL_KHR) :
    ∃ added,
      frameLog env r = [frameAcquire, depthPrePassSubmission, lightCullingSubmission,
        forwardSubmission env.image_index] ++ added ∧
      submissions added = [] ∧
      (env.submit_result ≠ VK_SUCCESS →
        added = [] ∧ (drawFrame env r).error = some "Failed to submit draw command buffer!") ∧
      (env.submit_result = VK_SUCCESS →
        ∃ rebuilt, added = framePresent env.image_index :: rebuilt ∧
          submissions rebuilt = [] ∧ presents rebuilt = [] ∧ frameOperations rebuilt = [] ∧
          (env.present_result = VK_ERROR_OUT_OF_DATE_KHR
              ∨ env.present_result = VK_SUBOPTIMAL_KHR →
            rebuilds rebuilt = 1 ∧ (drawFrame env r).error = none) ∧
          (env.present_result = VK_SUCCESS →
            rebuilt = [] ∧ (drawFrame env r).error = none) ∧
          (env.present_result ≠ VK_ERROR_OUT_OF_DATE_KHR →
            env.present_result ≠ VK_SUBOPTIMAL_KHR → env.present_result ≠ VK_SUCCESS →
            rebuilt = [] ∧
              (drawFrame env r).error = some "Failed to present swap chain image!")) := by
  have hd := drawFrame_acquired env r h
  by_cases hs : env.submit_result = VK_SUCCESS
  · simp only [hs, ne_eq, not_true_eq_false, if_false] at hd
    by_cases hp : env.present_result = VK_ERROR_OUT_OF_DATE_KHR
        ∨ env.present_result = VK_SUBOPTIMAL_KHR
    · rw [if_pos hp] at hd
      obtain ⟨he, rebuilt, hl, hrs, hrp, hro, hrr, -⟩ :=
        recreateSwapChain_appends env (afterPresent env r)
      rw [← hd] at he hl
      have hne : env.present_result ≠ VK_SUCCESS := by
        rcases hp with hp | hp <;> rw [hp] <;> decide
      refine ⟨framePresent env.image_index :: rebuilt, ?_, ?_, ?_, ?_⟩
      · exact frameLog_of_log env r _ (by simp [hl, afterPresent])
      · simpa [submissions, framePresent] using hrs
      · intro hc; exact absurd hs hc
      · intro _
        refine ⟨rebuilt, rfl, hrs, hrp, hro, fun _ => ⟨hrr, he⟩, fun hc => absurd hc hne, ?_⟩
        intro h₁ h₂ _
        rcases hp with hp | hp
        · exact absurd hp h₁
        · exact absurd hp h₂
    · rw [if_neg hp] at hd
      have hp₁ : env.present_result ≠ VK_ERROR_OUT_OF_DATE_KHR := fun hc => hp (Or.inl hc)
      have hp₂ : env.present_result ≠ VK_SUBOPTIMAL_KHR := fun hc => hp (Or.inr hc)
      by_cases hok : env.present_result = VK_SUCCESS
      · simp only [hok, ne_eq, not_true_eq_false, if_false] at hd
        refine ⟨[framePresent env.image_index], ?_, rfl, ?_, ?_⟩
        · exact frameLog_of_log env r _ (by simp [hd, Run.ok, afterPresent])
        · intro hc; exact absurd hs hc
        · intro _
          refine ⟨[], rfl, rfl, rfl, rfl, fun hc => absurd hc hp, ?_, ?_⟩
          · intro _; exact ⟨rfl, by simp [hd, Run.ok]⟩
          · intro _ _ hc; exact absurd hok hc
      · rw [if_pos hok] at hd
        refine ⟨[framePresent env.image_index], ?_, rfl, ?_, ?_⟩
        · exact frameLog_of_log env r _ (by simp [hd, Run.throw, afterPresent])
        · intro hc; exact absurd hs hc
        · intro _
          refine ⟨[], rfl, rfl, rfl, rfl, fun hc => absurd hc hp, fun hc => absurd hc hok, ?_⟩
          intro _ _ _; exact ⟨rfl, by simp [hd, Run.throw]⟩
  · rw [if_pos hs] at hd
    refine ⟨[], ?_, rfl, ?_, ?_⟩
    · exact frameLog_of_log env r _ (by simp [hd, Run.throw, afterSubmissions])
    · intro _; exact ⟨rfl, by simp [hd, Run.throw]⟩
    · intro hc; exact absurd hc hs

/-- What `drawFrame` does when the acquire fails with a result that is no staleness signal. -/
theorem frameLog_acquire_failed (env : Env) (r : Renderer)
    (h₁ : env.aquiring_result ≠ VK_ERROR_OUT_OF_DATE_KHR)
    (h₂ : env.aquiring_result ≠ VK_SUCCESS) (h₃ : env.aquiring_result ≠ VK_SUBOPTIMAL_KHR) :
    frameLog env r = [frameAcquire] ∧
      (drawFrame env r).error = some "Failed to acquire swap chain image!" := by
  have hd := drawFrame_acquire_failed env r h₁ h₂ h₃
  exact ⟨frameLog_of_log env r _ (by simp [hd, Run.throw, Renderer.logEvent]),
    by simp [hd, Run.throw]⟩

/-- When the device refuses the new swapchain, a rebuild ends in `createSwapChain` with the
exception of line 911. -/
theorem recreateSwapChain_refused (env : Env) (r : Renderer) (answers : DeviceAnswers)
    (h : answers.vkCreateSwapchainKHR ≠ VK_SUCCESS) :
    (recreateSwapChain env r answers).error = some "Failed to create swap chain!" := by
  unfold recreateSwapChain createSwapChain throwUnlessSuccess
  simp [h, Run.bind, Run.throw]

/-! ## Lemmas on drawFrame, whatever the device answers -/

theorem frameLog_of_log_any (env : Env) (r : Renderer) (answers : DeviceAnswers)
    (added : List Event) (h : (drawFrame env r answers).state.log = r.log ++ added) :
    frameLog env r answers = added := by
  simp [frameLog, h]

theorem drawFrame_out_of_date_any (env : Env) (r : Renderer) (answers : DeviceAnswers)
    (h : env.aquiring_result = VK_ERROR_OUT_OF_DATE_KHR) :
    drawFrame env r answers = recreateSwapChain env (r.logEvent frameAcquire) answers := by
  simp [drawFrame, h, frameAcquire]

theorem drawFrame_acquire_failed_any (env : Env) (r : Renderer) (answers : DeviceAnswers)
    (h₁ : env.aquiring_result ≠ VK_ERROR_OUT_OF_DATE_KHR)
    (h₂ : env.aquiring_result ≠ VK_SUCCESS) (h₃ : env.aquiring_result ≠ VK_SUBOPTIMAL_KHR) :
    drawFrame env r answers
      = Run.throw (r.logEvent frameAcquire) "Failed to acquire swap chain image!" := by
  simp [drawFrame, h₁, h₂, h₃, frameAcquire]

theorem drawFrame_acquired_any (env : Env) (r : Renderer) (answers : DeviceAnswers)
    (h : env.aquiring_result = VK_SUCCESS ∨ env.aquiring_result = VK_SUBOPTIMAL_KHR) :
    drawFrame env r answers =
      if env.submit_result ≠ VK_SUCCESS then
        Run.throw (afterSubmissions env r) "Failed to submit draw command buffer!"
      else if env.present_result = VK_ERROR_OUT_OF_DATE_KHR
          ∨ env.present_result = VK_SUBOPTIMAL_KHR then
        recreateSwapChain env (afterPresent env r) answers
      else if env.present_result ≠ VK_SUCCESS then
        Run.throw (afterPresent env r) "Failed to present swap chain image!"
      else
        Run.ok (afterPresent env r) := by
  have h₁ : env.aquiring_result ≠ VK_ERROR_OUT_OF_DATE_KHR := by
    rcases h with h | h <;> rw [h] <;> decide
  have h₂ : ¬ (env.aquiring_result ≠ VK_SUCCESS ∧ env.aquiring_result ≠ VK_SUBOPTIMAL_KHR) := by
    rcases h with h | h <;> simp [h]
  simp only [drawFrame, if_neg h₁, if_neg h₂]
  simp [afterSubmissions, afterPresent, Renderer.logEvent, frameAcquire, depthPrePassSubmission,
    lightCullingSubmission, forwardSubmission, framePresent]

/-- What `drawFrame` appends to the log when the acquire reports out-of-date, whatever the
device answers to the rebuild. -/
theorem frameLog_out_of_date_any (env : Env) (r : Renderer) (answers : DeviceAnswers)
    (h : env.aquiring_result = VK_ERROR_OUT_OF_DATE_KHR) :
    ∃ added, frameLog env r answers = frameAcquire :: added ∧
      submissions added = [] ∧ presents added = [] ∧ rebuilds added = 1 := by
  obtain ⟨added, hl, hs, hp, -, hr⟩ :=
    recreateSwapChain_quiet env (r.logEvent frameAcquire) answers
  rw [← drawFrame_out_of_date_any env r answers h] at hl
  exact ⟨added, frameLog_of_log_any env r answers _ (by simp [hl, Renderer.logEvent]),
    hs, hp, hr⟩

/-- What `drawFrame` appends to the log once the acquire did not stop the frame, whatever
the device answers to a rebuild that the present result asks for. -/
theorem frameLog_acquired_any (env : Env) (r : Renderer) (answers : DeviceAnswers)
    (h : env.aquiring_result = VK_SUCCESS ∨ env.aquiring_result = VK_SUBOPTIMAL_KHR) :
    ∃ added,
      frameLog env r answers = [frameAcquire, depthPrePassSubmission, lightCullingSubmission,
        forwardSubmission env.image_index] ++ added ∧
      submissions added = [] ∧
      (env.submit_result = VK_SUCCESS →
        ∃ rebuilt, added = framePresent env.image_index :: rebuilt ∧
          (env.present_result = VK_ERROR_OUT_OF_DATE_KHR
              ∨ env.present_result = VK_SUBOPTIMAL_KHR →
            rebuilds rebuilt = 1 ∧
              (drawFrame env r answers).error
                = (recreateSwapChain env (afterPresent env r) answers).error) ∧
          (env.present_result = VK_SUCCESS →
            rebuilt = [] ∧ (drawFrame env r answers).error = none) ∧
          (env.present_result ≠ VK_ERROR_OUT_OF_DATE_KHR →
            env.present_result ≠ VK_SUBOPTIMAL_KHR → env.present_result ≠ VK_SUCCESS →
            rebuilt = [] ∧
              (drawFrame env r answers).error
                = some "Failed to present swap chain image!")) := by
  have hd := drawFrame_acquired_any env r answers h
  by_cases hs : env.submit_result = VK_SUCCESS
  · simp only [hs, ne_eq, not_true_eq_false, if_false] at hd
    by_cases hp : env.present_result = VK_ERROR_OUT_OF_DATE_KHR
        ∨ env.present_result = VK_SUBOPTIMAL_KHR
    · rw [if_pos hp] at hd
      obtain ⟨rebuilt, hl, hrs, -, -, hrr⟩ :=
        recreateSwapChain_quiet env (afterPresent env r) answers
      rw [← hd] at hl
      have hne : env.present_result ≠ VK_SUCCESS := by
        rcases hp with hp | hp <;> rw [hp] <;> decide
      refine ⟨framePresent env.image_index :: rebuilt, ?_, ?_, ?_⟩
      · exact frameLog_of_log_any env r answers _ (by simp [hl, afterPresent])
      · simpa [submissions, framePresent] using hrs
      · intro _
        refine ⟨rebuilt, rfl, fun _ => ⟨hrr, by rw [hd]⟩, fun hc => absurd hc hne, ?_⟩
        intro h₁ h₂ _
        rcases hp with hp | hp
        · exact absurd hp h₁
        · exact absurd hp h₂
    · rw [if_neg hp] at hd
      by_cases hok : env.present_result = VK_SUCCESS
      · simp only [hok, ne_eq, not_true_eq_false, if_false] at hd
        refine ⟨[framePresent env.image_index], ?_, rfl, ?_⟩
        · exact frameLog_of_log_any env r answers _ (by simp [hd, Run.ok, afterPresent])
        · intro _
          refine ⟨[], rfl, fun hc => absurd hc hp, ?_, ?_⟩
          · intro _; exact ⟨rfl, by simp [hd, Run.ok]⟩
          · intro _ _ hc; exact absurd hok hc
      · rw [if_pos hok] at hd
        refine ⟨[framePresent env.image_index], ?_, rfl, ?_⟩
        · exact frameLog_of_log_any env r answers _ (by simp [hd, Run.throw, afterPresent])
        · intro _
          refine ⟨[], rfl, fun hc => absurd hc hp, fun hc => absurd hc hok, ?_⟩
          intro _ _ _; exact ⟨rfl, by simp [hd, Run.throw]⟩
  · rw [if_pos hs] at hd
    refine ⟨[], ?_, rfl, ?_⟩
    · exact frameLog_of_log_any env r answers _ (by simp [hd, Run.throw, afterSubmissions])
    · intro hc; exact absurd hc hs

/-! ## Claims on drawFrame -/

/-- C1, as stated, fails: when the acquire reports out-of-date and the device refuses the
new swapchain, `recreateSwapChain` throws "Failed to create swap chain!" (line 911) and
`drawFrame` passes the exception on. -/
theorem drawFrame_acquire_out_of_date_can_raise :
    ({ sampleEnv with aquiring_result := VK_ERROR_OUT_OF_DATE_KHR } : Env).aquiring_result
      = VK_ERROR_OUT_OF_DATE_KHR ∧
    swapchainRefusedAnswers.vkCreateSwapchainKHR = VK_ERROR_OUT_OF_DEVICE_MEMORY ∧
    (drawFrame { sampleEnv with aquiring_result := VK_ERROR_OUT_OF_DATE_KHR } sampleRenderer
      swapchainRefusedAnswers).error = some "Failed to create swap chain!" :=
  ⟨rfl, rfl, rfl⟩

/-- C1 (amended). When image acquisition returns out-of-date, whatever the device answers
to the creation requests of the rebuild, `drawFrame` submits none of the depth pre-pass,
light-culling and forward command buffers, presents nothing, enters `recreateSwapChain`
exactly once, and ends with the exception of that `recreateSwapChain` if it throws one and
without an exception if it throws none.  It throws "Failed to create swap chain!" when the
device refuses the new swapchain.  On a device that honours every creation request it
throws none, and the only command buffers the call hands to a queue are the two one-shot
layout transitions that `createDepthResources` performs inside the rebuild. -/
theorem drawFrame_acquire_out_of_date_rebuilds_once (env : Env) (r : Renderer)
    (answers : DeviceAnswers) (h : env.aquiring_result = VK_ERROR_OUT_OF_DATE_KHR) :
    submissions (frameLog env r answers) = [] ∧ presents (frameLog env r answers) = [] ∧
    rebuilds (frameLog env r answers) = 1 ∧
    (drawFrame env r answers).error
      = (recreateSwapChain env (r.logEvent frameAcquire) answers).error ∧
    (answers.vkCreateSwapchainKHR ≠ VK_SUCCESS →
      (drawFrame env r answers).error = some "Failed to create swap chain!") ∧
    (drawFrame env r).error = none ∧
    oneShotSubmissions (frameLog env r) = [[initialDepthTransition .depth_image],
      [initialDepthTransition .pre_pass_depth_image]] := by
  obtain ⟨added, hf, hs, hp, hr⟩ := frameLog_out_of_date_any env r answers h
  obtain ⟨he, added', hl', -, -, -, -, ho'⟩ :=
    recreateSwapChain_appends env (r.logEvent frameAcquire)
  rw [← drawFrame_out_of_date env r h] at he hl'
  have hf' : frameLog env r = frameAcquire :: added' :=
    frameLog_of_log env r _ (by simp [hl', Renderer.logEvent])
  rw [hf, hf']
  refine ⟨?_, ?_, ?_, ?_, ?_, he, ?_⟩
  · simpa [submissions, frameAcquire] using hs
  · simpa [presents, frameAcquire] using hp
  · simpa [rebuilds, frameAcquire] using hr
  · rw [drawFrame_out_of_date_any env r answers h]
  · intro hrefused
    rw [drawFrame_out_of_date_any env r answers h]
    exact recreateSwapChain_refused env _ answers hrefused
  · simpa [oneShotSubmissions, frameAcquire] using ho'

/-- Witness of C1 (amended): a frame whose acquire reports out-of-date, on a device that
refuses the new swapchain. -/
theorem drawFrame_acquire_out_of_date_rebuilds_once_witness :
    ({ sampleEnv with aquiring_result := VK_ERROR_OUT_OF_DATE_KHR } : Env).aquiring_result
      = VK_ERROR_OUT_OF_DATE_KHR ∧
    submissions (frameLog { sampleEnv with aquiring_result := VK_ERROR_OUT_OF_DATE_KHR }
      sampleRenderer swapchainRefusedAnswers) = [] ∧
    presents (frameLog { sampleEnv with aquiring_result := VK_ERROR_OUT_OF_DATE_KHR }
      sampleRenderer swapchainRefusedAnswers) = [] ∧
    rebuilds (frameLog { sampleEnv with aquiring_result := VK_ERROR_OUT_OF_DATE_KHR }
      sampleRenderer swapchainRefusedAnswers) = 1 ∧
    (drawFrame { sampleEnv with aquiring_result := VK_ERROR_OUT_OF_DATE_KHR }
      sampleRenderer).error = none :=
  ⟨rfl,
    (drawFrame_acquire_out_of_date_rebuilds_once
      { sampleEnv with aquiring_result := VK_ERROR_OUT_OF_DATE_KHR } sampleRenderer
      swapchainRefusedAnswers rfl).1,
    (drawFrame_acquire_out_of_date_rebuilds_once
      { sampleEnv with aquiring_result := VK_ERROR_OUT_OF_DATE_KHR } sampleRenderer
      swapchainRefusedAnswers rfl).2.1,
    (drawFrame_acquire_out_of_date_rebuilds_once
      { sampleEnv with aquiring_result := VK_ERROR_OUT_OF_DATE_KHR } sampleRenderer
      swapchainRefusedAnswers rfl).2.2.1,
    (drawFrame_acquire_out_of_date_rebuilds_once
      { sampleEnv with aquiring_result := VK_ERROR_OUT_OF_DATE_KHR } sampleRenderer
      swapchainRefusedAnswers rfl).2.2.2.2.2.1⟩

/-- C2, as stated, fails: when the acquire reports suboptimal, `drawFrame` does not abort
the frame; it makes all three submissions and the present, and rebuilds nothing. -/
theorem drawFrame_acquire_suboptimal_is_not_aborted :
    ({ sampleEnv with aquiring_result := VK_SUBOPTIMAL_KHR } : Env).aquiring_result
      = VK_SUBOPTIMAL_KHR ∧
    submissions (frameLog { sampleEnv with aquiring_result := VK_SUBOPTIMAL_KHR } sampleRenderer)
      = submissions [depthPrePassSubmission, lightCullingSubmission, forwardSubmission 1] ∧
    presents (frameLog { sampleEnv with aquiring_result := VK_SUBOPTIMAL_KHR } sampleRenderer)
      = presents [framePresent 1] ∧
    rebuilds (frameLog { sampleEnv with aquiring_result := VK_SUBOPTIMAL_KHR } sampleRenderer)
      = 0 := by
  decide

/-- C2 (amended). For every result code of the acquire, whatever the device answers to the
creation requests of a rebuild: on success and on suboptimal `drawFrame` proceeds to the
three submissions; on out-of-date it submits nothing and enters `recreateSwapChain`; on any
other result it throws "Failed to acquire swap chain image!", having submitted nothing. -/
theorem drawFrame_acquire_classification (env : Env) (r : Renderer)
    (answers : DeviceAnswers) :
    (env.aquiring_result = VK_SUCCESS ∨ env.aquiring_result = VK_SUBOPTIMAL_KHR →
      submissions (frameLog env r answers) = submissions [depthPrePassSubmission,
        lightCullingSubmission, forwardSubmission env.image_index]) ∧
    (env.aquiring_result = VK_ERROR_OUT_OF_DATE_KHR →
      submissions (frameLog env r answers) = [] ∧ rebuilds (frameLog env r answers) = 1) ∧
    (env.aquiring_result ≠ VK_SUCCESS → env.aquiring_result ≠ VK_SUBOPTIMAL_KHR →
      env.aquiring_result ≠ VK_ERROR_OUT_OF_DATE_KHR →
      (drawFrame env r answers).error = some "Failed to acquire swap chain image!" ∧
      submissions (frameLog env r answers) = []) := by
  refine ⟨?_, ?_, ?_⟩
  · intro h
    obtain ⟨added, hl, hs, -⟩ := frameLog_acquired_any env r answers h
    rw [hl, submissions_append, hs, List.append_nil]
    rfl
  · intro h
    obtain ⟨added, hf, hs, -, hr⟩ := frameLog_out_of_date_any env r answers h
    rw [hf]
    refine ⟨?_, ?_⟩
    · simpa [submissions, frameAcquire] using hs
    · simpa [rebuilds, frameAcquire] using hr
  · intro h₂ h₃ h₁
    have hd := drawFrame_acquire_failed_any env r answers h₁ h₂ h₃
    have hl : frameLog env r answers = [frameAcquire] :=
      frameLog_of_log_any env r answers _ (by simp [hd, Run.throw, Renderer.logEvent])
    rw [hl]
    exact ⟨by simp [hd, Run.throw], rfl⟩

/-- Witness of C2 (amended): one frame for each of the three classes of acquire results,
the out-of-date one on a device that refuses the new swapchain. -/
theorem drawFrame_acquire_classification_witness :
    submissions (frameLog { sampleEnv with aquiring_result := VK_SUBOPTIMAL_KHR } sampleRenderer)
      = submissions [depthPrePassSubmission, lightCullingSubmission, forwardSubmission 1] ∧
    rebuilds (frameLog { sampleEnv with aquiring_result := VK_ERROR_OUT_OF_DATE_KHR }
      sampleRenderer swapchainRefusedAnswers) = 1 ∧
    (drawFrame { sampleEnv with aquiring_result := VK_ERROR_DEVICE_LOST } sampleRenderer).error
      = some "Failed to acquire swap chain image!" :=
  ⟨(drawFrame_acquire_classification { sampleEnv with aquiring_result := VK_SUBOPTIMAL_KHR }
      sampleRenderer DeviceAnswers.honouring).1 (Or.inr rfl),
   ((drawFrame_acquire_classification
      { sampleEnv with aquiring_result := VK_ERROR_OUT_OF_DATE_KHR } sampleRenderer
      swapchainRefusedAnswers).2.1 rfl).2,
   ((drawFrame_acquire_classification { sampleEnv with aquiring_result := VK_ERROR_DEVICE_LOST }
      sampleRenderer DeviceAnswers.honouring).2.2 (by decide) (by decide) (by decide)).1⟩

/-- C3, as stated, fails: when the three submissions succeeded, the present reports
suboptimal and the device refuses the new swapchain, `recreateSwapChain` throws "Failed to
create swap chain!" (line 911) and `drawFrame` passes the exception on. -/
theorem drawFrame_present_stale_can_raise :
    (sampleEnv.aquiring_result = VK_SUCCESS ∧
      sampleEnv.depth_prepass_submit_result = VK_SUCCESS ∧
      sampleEnv.light_culling_submit_result = VK_SUCCESS ∧
      sampleEnv.submit_result = VK_SUCCESS) ∧
    swapchainRefusedAnswers.vkCreateSwapchainKHR = VK_ERROR_OUT_OF_DEVICE_MEMORY ∧
    rebuilds (frameLog { sampleEnv with present_result := VK_SUBOPTIMAL_KHR } sampleRenderer
      swapchainRefusedAnswers) = 1 ∧
    (drawFrame { sampleEnv with present_result := VK_SUBOPTIMAL_KHR } sampleRenderer
      swapchainRefusedAnswers).error = some "Failed to create swap chain!" :=
  ⟨⟨rfl, rfl, rfl, rfl⟩, rfl, by decide, rfl⟩

/-- C3 (amended). Once the acquire let the frame proceed and the forward submission
succeeded (the results of the two earlier submissions are not consulted), the present result
is classified for every result code, whatever the device answers to the creation requests
of a rebuild: out-of-date or suboptimal gives exactly one `recreateSwapChain`, and
`drawFrame` ends with the exception of that `recreateSwapChain` if it throws one ("Failed to
create swap chain!" when the device refuses the new swapchain) and without an exception if
it throws none, as on a device that honours every creation request; success
gives no rebuild and no exception; any other result makes `drawFrame` throw "Failed to
present swap chain image!" without a rebuild. -/
theorem drawFrame_present_classification (env : Env) (r : Renderer)
    (answers : DeviceAnswers)
    (hacq : env.aquiring_result = VK_SUCCESS ∨ env.aquiring_result = VK_SUBOPTIMAL_KHR)
    (hsub : env.submit_result = VK_SUCCESS) :
    (env.present_result = VK_ERROR_OUT_OF_DATE_KHR ∨ env.present_result = VK_SUBOPTIMAL_KHR →
      rebuilds (frameLog env r answers) = 1 ∧
      (drawFrame env r answers).error
        = (recreateSwapChain env (afterPresent env r) answers).error ∧
      (answers.vkCreateSwapchainKHR ≠ VK_SUCCESS →
        (drawFrame env r answers).error = some "Failed to create swap chain!") ∧
      (drawFrame env r).error = none) ∧
    (env.present_result = VK_SUCCESS →
      rebuilds (frameLog env r answers) = 0 ∧ (drawFrame env r answers).error = none) ∧
    (env.present_result ≠ VK_ERROR_OUT_OF_DATE_KHR → env.present_result ≠ VK_SUBOPTIMAL_KHR →
      env.present_result ≠ VK_SUCCESS →
      rebuilds (frameLog env r answers) = 0 ∧
        (drawFrame env r answers).error = some "Failed to present swap chain image!") := by
  obtain ⟨added, hl, -, h⟩ := frameLog_acquired_any env r answers hacq
  obtain ⟨rebuilt, ha, hstale, hok, hfail⟩ := h hsub
  have hcount : rebuilds (frameLog env r answers) = rebuilds rebuilt := by
    rw [hl, ha, rebuilds_append]
    simp [rebuilds, frameAcquire, depthPrePassSubmission, lightCullingSubmission,
      forwardSubmission, framePresent]
  rw [hcount]
  refine ⟨?_, ?_, ?_⟩
  · intro hp
    obtain ⟨hr, he⟩ := hstale hp
    refine ⟨hr, he, fun hrefused => he.trans (recreateSwapChain_refused env _ answers hrefused),
      ?_⟩
    obtain ⟨_, _, _, _, h'⟩ := frameLog_acquired env r hacq
    obtain ⟨_, _, _, _, _, hstale', _, _⟩ := h' hsub
    exact (hstale' hp).2
  · intro hp
    obtain ⟨hr, he⟩ := hok hp
    exact ⟨by rw [hr]; rfl, he⟩
  · intro h₁ h₂ h₃
    obtain ⟨hr, he⟩ := hfail h₁ h₂ h₃
    exact ⟨by rw [hr]; rfl, he⟩

/-- Witness of C3 (amended): frames whose present reports suboptimal (on a device that
refuses the new swapchain), success and device loss. -/
theorem drawFrame_present_classification_witness :
    (sampleEnv.aquiring_result = VK_SUCCESS ∧ sampleEnv.submit_result = VK_SUCCESS) ∧
    (rebuilds (frameLog { sampleEnv with present_result := VK_SUBOPTIMAL_KHR } sampleRenderer
        swapchainRefusedAnswers) = 1 ∧
      (drawFrame { sampleEnv with present_result := VK_SUBOPTIMAL_KHR } sampleRenderer).error
        = none) ∧
    (rebuilds (frameLog sampleEnv sampleRenderer) = 0 ∧
      (drawFrame sampleEnv sampleRenderer).error = none) ∧
    (rebuilds (frameLog { sampleEnv with present_result := VK_ERROR_DEVICE_LOST }
        sampleRenderer) = 0 ∧
      (drawFrame { sampleEnv with present_result := VK_ERROR_DEVICE_LOST } sampleRenderer).error
        = some "Failed to present swap chain image!") :=
  ⟨⟨rfl, rfl⟩,
   ⟨((drawFrame_present_classification { sampleEnv with present_result := VK_SUBOPTIMAL_KHR }
      sampleRenderer swapchainRefusedAnswers (Or.inl rfl) rfl).1 (Or.inr rfl)).1,
    ((drawFrame_present_classification { sampleEnv with present_result := VK_SUBOPTIMAL_KHR }
      sampleRenderer swapchainRefusedAnswers (Or.inl rfl) rfl).1 (Or.inr rfl)).2.2.2⟩,
   (drawFrame_present_classification sampleEnv sampleRenderer DeviceAnswers.honouring
      (Or.inl rfl) rfl).2.1 rfl,
   (drawFrame_present_classification { sampleEnv with present_result := VK_ERROR_DEVICE_LOST }
      sampleRenderer DeviceAnswers.honouring (Or.inl rfl) rfl).2.2
        (by decide) (by decide) (by decide)⟩

/-- C4, as stated, fails: in a frame whose acquire succeeds but whose forward submission is
rejected, `drawFrame` throws after the third submission; nothing is presented, so the
render-done semaphore is never waited on. -/
theorem drawFrame_forward_submit_failure_skips_present :
    ({ sampleEnv with submit_result := VK_ERROR_DEVICE_LOST } : Env).aquiring_result
      = VK_SUCCESS ∧
    frameOperations (frameLog { sampleEnv with submit_result := VK_ERROR_DEVICE_LOST }
      sampleRenderer)
      = [frameAcquire, depthPrePassSubmission, lightCullingSubmission, forwardSubmission 1] ∧
    presents (frameLog { sampleEnv with submit_result := VK_ERROR_DEVICE_LOST } sampleRenderer)
      = [] ∧
    waitCount .render_finished_semaphore
      (frameOperations (frameLog { sampleEnv with submit_result := VK_ERROR_DEVICE_LOST }
        sampleRenderer)) = 0 ∧
    (drawFrame { sampleEnv with submit_result := VK_ERROR_DEVICE_LOST } sampleRenderer).error
      = some "Failed to submit draw command buffer!" := by
  decide

/-- C4 (amended). For every frame whose acquire succeeds with image index `i` and whose
forward submission is accepted, the acquire, submit and present operations of `drawFrame` are
exactly, in this order: the acquire signalling image-acquired; the depth pre-pass buffer on
the graphics queue with no wait, signalling depth-done; the light-culling buffer on the
compute queue waiting on depth-done at the compute-shader stage, signalling culling-done;
forward buffer `i` on the graphics queue waiting on image-acquired at
color-attachment-output and on culling-done at fragment-shader, signalling render-done; the
present of image `i` waiting on render-done.  Each of the four semaphores is signalled
once, waited on once, and signalled before it is waited on. -/
theorem drawFrame_operations_in_order (env : Env) (r : Renderer)
    (hacq : env.aquiring_result = VK_SUCCESS) (hsub : env.submit_result = VK_SUCCESS) :
    frameOperations (frameLog env r)
      = [ .vkAcquireNextImageKHR ACQUIRE_NEXT_IMAGE_TIMEOUT .image_available_semaphore,
          .queueSubmit .graphics_queue
            { waitSemaphores := []
              waitDstStageMask := []
              commandBuffers := [.depth_prepass_command_buffer]
              signalSemaphores := [.depth_prepass_finished_semaphore] },
          .queueSubmit .compute_queue
            { waitSemaphores := [.depth_prepass_finished_semaphore]
              waitDstStageMask := [VK_PIPELINE_STAGE_COMPUTE_SHADER_BIT]
              commandBuffers := [.light_culling_command_buffer]
              signalSemaphores := [.lightculling_completed_semaphore] },
          .queueSubmit .graphics_queue
            { waitSemaphores := [.image_available_semaphore, .lightculling_completed_semaphore]
              waitDstStageMask := [VK_PIPELINE_STAGE_COLOR_ATTACHMENT_OUTPUT_BIT,
                VK_PIPELINE_STAGE_FRAGMENT_SHADER_BIT]
              commandBuffers := [.command_buffers env.image_index]
              signalSemaphores := [.render_finished_semaphore] },
          .vkQueuePresentKHR .present_queue
            { waitSemaphores := [.render_finished_semaphore]
              imageIndices := [env.image_index] } ] ∧
    ∀ s : Semaphore,
      signalCount s (frameOperations (frameLog env r)) = 1 ∧
      waitCount s (frameOperations (frameLog env r)) = 1 ∧
      signalIndex s (frameOperations (frameLog env r))
        < waitIndex s (frameOperations (frameLog env r)) := by
  obtain ⟨added, hl, -, -, h⟩ := frameLog_acquired env r (Or.inl hacq)
  obtain ⟨rebuilt, ha, -, -, ho, -⟩ := h hsub
  have hops : frameOperations (frameLog env r)
      = [frameAcquire, depthPrePassSubmission, lightCullingSubmission,
          forwardSubmission env.image_index, framePresent env.image_index] := by
    rw [hl, ha, frameOperations_append]
    simp [frameOperations, ho, frameAcquire, depthPrePassSubmission, lightCullingSubmission,
      forwardSubmission, framePresent]
  rw [hops]
  refine ⟨rfl, ?_⟩
  intro s
  cases s <;>
    simp [signalCount, waitCount, signalIndex, waitIndex, Event.signals, Event.waits,
      frameAcquire, depthPrePassSubmission, lightCullingSubmission, forwardSubmission,
      framePresent, List.findIdx_cons]

/-- Witness of C4 (amended): the frame in which every call succeeds and image 1 is acquired. -/
theorem drawFrame_operations_in_order_witness :
    (sampleEnv.aquiring_result = VK_SUCCESS ∧ sampleEnv.submit_result = VK_SUCCESS) ∧
    frameOperations (frameLog sampleEnv sampleRenderer)
      = [frameAcquire, depthPrePassSubmission, lightCullingSubmission, forwardSubmission 1,
          framePresent 1] ∧
    signalIndex .render_finished_semaphore (frameOperations (frameLog sampleEnv sampleRenderer))
      < waitIndex .render_finished_semaphore
          (frameOperations (frameLog sampleEnv sampleRenderer)) :=
  ⟨⟨rfl, rfl⟩, (drawFrame_operations_in_order sampleEnv sampleRenderer rfl rfl).1,
    ((drawFrame_operations_in_order sampleEnv sampleRenderer rfl rfl).2
      .render_finished_semaphore).2.2⟩

/-! ## Claims on the ownership-transfer barriers -/

theorem Run.bind_error (x : Run) (f : Renderer → Run) (hx : x.error = none)
    (hf : ∀ s, (f s).error = none) : (x.bind f).error = none := by
  rw [Run.bind_of_ok x f hx]; exact hf _

/-- The last three steps of a rebuild leave the command buffers recorded from the final
state. -/
theorem recorded_after_recording (x : Renderer) :
    (createDepthPrePassCommandBuffer (createLightCullingCommandBuffer
      (createGraphicsCommandBuffers x).state).state).state.Recorded := by
  rw [createGraphicsCommandBuffers_eq]
  refine ⟨?_, ?_, ?_⟩
  · simp [createDepthPrePassCommandBuffer, createLightCullingCommandBuffer, Run.ok,
      Renderer.logEvent, createLightCullingCommandBuffer.commands,
      createLightCullingCommandBuffer.barriers_before,
      createLightCullingCommandBuffer.barriers_after]
  · simp [createDepthPrePassCommandBuffer, createLightCullingCommandBuffer, Run.ok,
      Renderer.logEvent, createDepthPrePassCommandBuffer.commands]
  · simp [createDepthPrePassCommandBuffer, createLightCullingCommandBuffer, Run.ok,
      Renderer.logEvent, forwardCommandBuffer,
      createGraphicsCommandBuffers.renderPassCommands]

/-- After a rebuild the command buffers are recorded from the state the rebuild leaves. -/
theorem recreateSwapChain_recorded (env : Env) (r : Renderer) :
    (recreateSwapChain env r).state.Recorded := by
  unfold recreateSwapChain
  simp only []
  have hx := Run.bind_error _ _ (Run.bind_error _ _ (Run.bind_error _ _ (Run.bind_error _ _
    (Run.bind_error _ _ (Run.bind_error _ _ (Run.bind_error _ _
      (createSwapChain_error env
        ((r.logEvent (.enter .recreateSwapChain)).logEvent .vkDeviceWaitIdle))
      createSwapChainImageViews_error) createRenderPasses_error)
      createGraphicsPipelines_error) createDepthResources_error) createFrameBuffers_error)
      createLightVisibilityBuffer_error) updateIntermediateDescriptorSet_error
  generalize ((((((((createSwapChain env
    ((r.logEvent (.enter .recreateSwapChain)).logEvent .vkDeviceWaitIdle)).bind
    createSwapChainImageViews).bind createRenderPasses).bind createGraphicsPipelines).bind
    createDepthResources).bind createFrameBuffers).bind createLightVisibilityBuffer).bind
    updateIntermediateDescriptorSet) = x at hx ⊢
  rw [Run.bind_of_ok _ _ hx,
    Run.bind_of_ok _ _ (createGraphicsCommandBuffers_error _),
    Run.bind_of_ok _ _ (createLightCullingCommandBuffer_error _)]
  exact recorded_after_recording x.state

theorem bufferBarriers_forward (s : Renderer) (i : Nat) :
    bufferBarriers (forwardCommandBuffer s i) = [] := rfl

theorem bufferBarriers_depthPrePass (s : Renderer) :
    bufferBarriers { flags := VK_COMMAND_BUFFER_USAGE_SIMULTANEOUS_USE_BIT
                     commands := createDepthPrePassCommandBuffer.commands s } = [] := rfl

theorem bufferBarriers_lightCulling (s : Renderer) :
    bufferBarriers { flags := VK_COMMAND_BUFFER_USAGE_SIMULTANEOUS_USE_BIT
                     commands := createLightCullingCommandBuffer.commands s }
      = createLightCullingCommandBuffer.barriers_before s
        ++ createLightCullingCommandBuffer.barriers_after s := rfl

/-- The command buffers one frame hands to the two queues, in a state whose command buffers
are recorded. -/
theorem submittedTo_frame (s : Renderer) (hrec : s.Recorded) (env : Env)
    (hacq : env.aquiring_result = VK_SUCCESS ∨ env.aquiring_result = VK_SUBOPTIMAL_KHR) :
    submittedTo .compute_queue s (frameLog env s)
      = [{ flags := VK_COMMAND_BUFFER_USAGE_SIMULTANEOUS_USE_BIT
           commands := createLightCullingCommandBuffer.commands s }] ∧
    ∀ cb ∈ submittedTo .graphics_queue s (frameLog env s), bufferBarriers cb = [] := by
  obtain ⟨added, hl, hs, -, -⟩ := frameLog_acquired env s hacq
  obtain ⟨hlc, hdp, hfw⟩ := hrec
  have hsub : submissions (frameLog env s) = submissions [depthPrePassSubmission,
      lightCullingSubmission, forwardSubmission env.image_index] := by
    rw [hl, submissions_append, hs, List.append_nil]; rfl
  constructor
  · simp [submittedTo, hsub, submissions, depthPrePassSubmission, lightCullingSubmission,
      forwardSubmission, Renderer.commandBuffer, hlc]
  · intro cb hcb
    simp only [submittedTo, hsub, submissions, depthPrePassSubmission, lightCullingSubmission,
      forwardSubmission] at hcb
    simp [Renderer.commandBuffer, hdp] at hcb
    rcases hcb with hcb | hcb
    · rw [hcb]; rfl
    · have hmem : cb ∈ s.command_buffers := List.getElem?_mem hcb
      rw [hfw, List.mem_map] at hmem
      obtain ⟨j, -, hj⟩ := hmem
      rw [← hj]; rfl

/-- C5, as stated, fails: in a frame of the rebuilt sample renderer (graphics family 0,
compute family 1) the light-culling command buffer holds acquire barriers for the
visibility and the light buffer, and no command buffer submitted to the graphics queue holds
any buffer barrier, so the acquire barriers have no match on the graphics queue. -/
theorem barrier_pairing_fails_across_queues :
    (submittedTo .compute_queue rebuiltSample (frameLog sampleEnv rebuiltSample)).map
        (fun cb => (bufferBarriers cb).map fun b =>
          (b.buffer, b.srcQueueFamilyIndex, b.dstQueueFamilyIndex))
      = [[(.light_visibility_buffer, 0, 1), (.pointlight_buffer, 0, 1),
          (.light_visibility_buffer, 1, 0), (.pointlight_buffer, 1, 0)]] ∧
    (submittedTo .graphics_queue rebuiltSample (frameLog sampleEnv rebuiltSample)).map
        bufferBarriers = [[], []] ∧
    barrierPairing 1
      (submittedTo .compute_queue rebuiltSample (frameLog sampleEnv rebuiltSample))
      (submittedTo .graphics_queue rebuiltSample (frameLog sampleEnv rebuiltSample)) = false := by
  decide

/-- C5 (amended). In a frame drawn in a state whose command buffers are recorded (as after
every rebuild), the light-culling command buffer is the only one handed to the compute
queue; its buffer barriers are, for the visibility buffer and the light buffer, an acquire
barrier (graphics family to compute family) followed by the mirrored release barrier
(compute family to graphics family, same buffer, offset and size); the command buffers
handed to the graphics queue record no buffer barrier at all.  Hence the pairing across the
queues holds when the graphics and compute families coincide, where no barrier transfers
ownership. -/
theorem barriers_paired_within_light_culling (s : Renderer) (hrec : s.Recorded) (env : Env)
    (hacq : env.aquiring_result = VK_SUCCESS ∨ env.aquiring_result = VK_SUBOPTIMAL_KHR) :
    (∃ cb, submittedTo .compute_queue s (frameLog env s) = [cb] ∧
      s.light_culling_command_buffer = some cb ∧
      bufferBarriers cb = createLightCullingCommandBuffer.barriers_before s
        ++ createLightCullingCommandBuffer.barriers_after s) ∧
    (createLightCullingCommandBuffer.barriers_before s).map
        (fun b => (b.buffer, b.offset, b.size, b.srcQueueFamilyIndex, b.dstQueueFamilyIndex))
      = [ (.light_visibility_buffer, 0, s.light_visibility_buffer_size,
            toUInt32 s.queue_family_indices.graphics_family,
            toUInt32 s.queue_family_indices.compute_family),
          (.pointlight_buffer, 0, s.pointlight_buffer_size,
            toUInt32 s.queue_family_indices.graphics_family,
            toUInt32 s.queue_family_indices.compute_family) ] ∧
    createLightCullingCommandBuffer.barriers_after s
      = (createLightCullingCommandBuffer.barriers_before s).map BufferMemoryBarrier.mirror ∧
    (∀ cb ∈ submittedTo .graphics_queue s (frameLog env s), bufferBarriers cb = []) ∧
    (s.queue_family_indices.graphics_family = s.queue_family_indices.compute_family →
      barrierPairing (toUInt32 s.queue_family_indices.compute_family)
        (submittedTo .compute_queue s (frameLog env s))
        (submittedTo .graphics_queue s (frameLog env s)) = true) := by
  obtain ⟨hc, hg⟩ := submittedTo_frame s hrec env hacq
  refine ⟨⟨_, hc, hrec.1, rfl⟩, rfl, rfl, hg, ?_⟩
  intro hfam
  have hgraphics : ∀ cb ∈ submittedTo .graphics_queue s (frameLog env s),
      ((bufferBarriers cb).all fun b =>
        !(b.onLightOrVisibility && b.isQueueFamilyTransfer)
          || (submittedTo .compute_queue s (frameLog env s)).any fun cb' =>
            (bufferBarriers cb').any fun b' => b.matching b') = true := by
    intro cb hcb
    rw [hg cb hcb]
    rfl
  rw [barrierPairing, Bool.and_eq_true]
  refine ⟨?_, List.all_eq_true.mpr hgraphics⟩
  rw [hc]
  simp [bufferBarriers_lightCulling, createLightCullingCommandBuffer.barriers_before,
    createLightCullingCommandBuffer.barriers_after, BufferMemoryBarrier.isQueueFamilyTransfer,
    hfam]

/-- Witness of C5 (amended): a frame of the rebuilt sample renderer, and a frame of the
renderer whose queues all belong to family 0. -/
theorem barriers_paired_within_light_culling_witness :
    (rebuiltSample.Recorded ∧ sampleEnv.aquiring_result = VK_SUCCESS) ∧
    createLightCullingCommandBuffer.barriers_after rebuiltSample
      = (createLightCullingCommandBuffer.barriers_before rebuiltSample).map
          BufferMemoryBarrier.mirror ∧
    (∀ cb ∈ submittedTo .graphics_queue rebuiltSample (frameLog sampleEnv rebuiltSample),
      bufferBarriers cb = []) ∧
    barrierPairing 0
      (submittedTo .compute_queue rebuiltSingleFamilySample
        (frameLog sampleEnv rebuiltSingleFamilySample))
      (submittedTo .graphics_queue rebuiltSingleFamilySample
        (frameLog sampleEnv rebuiltSingleFamilySample)) = true :=
  ⟨⟨recreateSwapChain_recorded sampleEnv sampleRenderer, rfl⟩,
    (barriers_paired_within_light_culling rebuiltSample
      (recreateSwapChain_recorded sampleEnv sampleRenderer) sampleEnv (Or.inl rfl)).2.2.1,
    (barriers_paired_within_light_culling rebuiltSample
      (recreateSwapChain_recorded sampleEnv sampleRenderer) sampleEnv (Or.inl rfl)).2.2.2.1,
    (barriers_paired_within_light_culling rebuiltSingleFamilySample
      (recreateSwapChain_recorded sampleEnv _) sampleEnv (Or.inl rfl)).2.2.2.2 rfl⟩

/-! ## Claims on recordTransitImageLayout -/

theorem recordTransitImageLayout_legal (command_buffer : List Cmd) (image : ImageId)
    (old_layout new_layout : VkImageLayout)
    (h : (old_layout, new_layout) ∈ legalTransitions) :
    ∃ barrier, recordTransitImageLayout command_buffer image old_layout new_layout
      = .ok (command_buffer ++ [.pipelineBarrier VK_PIPELINE_STAGE_TOP_OF_PIPE_BIT
          VK_PIPELINE_STAGE_TOP_OF_PIPE_BIT [] [barrier]]) := by
  simp only [legalTransitions, List.mem_cons, Prod.mk.injEq, List.mem_singleton,
    List.mem_nil_iff, or_false] at h
  rcases h with ⟨h₁, h₂⟩ | ⟨h₁, h₂⟩ | ⟨h₁, h₂⟩ | ⟨h₁, h₂⟩ | ⟨h₁, h₂⟩ | ⟨h₁, h₂⟩ | ⟨h₁, h₂⟩ <;>
    subst h₁ h₂ <;> exact ⟨_, rfl⟩

theorem recordTransitImageLayout_illegal (command_buffer : List Cmd) (image : ImageId)
    (old_layout new_layout : VkImageLayout)
    (h : (old_layout, new_layout) ∉ legalTransitions) :
    recordTransitImageLayout command_buffer image old_layout new_layout
      = .error "unsupported layout transition!" := by
  simp only [legalTransitions, List.mem_cons, Prod.mk.injEq, List.mem_singleton,
    List.mem_nil_iff, or_false, not_or] at h
  obtain ⟨h₁, h₂, h₃, h₄, h₅, h₆, h₇⟩ := h
  simp only [recordTransitImageLayout, if_neg h₁, if_neg h₂, if_neg h₃, if_neg h₄, if_neg h₅,
    if_neg h₆, if_neg h₇]

theorem same_layout_not_legal (layout : VkImageLayout) :
    (layout, layout) ∉ legalTransitions := by
  simp only [legalTransitions, List.mem_cons, Prod.mk.injEq, List.mem_singleton,
    List.mem_nil_iff, or_false, not_or]
  refine ⟨?_, ?_, ?_, ?_, ?_, ?_, ?_⟩ <;> rintro ⟨h₁, h₂⟩ <;> rw [h₁] at h₂ <;>
    exact absurd h₂ (by decide)

/-- C6. `recordTransitImageLayout` succeeds, recording exactly one pipeline barrier with one
image barrier after what was already recorded, if and only if (old layout, new layout) is one
of the seven enumerated pairs; for every other pair, in particular whenever the two layouts
are equal, it throws "unsupported layout transition!". -/
theorem recordTransitImageLayout_succeeds_iff_legal (command_buffer : List Cmd) (image : ImageId)
    (old_layout new_layout : VkImageLayout) :
    ((∃ commands, recordTransitImageLayout command_buffer image old_layout new_layout
        = .ok commands) ↔ (old_layout, new_layout) ∈ legalTransitions) ∧
    ((old_layout, new_layout) ∈ legalTransitions →
      ∃ barrier, recordTransitImageLayout command_buffer image old_layout new_layout
        = .ok (command_buffer ++ [.pipelineBarrier VK_PIPELINE_STAGE_TOP_OF_PIPE_BIT
            VK_PIPELINE_STAGE_TOP_OF_PIPE_BIT [] [barrier]])) ∧
    ((old_layout, new_layout) ∉ legalTransitions →
      recordTransitImageLayout command_buffer image old_layout new_layout
        = .error "unsupported layout transition!") ∧
    recordTransitImageLayout command_buffer image old_layout old_layout
      = .error "unsupported layout transition!" := by
  refine ⟨⟨?_, ?_⟩, recordTransitImageLayout_legal command_buffer image old_layout new_layout,
    recordTransitImageLayout_illegal command_buffer image old_layout new_layout,
    recordTransitImageLayout_illegal command_buffer image old_layout old_layout
      (same_layout_not_legal old_layout)⟩
  · rintro ⟨commands, hok⟩
    by_contra hnot
    rw [recordTransitImageLayout_illegal command_buffer image old_layout new_layout hnot] at hok
    cases hok
  · intro h
    obtain ⟨barrier, hb⟩ :=
      recordTransitImageLayout_legal command_buffer image old_layout new_layout h
    exact ⟨_, hb⟩

/-- Witness of C6: the transition of line 2046 is legal and recorded; general to
color-attachment is not. -/
theorem recordTransitImageLayout_succeeds_iff_legal_witness :
    (VK_IMAGE_LAYOUT_SHADER_READ_ONLY_OPTIMAL, VK_IMAGE_LAYOUT_DEPTH_STENCIL_ATTACHMENT_OPTIMAL)
      ∈ legalTransitions ∧
    (∃ barrier, recordTransitImageLayout [] .pre_pass_depth_image
        VK_IMAGE_LAYOUT_SHADER_READ_ONLY_OPTIMAL VK_IMAGE_LAYOUT_DEPTH_STENCIL_ATTACHMENT_OPTIMAL
      = .ok ([] ++ [.pipelineBarrier VK_PIPELINE_STAGE_TOP_OF_PIPE_BIT
          VK_PIPELINE_STAGE_TOP_OF_PIPE_BIT [] [barrier]])) ∧
    (VK_IMAGE_LAYOUT_GENERAL, VK_IMAGE_LAYOUT_COLOR_ATTACHMENT_OPTIMAL) ∉ legalTransitions ∧
    recordTransitImageLayout [] .texture_image VK_IMAGE_LAYOUT_GENERAL
        VK_IMAGE_LAYOUT_COLOR_ATTACHMENT_OPTIMAL
      = .error "unsupported layout transition!" :=
  ⟨by decide,
    (recordTransitImageLayout_succeeds_iff_legal [] .pre_pass_depth_image
      VK_IMAGE_LAYOUT_SHADER_READ_ONLY_OPTIMAL
      VK_IMAGE_LAYOUT_DEPTH_STENCIL_ATTACHMENT_OPTIMAL).2.1 (by decide),
    by decide,
    (recordTransitImageLayout_succeeds_iff_legal [] .texture_image VK_IMAGE_LAYOUT_GENERAL
      VK_IMAGE_LAYOUT_COLOR_ATTACHMENT_OPTIMAL).2.2.1 (by decide)⟩

/-- C7. For each of the seven legal transitions the barrier recorded by
`recordTransitImageLayout` carries the requested old and new layouts and exactly the
documented access masks: preinitialized to transfer-src (host-write, transfer-read);
preinitialized to transfer-dst (host-write, transfer-write); transfer-dst to shader-read-only
(transfer-write, shader-read); undefined to depth-attachment (none, depth-stencil
read|write); depth-attachment to shader-read-only (depth-stencil read|write, shader-read);
shader-read-only to depth-attachment (shader-read, depth-stencil read|write); undefined to
shader-read-only (none, shader-read). -/
theorem recordTransitImageLayout_access_masks (command_buffer : List Cmd) (image : ImageId) :
    recordTransitImageLayout command_buffer image VK_IMAGE_LAYOUT_PREINITIALIZED
        VK_IMAGE_LAYOUT_TRANSFER_SRC_OPTIMAL
      = .ok (command_buffer ++ [transitionCommand image VK_IMAGE_LAYOUT_PREINITIALIZED
          VK_IMAGE_LAYOUT_TRANSFER_SRC_OPTIMAL VK_ACCESS_HOST_WRITE_BIT
          VK_ACCESS_TRANSFER_READ_BIT VK_IMAGE_ASPECT_COLOR_BIT]) ∧
    recordTransitImageLayout command_buffer image VK_IMAGE_LAYOUT_PREINITIALIZED
        VK_IMAGE_LAYOUT_TRANSFER_DST_OPTIMAL
      = .ok (command_buffer ++ [transitionCommand image VK_IMAGE_LAYOUT_PREINITIALIZED
          VK_IMAGE_LAYOUT_TRANSFER_DST_OPTIMAL VK_ACCESS_HOST_WRITE_BIT
          VK_ACCESS_TRANSFER_WRITE_BIT VK_IMAGE_ASPECT_COLOR_BIT]) ∧
    recordTransitImageLayout command_buffer image VK_IMAGE_LAYOUT_TRANSFER_DST_OPTIMAL
        VK_IMAGE_LAYOUT_SHADER_READ_ONLY_OPTIMAL
      = .ok (command_buffer ++ [transitionCommand image VK_IMAGE_LAYOUT_TRANSFER_DST_OPTIMAL
          VK_IMAGE_LAYOUT_SHADER_READ_ONLY_OPTIMAL VK_ACCESS_TRANSFER_WRITE_BIT
          VK_ACCESS_SHADER_READ_BIT VK_IMAGE_ASPECT_COLOR_BIT]) ∧
    recordTransitImageLayout command_buffer image VK_IMAGE_LAYOUT_UNDEFINED
        VK_IMAGE_LAYOUT_DEPTH_STENCIL_ATTACHMENT_OPTIMAL
      = .ok (command_buffer ++ [transitionCommand image VK_IMAGE_LAYOUT_UNDEFINED
          VK_IMAGE_LAYOUT_DEPTH_STENCIL_ATTACHMENT_OPTIMAL 0
          depthStencilReadWrite VK_IMAGE_ASPECT_DEPTH_BIT]) ∧
    recordTransitImageLayout command_buffer image
        VK_IMAGE_LAYOUT_DEPTH_STENCIL_ATTACHMENT_OPTIMAL VK_IMAGE_LAYOUT_SHADER_READ_ONLY_OPTIMAL
      = .ok (command_buffer ++ [transitionCommand image
          VK_IMAGE_LAYOUT_DEPTH_STENCIL_ATTACHMENT_OPTIMAL
          VK_IMAGE_LAYOUT_SHADER_READ_ONLY_OPTIMAL depthStencilReadWrite
          VK_ACCESS_SHADER_READ_BIT VK_IMAGE_ASPECT_DEPTH_BIT]) ∧
    recordTransitImageLayout command_buffer image VK_IMAGE_LAYOUT_SHADER_READ_ONLY_OPTIMAL
        VK_IMAGE_LAYOUT_DEPTH_STENCIL_ATTACHMENT_OPTIMAL
      = .ok (command_buffer ++ [transitionCommand image VK_IMAGE_LAYOUT_SHADER_READ_ONLY_OPTIMAL
          VK_IMAGE_LAYOUT_DEPTH_STENCIL_ATTACHMENT_OPTIMAL VK_ACCESS_SHADER_READ_BIT
          depthStencilReadWrite VK_IMAGE_ASPECT_DEPTH_BIT]) ∧
    recordTransitImageLayout command_buffer image VK_IMAGE_LAYOUT_UNDEFINED
        VK_IMAGE_LAYOUT_SHADER_READ_ONLY_OPTIMAL
      = .ok (command_buffer ++ [transitionCommand image VK_IMAGE_LAYOUT_UNDEFINED
          VK_IMAGE_LAYOUT_SHADER_READ_ONLY_OPTIMAL 0
          VK_ACCESS_SHADER_READ_BIT VK_IMAGE_ASPECT_COLOR_BIT]) ∧
    depthStencilReadWrite = 0x600 :=
  ⟨rfl, rfl, rfl, rfl, rfl, rfl, rfl, rfl⟩

/-! ## Claims on the tile grid -/

theorem toUInt32_TILE_SIZE : toUInt32 TILE_SIZE = 16 := by decide

/-- On a 32-bit extent of at least one pixel the tile count is the extent divided by 16,
rounded up. -/
theorem tileCount_eq_ceil (extent : Nat) (h₁ : 1 ≤ extent) (h₂ : extent < 4294967296) :
    tileCount extent = ⌈(extent : ℚ) / 16⌉ := by
  have hq₁ : 16 * ((extent - 1) / 16) ≤ extent - 1 := Nat.mul_div_le _ _
  have hq₂ : extent - 1 < 16 * ((extent - 1) / 16) + 16 := by
    have := Nat.lt_div_mul_add (a := extent - 1) (b := 16) (by norm_num)
    omega
  have hsub : (extent + 4294967296 - 1) % 4294967296 = extent - 1 := by omega
  have hsmall : ((extent - 1) / 16 + 1) % 4294967296 = (extent - 1) / 16 + 1 := by omega
  have hint : toInt32 ((extent - 1) / 16 + 1) = (((extent - 1) / 16 + 1 : Nat) : Int) := by
    unfold toInt32
    rw [hsmall, if_pos (by omega)]
  rw [tileCount, hsub, toUInt32_TILE_SIZE, hsmall, hint, eq_comm, Int.ceil_eq_iff]
  generalize (extent - 1) / 16 = q at hq₁ hq₂
  have hq₁' : (16 : ℚ) * (q : ℚ) + 1 ≤ (extent : ℚ) := by
    have : 16 * q + 1 ≤ extent := by omega
    exact_mod_cast this
  have hq₂' : (extent : ℚ) ≤ 16 * (q : ℚ) + 16 := by
    have : extent ≤ 16 * q + 16 := by omega
    exact_mod_cast this
  push_cast
  constructor
  · rw [lt_div_iff₀ (by norm_num)]; linarith
  · rw [div_le_iff₀ (by norm_num)]; linarith

/-- C8. For every swapchain extent with width and height at least 1 (and within the 32-bit
range of `VkExtent2D`), `createLightVisibilityBuffer` returns normally and sets the tile grid
to (ceil(width/16), ceil(height/16)). -/
theorem createLightVisibilityBuffer_tile_grid (r : Renderer)
    (hw : 1 ≤ r.swap_chain_extent.width) (hw' : r.swap_chain_extent.width < 4294967296)
    (hh : 1 ≤ r.swap_chain_extent.height) (hh' : r.swap_chain_extent.height < 4294967296) :
    (createLightVisibilityBuffer r).error = none ∧
    (createLightVisibilityBuffer r).state.tile_count_per_row
      = ⌈(r.swap_chain_extent.width : ℚ) / 16⌉ ∧
    (createLightVisibilityBuffer r).state.tile_count_per_col
      = ⌈(r.swap_chain_extent.height : ℚ) / 16⌉ := by
  refine ⟨rfl, ?_, ?_⟩
  · rw [← tileCount_eq_ceil _ hw hw']; rfl
  · rw [← tileCount_eq_ceil _ hh hh']; rfl

/-- Witness of C8: 800x600 gives the grid (50, 38) and 801x600 gives (51, 38). -/
theorem createLightVisibilityBuffer_tile_grid_witness :
    ((1 ≤ 800 ∧ 800 < 4294967296) ∧ (1 ≤ 600 ∧ 600 < 4294967296)) ∧
    ((createLightVisibilityBuffer
        { sampleRenderer with swap_chain_extent := { width := 800, height := 600 } }
      ).state.tile_count_per_row = ⌈((800 : Nat) : ℚ) / 16⌉ ∧
     (createLightVisibilityBuffer
        { sampleRenderer with swap_chain_extent := { width := 800, height := 600 } }
      ).state.tile_count_per_col = ⌈((600 : Nat) : ℚ) / 16⌉) ∧
    ((createLightVisibilityBuffer
        { sampleRenderer with swap_chain_extent := { width := 800, height := 600 } }
      ).state.tile_count_per_row = 50 ∧
     (createLightVisibilityBuffer
        { sampleRenderer with swap_chain_extent := { width := 800, height := 600 } }
      ).state.tile_count_per_col = 38) ∧
    ((createLightVisibilityBuffer
        { sampleRenderer with swap_chain_extent := { width := 801, height := 600 } }
      ).state.tile_count_per_row = 51 ∧
     (createLightVisibilityBuffer
        { sampleRenderer with swap_chain_extent := { width := 801, height := 600 } }
      ).state.tile_count_per_col = 38) :=
  ⟨by decide,
    (createLightVisibilityBuffer_tile_grid
      { sampleRenderer with swap_chain_extent := { width := 800, height := 600 } }
      (by decide) (by decide) (by decide) (by decide)).2,
    by decide, by decide⟩

/-! ## Claims on findMemoryType -/

theorem and_two_pow_ne_zero_iff (x i : Nat) : x &&& 2 ^ i ≠ 0 ↔ x.testBit i = true := by
  constructor
  · intro h
    by_contra hbit
    apply h
    apply Nat.eq_of_testBit_eq
    intro k
    rw [Nat.testBit_and, Nat.testBit_two_pow, Nat.zero_testBit]
    by_cases hk : i = k
    · subst hk; simp [hbit]
    · simp [hk]
  · intro hbit h
    have := congrArg (fun y => y.testBit i) h
    simp [Nat.testBit_and, Nat.testBit_two_pow, hbit] at this

theorem and_eq_right_iff_testBit (flags properties : Nat) :
    flags &&& properties = properties ↔
      ∀ k, properties.testBit k = true → flags.testBit k = true := by
  constructor
  · intro h k hk
    have := congrArg (fun y => y.testBit k) h
    simp only [Nat.testBit_and, hk, Bool.and_true] at this
    exact this
  · intro h
    apply Nat.eq_of_testBit_eq
    intro k
    rw [Nat.testBit_and]
    cases hk : properties.testBit k
    · simp
    · simp [h k hk]

theorem findMemoryType_matches_iff (type_filter : Nat) (properties : VkFlags)
    (memory_properties : VkPhysicalDeviceMemoryProperties) (i : Nat) (hi : i < 32) :
    findMemoryType.matches type_filter properties memory_properties i = true ↔
      memoryTypeSuitable type_filter properties memory_properties i := by
  have hpow : (1 <<< i) % 4294967296 = 2 ^ i := by
    rw [Nat.one_shiftLeft]
    exact Nat.mod_eq_of_lt (by
      calc 2 ^ i < 2 ^ 32 := Nat.pow_lt_pow_right (by norm_num) hi
        _ = 4294967296 := by norm_num)
  simp only [findMemoryType.matches, hpow, memoryTypeSuitable, Bool.and_eq_true, bne_iff_ne,
    beq_iff_eq, and_two_pow_ne_zero_iff, and_eq_right_iff_testBit]

theorem findMemoryType_loop_ok_iff (type_filter : Nat) (properties : VkFlags)
    (memory_properties : VkPhysicalDeviceMemoryProperties) (remaining i k : Nat)
    (h : i + remaining ≤ 32) :
    findMemoryType.loop type_filter properties memory_properties remaining i = .ok k ↔
      i ≤ k ∧ k < i + remaining ∧ memoryTypeSuitable type_filter properties memory_properties k
        ∧ ∀ j, i ≤ j → j < k → ¬ memoryTypeSuitable type_filter properties memory_properties j := by
  induction remaining generalizing i with
  | zero =>
    simp only [findMemoryType.loop, Nat.add_zero]
    constructor
    · intro hc; cases hc
    · rintro ⟨h₁, h₂, -⟩; omega
  | succ n ih =>
    rw [findMemoryType.loop]
    by_cases hm : findMemoryType.matches type_filter properties memory_properties i = true
    · rw [if_pos hm]
      have hs := (findMemoryType_matches_iff type_filter properties memory_properties i
        (by omega)).mp hm
      constructor
      · intro hc
        have hik : i = k := by injection hc
        subst hik
        exact ⟨le_refl _, by omega, hs, fun j h₁ h₂ => by omega⟩
      · rintro ⟨h₁, -, -, h₄⟩
        rcases Nat.eq_or_lt_of_le h₁ with heq | hlt
        · rw [heq]
        · exact absurd hs (h₄ i (le_refl _) hlt)
    · rw [if_neg hm, ih (i + 1) (by omega)]
      have hs : ¬ memoryTypeSuitable type_filter properties memory_properties i := fun hc =>
        hm ((findMemoryType_matches_iff type_filter properties memory_properties i
          (by omega)).mpr hc)
      constructor
      · rintro ⟨h₁, h₂, h₃, h₄⟩
        refine ⟨by omega, by omega, h₃, fun j hj₁ hj₂ => ?_⟩
        rcases Nat.eq_or_lt_of_le hj₁ with heq | hlt
        · rw [← heq]; exact hs
        · exact h₄ j hlt hj₂
      · rintro ⟨h₁, h₂, h₃, h₄⟩
        have hne : i ≠ k := fun hc => hs (hc ▸ h₃)
        exact ⟨by omega, by omega, h₃, fun j hj₁ hj₂ => h₄ j (by omega) hj₂⟩

theorem findMemoryType_loop_error_iff (type_filter : Nat) (properties : VkFlags)
    (memory_properties : VkPhysicalDeviceMemoryProperties) (remaining i : Nat)
    (h : i + remaining ≤ 32) (what : String) :
    findMemoryType.loop type_filter properties memory_properties remaining i = .error what ↔
      what = "Failed to find suitable memory type!" ∧
      ∀ j, i ≤ j → j < i + remaining →
        ¬ memoryTypeSuitable type_filter properties memory_properties j := by
  induction remaining generalizing i with
  | zero =>
    simp only [findMemoryType.loop, Nat.add_zero]
    constructor
    · intro hc
      injection hc with hc
      exact ⟨hc.symm, fun j h₁ h₂ => by omega⟩
    · rintro ⟨hw, -⟩; rw [hw]
  | succ n ih =>
    rw [findMemoryType.loop]
    by_cases hm : findMemoryType.matches type_filter properties memory_properties i = true
    · rw [if_pos hm]
      have hs := (findMemoryType_matches_iff type_filter properties memory_properties i
        (by omega)).mp hm
      constructor
      · intro hc; cases hc
      · rintro ⟨-, hall⟩
        exact absurd hs (hall i (le_refl _) (by omega))
    · rw [if_neg hm, ih (i + 1) (by omega)]
      have hs : ¬ memoryTypeSuitable type_filter properties memory_properties i := fun hc =>
        hm ((findMemoryType_matches_iff type_filter properties memory_properties i
          (by omega)).mpr hc)
      constructor
      · rintro ⟨hw, hall⟩
        refine ⟨hw, fun j hj₁ hj₂ => ?_⟩
        rcases Nat.eq_or_lt_of_le hj₁ with heq | hlt
        · rw [← heq]; exact hs
        · exact hall j hlt (by omega)
      · rintro ⟨hw, hall⟩
        exact ⟨hw, fun j hj₁ hj₂ => hall j (by omega) (by omega)⟩

/-- C9. For every type filter, requested property flags and memory-type table (of at most
`VK_MAX_MEMORY_TYPES` types), `findMemoryType` returns index `i` exactly when `i` is the least
index below the type count such that bit `i` of the filter is set and entry `i` has all the
requested flags; it fails, with "Failed to find suitable memory type!", exactly when no such
index exists.  Being a function of its inputs, it gives equal results on equal inputs. -/
theorem findMemoryType_returns_least_suitable (type_filter : Nat) (properties : VkFlags)
    (memory_properties : VkPhysicalDeviceMemoryProperties)
    (hcount : memory_properties.memoryTypeCount ≤ VK_MAX_MEMORY_TYPES) :
    (∀ i, findMemoryType type_filter properties memory_properties = .ok i ↔
      i < memory_properties.memoryTypeCount
        ∧ memoryTypeSuitable type_filter properties memory_properties i
        ∧ ∀ j, j < i → ¬ memoryTypeSuitable type_filter properties memory_properties j) ∧
    ((∃ what, findMemoryType type_filter properties memory_properties = .error what) ↔
      ¬ ∃ i, i < memory_properties.memoryTypeCount
        ∧ memoryTypeSuitable type_filter properties memory_properties i) ∧
    (∀ what, findMemoryType type_filter properties memory_properties = .error what →
      what = "Failed to find suitable memory type!") := by
  have h32 : 0 + memory_properties.memoryTypeCount ≤ 32 := by
    simpa [VK_MAX_MEMORY_TYPES] using hcount
  refine ⟨fun i => ?_, ?_, fun what hw => ?_⟩
  · rw [findMemoryType, findMemoryType_loop_ok_iff _ _ _ _ _ _ h32]
    constructor
    · rintro ⟨-, h₂, h₃, h₄⟩
      exact ⟨by omega, h₃, fun j hj => h₄ j (Nat.zero_le _) hj⟩
    · rintro ⟨h₁, h₂, h₃⟩
      exact ⟨Nat.zero_le _, by omega, h₂, fun j _ hj => h₃ j hj⟩
  · constructor
    · rintro ⟨what, hw⟩ ⟨i, hi, hs⟩
      rw [findMemoryType, findMemoryType_loop_error_iff _ _ _ _ _ h32] at hw
      exact hw.2 i (Nat.zero_le _) (by omega) hs
    · intro hnone
      refine ⟨"Failed to find suitable memory type!", ?_⟩
      rw [findMemoryType, findMemoryType_loop_error_iff _ _ _ _ _ h32]
      exact ⟨rfl, fun j _ hj hs => hnone ⟨j, by omega, hs⟩⟩
  · rw [findMemoryType, findMemoryType_loop_error_iff _ _ _ _ _ h32] at hw
    exact hw.1

/-- Witness of C9: with filter 0b110 and the device-local flag requested, types 1 and 2 of the
sample table are suitable and the lower one is returned; with the host-visible flag
requested none of them is, and the search fails. -/
theorem findMemoryType_returns_least_suitable_witness :
    sampleMemoryProperties.memoryTypeCount ≤ VK_MAX_MEMORY_TYPES ∧
    findMemoryType 6 VK_MEMORY_PROPERTY_DEVICE_LOCAL_BIT sampleMemoryProperties = .ok 1 ∧
    (1 < sampleMemoryProperties.memoryTypeCount
      ∧ memoryTypeSuitable 6 VK_MEMORY_PROPERTY_DEVICE_LOCAL_BIT sampleMemoryProperties 1
      ∧ ∀ j, j < 1 →
          ¬ memoryTypeSuitable 6 VK_MEMORY_PROPERTY_DEVICE_LOCAL_BIT sampleMemoryProperties j) ∧
    findMemoryType 6 VK_MEMORY_PROPERTY_HOST_VISIBLE_BIT sampleMemoryProperties
      = .error "Failed to find suitable memory type!" :=
  ⟨by decide, rfl,
    ((findMemoryType_returns_least_suitable 6 VK_MEMORY_PROPERTY_DEVICE_LOCAL_BIT
      sampleMemoryProperties (by decide)).1 1).mp rfl,
    rfl⟩

/-! ## Claims on createBuffer -/

theorem createBuffer_ok_buffer_info (dev : BufferDevice) (size : Nat)
    (usage property_bits : VkFlags) (a b : Int) (buffer : BufferObject)
    (h : createBuffer dev size usage property_bits a b = .ok buffer) :
    buffer.buffer_info = createBuffer.buffer_info size usage a b := by
  unfold createBuffer at h
  simp only [] at h
  split_ifs at h <;> split at h <;> first | (cases h; done) | (injection h with h; rw [← h])

/-- C10. `createBuffer` requests concurrent sharing mode if and only if both sharing indices
(C++ `int`s) are non-negative and different from each other, and then lists exactly these
two indices; in every other case it requests exclusive sharing mode and lists no index.
The buffer it returns on success is created from this request. -/
theorem createBuffer_sharing_mode (size : Nat) (usage : VkFlags)
    (sharing_queue_family_index_a sharing_queue_family_index_b : Int)
    (ha : sharing_queue_family_index_a < 2147483648)
    (hb : sharing_queue_family_index_b < 2147483648) :
    ((createBuffer.buffer_info size usage sharing_queue_family_index_a
        sharing_queue_family_index_b).sharingMode = VK_SHARING_MODE_CONCURRENT ↔
      0 ≤ sharing_queue_family_index_a ∧ 0 ≤ sharing_queue_family_index_b
        ∧ sharing_queue_family_index_a ≠ sharing_queue_family_index_b) ∧
    (0 ≤ sharing_queue_family_index_a ∧ 0 ≤ sharing_queue_family_index_b
        ∧ sharing_queue_family_index_a ≠ sharing_queue_family_index_b →
      (createBuffer.buffer_info size usage sharing_queue_family_index_a
        sharing_queue_family_index_b).queueFamilyIndexCount = 2 ∧
      (createBuffer.buffer_info size usage sharing_queue_family_index_a
        sharing_queue_family_index_b).pQueueFamilyIndices.map Int.ofNat
        = [sharing_queue_family_index_a, sharing_queue_family_index_b]) ∧
    (¬ (0 ≤ sharing_queue_family_index_a ∧ 0 ≤ sharing_queue_family_index_b
        ∧ sharing_queue_family_index_a ≠ sharing_queue_family_index_b) →
      (createBuffer.buffer_info size usage sharing_queue_family_index_a
        sharing_queue_family_index_b).sharingMode = VK_SHARING_MODE_EXCLUSIVE ∧
      (createBuffer.buffer_info size usage sharing_queue_family_index_a
        sharing_queue_family_index_b).queueFamilyIndexCount = 0 ∧
      (createBuffer.buffer_info size usage sharing_queue_family_index_a
        sharing_queue_family_index_b).pQueueFamilyIndices = []) ∧
    (∀ dev property_bits buffer,
      createBuffer dev size usage property_bits sharing_queue_family_index_a
        sharing_queue_family_index_b = .ok buffer →
      buffer.buffer_info = createBuffer.buffer_info size usage sharing_queue_family_index_a
        sharing_queue_family_index_b) := by
  refine ⟨?_, ?_, ?_, fun dev property_bits buffer h =>
    createBuffer_ok_buffer_info dev size usage property_bits _ _ buffer h⟩
  · by_cases hc : sharing_queue_family_index_a ≥ 0 ∧ sharing_queue_family_index_b ≥ 0
        ∧ sharing_queue_family_index_a ≠ sharing_queue_family_index_b
    · simp only [createBuffer.buffer_info, if_pos hc, true_iff]
      exact hc
    · simp only [createBuffer.buffer_info, if_neg hc]
      constructor
      · intro h; exact absurd h (by decide)
      · intro h; exact absurd h hc
  · intro hc
    have hc' : sharing_queue_family_index_a ≥ 0 ∧ sharing_queue_family_index_b ≥ 0
        ∧ sharing_queue_family_index_a ≠ sharing_queue_family_index_b := hc
    simp only [createBuffer.buffer_info, if_pos hc', List.map, toUInt32, true_and]
    have h₁ : sharing_queue_family_index_a % 4294967296 = sharing_queue_family_index_a :=
      Int.emod_eq_of_lt hc.1 (by omega)
    have h₂ : sharing_queue_family_index_b % 4294967296 = sharing_queue_family_index_b :=
      Int.emod_eq_of_lt hc.2.1 (by omega)
    rw [h₁, h₂]
    simp [Int.toNat_of_nonneg hc.1, Int.toNat_of_nonneg hc.2.1]
  · intro hc
    have hc' : ¬ (sharing_queue_family_index_a ≥ 0 ∧ sharing_queue_family_index_b ≥ 0
        ∧ sharing_queue_family_index_a ≠ sharing_queue_family_index_b) := hc
    simp only [createBuffer.buffer_info, if_neg hc', and_self]

/-- Witness of C10: the camera buffer shared between families 0 and 1 is concurrent; a
buffer created with the default indices `-1`, or with twice the same family, is exclusive. -/
theorem createBuffer_sharing_mode_witness :
    ((0 : Int) < 2147483648 ∧ (1 : Int) < 2147483648) ∧
    (createBuffer.buffer_info 256 VK_BUFFER_USAGE_STORAGE_BUFFER_BIT 0 1).sharingMode
      = VK_SHARING_MODE_CONCURRENT ∧
    (createBuffer.buffer_info 256 VK_BUFFER_USAGE_STORAGE_BUFFER_BIT 0 1
      ).pQueueFamilyIndices.map Int.ofNat = [0, 1] ∧
    (createBuffer.buffer_info 256 VK_BUFFER_USAGE_STORAGE_BUFFER_BIT (-1) (-1)).sharingMode
      = VK_SHARING_MODE_EXCLUSIVE ∧
    (createBuffer.buffer_info 256 VK_BUFFER_USAGE_STORAGE_BUFFER_BIT 2 2).sharingMode
      = VK_SHARING_MODE_EXCLUSIVE ∧
    (createBuffer sampleBufferDevice 256 VK_BUFFER_USAGE_STORAGE_BUFFER_BIT
        VK_MEMORY_PROPERTY_DEVICE_LOCAL_BIT 0 1).map (fun buffer => buffer.buffer_info)
      = .ok (createBuffer.buffer_info 256 VK_BUFFER_USAGE_STORAGE_BUFFER_BIT 0 1) :=
  ⟨by decide,
    (createBuffer_sharing_mode 256 VK_BUFFER_USAGE_STORAGE_BUFFER_BIT 0 1 (by decide)
      (by decide)).1.mpr (by decide),
    ((createBuffer_sharing_mode 256 VK_BUFFER_USAGE_STORAGE_BUFFER_BIT 0 1 (by decide)
      (by decide)).2.1 (by decide)).2,
    ((createBuffer_sharing_mode 256 VK_BUFFER_USAGE_STORAGE_BUFFER_BIT (-1) (-1) (by decide)
      (by decide)).2.2.1 (by decide)).1,
    ((createBuffer_sharing_mode 256 VK_BUFFER_USAGE_STORAGE_BUFFER_BIT 2 2 (by decide)
      (by decide)).2.2.1 (by decide)).1,
    rfl⟩

/-! ## Claims on recreateSwapChain, changeDebugViewIndex and resize -/

theorem logAdded_of_log (before : Renderer) (after : Run) (added : List Event)
    (h : after.state.log = before.log ++ added) : logAdded before after = added := by
  simp [logAdded, h]

theorem callSequence_rebuild (w₁ w₂ : List WriteDescriptorSet) :
    callSequence [.enter .recreateSwapChain, .vkDeviceWaitIdle, .enter .createSwapChain,
      .enter .createSwapChainImageViews, .enter .createRenderPasses,
      .enter .createGraphicsPipelines, .enter .createDepthResources,
      .singleTimeCommands [initialDepthTransition .depth_image],
      .singleTimeCommands [initialDepthTransition .pre_pass_depth_image],
      .enter .createFrameBuffers, .enter .createLightVisibilityBuffer,
      .updateDescriptorSets w₁, .enter .updateIntermediateDescriptorSet,
      .updateDescriptorSets w₂, .enter .createGraphicsCommandBuffers,
      .enter .createLightCullingCommandBuffer, .enter .createDepthPrePassCommandBuffer]
      = fullRebuildSequence := rfl

/-- A rebuild returns normally and adds one entry into `recreateSwapChain` and the call
sequence of a full rebuild to the log. -/
theorem recreateSwapChain_full (env : Env) (r : Renderer) :
    (recreateSwapChain env r).error = none ∧
    ∃ added, (recreateSwapChain env r).state.log = r.log ++ added ∧
      rebuilds added = 1 ∧ callSequence added = fullRebuildSequence := by
  obtain ⟨he, w₁, w₂, hl⟩ := recreateSwapChain_spec env r
  exact ⟨he, _, hl, rfl, callSequence_rebuild w₁ w₂⟩

/-- C11. `recreateSwapChain` first waits for the device to become idle and only then
rebuilds, entering in exactly this order: swapchain, swapchain image views, render passes,
graphics pipelines, depth images, framebuffers, light visibility buffer, intermediate
descriptor update, forward command buffers, light-culling command buffer, depth pre-pass
command buffer; the idle wait is its first call, and it returns normally. -/
theorem recreateSwapChain_waits_idle_then_rebuilds_in_order (env : Env) (r : Renderer) :
    (recreateSwapChain env r).error = none ∧
    callSequence (logAdded r (recreateSwapChain env r))
      = [ .enter .recreateSwapChain, .vkDeviceWaitIdle, .enter .createSwapChain,
          .enter .createSwapChainImageViews, .enter .createRenderPasses,
          .enter .createGraphicsPipelines, .enter .createDepthResources,
          .enter .createFrameBuffers, .enter .createLightVisibilityBuffer,
          .enter .updateIntermediateDescriptorSet, .enter .createGraphicsCommandBuffers,
          .enter .createLightCullingCommandBuffer, .enter .createDepthPrePassCommandBuffer ] ∧
    (logAdded r (recreateSwapChain env r)).take 2
      = [.enter .recreateSwapChain, .vkDeviceWaitIdle] := by
  obtain ⟨he, w₁, w₂, hl⟩ := recreateSwapChain_spec env r
  rw [logAdded_of_log r _ _ hl]
  exact ⟨he, rfl, rfl⟩

theorem Renderer.sameSettings_trans {a b c : Renderer} (h₁ : a.sameSettings b)
    (h₂ : b.sameSettings c) : a.sameSettings c :=
  ⟨h₁.1.trans h₂.1, h₁.2.1.trans h₂.2.1, h₁.2.2.1.trans h₂.2.2.1,
    h₁.2.2.2.1.trans h₂.2.2.2.1, h₁.2.2.2.2.1.trans h₂.2.2.2.2.1,
    h₁.2.2.2.2.2.trans h₂.2.2.2.2.2⟩

theorem Run.bind_ok_same (r₀ : Renderer) (x : Run) (f : Renderer → Run)
    (hx : x.error = none ∧ x.state.sameSettings r₀)
    (hf : ∀ s, (f s).error = none ∧ (f s).state.sameSettings s) :
    (x.bind f).error = none ∧ (x.bind f).state.sameSettings r₀ := by
  rw [Run.bind_of_ok x f hx.1]
  exact ⟨(hf _).1, Renderer.sameSettings_trans (hf _).2 hx.2⟩

theorem createSwapChain_same (env : Env) (s : Renderer) :
    (createSwapChain env s).error = none ∧ (createSwapChain env s).state.sameSettings s :=
  ⟨rfl, rfl, rfl, rfl, rfl, rfl, rfl⟩

theorem createSwapChainImageViews_same (s : Renderer) :
    (createSwapChainImageViews s).error = none ∧
      (createSwapChainImageViews s).state.sameSettings s := by
  rw [createSwapChainImageViews_eq]
  exact ⟨rfl, rfl, rfl, rfl, rfl, rfl, rfl⟩

theorem createRenderPasses_same (s : Renderer) :
    (createRenderPasses s).error = none ∧ (createRenderPasses s).state.sameSettings s :=
  ⟨rfl, rfl, rfl, rfl, rfl, rfl, rfl⟩

theorem createGraphicsPipelines_same (s : Renderer) :
    (createGraphicsPipelines s).error = none ∧
      (createGraphicsPipelines s).state.sameSettings s :=
  ⟨rfl, rfl, rfl, rfl, rfl, rfl, rfl⟩

theorem createDepthResources_same (s : Renderer) :
    (createDepthResources s).error = none ∧ (createDepthResources s).state.sameSettings s :=
  ⟨rfl, rfl, rfl, rfl, rfl, rfl, rfl⟩

theorem createFrameBuffers_same (s : Renderer) :
    (createFrameBuffers s).error = none ∧ (createFrameBuffers s).state.sameSettings s := by
  rw [createFrameBuffers_eq]
  exact ⟨rfl, rfl, rfl, rfl, rfl, rfl, rfl⟩

theorem createLightVisibilityBuffer_same (s : Renderer) :
    (createLightVisibilityBuffer s).error = none ∧
      (createLightVisibilityBuffer s).state.sameSettings s :=
  ⟨rfl, rfl, rfl, rfl, rfl, rfl, rfl⟩

theorem updateIntermediateDescriptorSet_same (s : Renderer) :
    (updateIntermediateDescriptorSet s).error = none ∧
      (updateIntermediateDescriptorSet s).state.sameSettings s :=
  ⟨rfl, rfl, rfl, rfl, rfl, rfl, rfl⟩

theorem createGraphicsCommandBuffers_same (s : Renderer) :
    (createGraphicsCommandBuffers s).error = none ∧
      (createGraphicsCommandBuffers s).state.sameSettings s := by
  rw [createGraphicsCommandBuffers_eq]
  exact ⟨rfl, rfl, rfl, rfl, rfl, rfl, rfl⟩

theorem createLightCullingCommandBuffer_same (s : Renderer) :
    (createLightCullingCommandBuffer s).error = none ∧
      (createLightCullingCommandBuffer s).state.sameSettings s :=
  ⟨rfl, rfl, rfl, rfl, rfl, rfl, rfl⟩

theorem createDepthPrePassCommandBuffer_same (s : Renderer) :
    (createDepthPrePassCommandBuffer s).error = none ∧
      (createDepthPrePassCommandBuffer s).state.sameSettings s :=
  ⟨rfl, rfl, rfl, rfl, rfl, rfl, rfl⟩

/-- A rebuild leaves the debug view index, the queue family indices, the mesh indices, the
light buffer size and the stored framebuffer size as they were. -/
theorem recreateSwapChain_same (env : Env) (r : Renderer) :
    (recreateSwapChain env r).state.sameSettings r := by
  unfold recreateSwapChain
  simp only []
  refine (Run.bind_ok_same r _ createDepthPrePassCommandBuffer ?_
    createDepthPrePassCommandBuffer_same).2
  refine Run.bind_ok_same r _ createLightCullingCommandBuffer ?_
    createLightCullingCommandBuffer_same
  refine Run.bind_ok_same r _ createGraphicsCommandBuffers ?_
    createGraphicsCommandBuffers_same
  refine Run.bind_ok_same r _ updateIntermediateDescriptorSet ?_
    updateIntermediateDescriptorSet_same
  refine Run.bind_ok_same r _ createLightVisibilityBuffer ?_ createLightVisibilityBuffer_same
  refine Run.bind_ok_same r _ createFrameBuffers ?_ createFrameBuffers_same
  refine Run.bind_ok_same r _ createDepthResources ?_ createDepthResources_same
  refine Run.bind_ok_same r _ createGraphicsPipelines ?_ createGraphicsPipelines_same
  refine Run.bind_ok_same r _ createRenderPasses ?_ createRenderPasses_same
  refine Run.bind_ok_same r _ createSwapChainImageViews ?_ createSwapChainImageViews_same
  exact ⟨(createSwapChain_same env _).1,
    Renderer.sameSettings_trans (createSwapChain_same env _).2 ⟨rfl, rfl, rfl, rfl, rfl, rfl⟩⟩

theorem changeDebugViewIndex_index (env : Env) (target_view : Int) (r : Renderer) :
    getDebugViewIndex (changeDebugViewIndex env target_view r).state
      = Int.tmod target_view 5 :=
  (recreateSwapChain_same env { r with debug_view_index := Int.tmod target_view 5 }).1

theorem changeDebugViewIndex_rebuilds (env : Env) (target_view : Int) (r : Renderer) :
    (changeDebugViewIndex env target_view r).error = none ∧
    rebuilds (logAdded r (changeDebugViewIndex env target_view r)) = 1 ∧
    callSequence (logAdded r (changeDebugViewIndex env target_view r))
      = fullRebuildSequence := by
  obtain ⟨he, added, hl, hr, hc⟩ :=
    recreateSwapChain_full env { r with debug_view_index := Int.tmod target_view 5 }
  have hl' : (changeDebugViewIndex env target_view r).state.log = r.log ++ added := hl
  rw [logAdded_of_log r _ _ hl']
  exact ⟨he, hr, hc⟩

/-- For a non-negative target the stored debug view index names one of the five views. -/
theorem changeDebugViewIndex_index_of_nonneg (env : Env) (target_view : Int) (r : Renderer)
    (h : 0 ≤ target_view) :
    0 ≤ getDebugViewIndex (changeDebugViewIndex env target_view r).state ∧
    getDebugViewIndex (changeDebugViewIndex env target_view r).state ≤ 4 := by
  rw [changeDebugViewIndex_index]
  have h₁ := Int.tmod_nonneg 5 h
  have h₂ := Int.tmod_lt_of_pos target_view (b := 5) (by decide)
  omega

/-- C12, evaluated at a failing input: for the target -1 the stored debug view index is -1
(the C++ remainder of -1 by 5), which is outside 0..4 and names none of the five debug
views; likewise -7 gives -2. -/
theorem changeDebugViewIndex_negative_target_leaves_range :
    getDebugViewIndex (changeDebugViewIndex sampleEnv (-1) sampleRenderer).state = -1 ∧
    getDebugViewIndex (changeDebugViewIndex sampleEnv (-7) sampleRenderer).state = -2 ∧
    ¬ (0 ≤ getDebugViewIndex (changeDebugViewIndex sampleEnv (-1) sampleRenderer).state ∧
        getDebugViewIndex (changeDebugViewIndex sampleEnv (-1) sampleRenderer).state ≤ 4) := by
  rw [changeDebugViewIndex_index, changeDebugViewIndex_index]
  decide

/-- C13. For every non-negative `n`, `changeDebugViewIndex (n + 5)` leaves the renderer in
the same state as `changeDebugViewIndex n`: the two results are equal, the stored index is
`n mod 5` in both, and each call performs exactly one, full, swapchain rebuild. -/
theorem changeDebugViewIndex_add_five (env : Env) (r : Renderer) (n : Int) (hn : 0 ≤ n) :
    changeDebugViewIndex env (n + 5) r = changeDebugViewIndex env n r ∧
    getDebugViewIndex (changeDebugViewIndex env (n + 5) r).state = n % 5 ∧
    getDebugViewIndex (changeDebugViewIndex env n r).state = n % 5 ∧
    rebuilds (logAdded r (changeDebugViewIndex env (n + 5) r)) = 1 ∧
    rebuilds (logAdded r (changeDebugViewIndex env n r)) = 1 := by
  have h₁ : Int.tmod n 5 = n % 5 := Int.tmod_eq_emod hn (by decide)
  have h₂ : Int.tmod (n + 5) 5 = n % 5 := by
    rw [Int.tmod_eq_emod (by omega) (by decide)]
    omega
  refine ⟨?_, ?_, ?_, (changeDebugViewIndex_rebuilds env (n + 5) r).2.1,
    (changeDebugViewIndex_rebuilds env n r).2.1⟩
  · simp only [changeDebugViewIndex, h₁, h₂]
  · rw [changeDebugViewIndex_index, h₂]
  · rw [changeDebugViewIndex_index, h₁]

/-- Witness of C13: `changeDebugViewIndex 5` against `changeDebugViewIndex 0`. -/
theorem changeDebugViewIndex_add_five_witness :
    (0 : Int) ≤ 0 ∧
    changeDebugViewIndex sampleEnv (0 + 5) sampleRenderer
      = changeDebugViewIndex sampleEnv 0 sampleRenderer ∧
    getDebugViewIndex (changeDebugViewIndex sampleEnv (0 + 5) sampleRenderer).state = 0 ∧
    rebuilds (logAdded sampleRenderer (changeDebugViewIndex sampleEnv (0 + 5) sampleRenderer))
      = 1 :=
  ⟨le_refl 0,
    (changeDebugViewIndex_add_five sampleEnv sampleRenderer 0 (le_refl 0)).1,
    (changeDebugViewIndex_add_five sampleEnv sampleRenderer 0 (le_refl 0)).2.1,
    (changeDebugViewIndex_add_five sampleEnv sampleRenderer 0 (le_refl 0)).2.2.2.1⟩

/-- C14. `resize (width, height)` performs exactly one full swapchain rebuild when both
width and height are non-zero, after storing the framebuffer size the window reports; when
width or height is zero it returns at once and leaves the whole renderer state, the stored
framebuffer size included, unchanged. -/
theorem resize_rebuilds_once_unless_zero (env : Env) (width height : Int) (r : Renderer) :
    (width ≠ 0 ∧ height ≠ 0 →
      (resize env width height r).error = none ∧
      rebuilds (logAdded r (resize env width height r)) = 1 ∧
      callSequence (logAdded r (resize env width height r)) = fullRebuildSequence ∧
      (resize env width height r).state.window_framebuffer_width = env.framebuffer_width ∧
      (resize env width height r).state.window_framebuffer_height = env.framebuffer_height) ∧
    (width = 0 ∨ height = 0 →
      resize env width height r = Run.ok r ∧
      (resize env width height r).state = r ∧
      rebuilds (logAdded r (resize env width height r)) = 0 ∧
      logAdded r (resize env width height r) = []) := by
  constructor
  · rintro ⟨hw, hh⟩
    have hz : ¬ (width = 0 ∨ height = 0) := by
      rintro (h | h)
      · exact hw h
      · exact hh h
    have hres : resize env width height r
        = recreateSwapChain env { r with
            window_framebuffer_width := env.framebuffer_width
            window_framebuffer_height := env.framebuffer_height } := by
      simp only [resize, if_neg hz]
    obtain ⟨he, added, hl, hr, hc⟩ := recreateSwapChain_full env { r with
      window_framebuffer_width := env.framebuffer_width
      window_framebuffer_height := env.framebuffer_height }
    have hsame := recreateSwapChain_same env { r with
      window_framebuffer_width := env.framebuffer_width
      window_framebuffer_height := env.framebuffer_height }
    rw [← hres] at he hl hsame
    have hl' : (resize env width height r).state.log = r.log ++ added := hl
    rw [logAdded_of_log r _ _ hl']
    exact ⟨he, hr, hc, hsame.2.2.2.2.1, hsame.2.2.2.2.2⟩
  · intro hz
    have hres : resize env width height r = Run.ok r := by
      simp only [resize, if_pos hz]
    rw [hres]
    refine ⟨rfl, rfl, ?_, ?_⟩ <;> simp [logAdded, Run.ok, rebuilds]

/-- Witness of C14: a resize to 801x600 rebuilds once; a resize to 0x600 changes nothing. -/
theorem resize_rebuilds_once_unless_zero_witness :
    (((801 : Int) ≠ 0 ∧ (600 : Int) ≠ 0) ∧
      rebuilds (logAdded rebuiltSample (resize sampleEnv 801 600 rebuiltSample)) = 1) ∧
    (((0 : Int) = 0 ∨ (600 : Int) = 0) ∧
      resize sampleEnv 0 600 rebuiltSample = Run.ok rebuiltSample) :=
  ⟨⟨by decide,
      ((resize_rebuilds_once_unless_zero sampleEnv 801 600 rebuiltSample).1 (by decide)).2.1⟩,
    ⟨by decide,
      ((resize_rebuilds_once_unless_zero sampleEnv 0 600 rebuiltSample).2 (Or.inl rfl)).1⟩⟩

/-! ## Claims on the swapchain selection functions -/

theorem chooseSwapSurfaceFormat_search_some (formats : List VkSurfaceFormatKHR)
    (h : preferredSurfaceFormat ∈ formats) :
    chooseSwapSurfaceFormat.search formats = some preferredSurfaceFormat := by
  induction formats with
  | nil => cases h
  | cons f rest ih =>
    rw [chooseSwapSurfaceFormat.search]
    by_cases hf : f.format = VK_FORMAT_B8G8R8A8_UNORM
        ∧ f.colorSpace = VK_COLOR_SPACE_SRGB_NONLINEAR_KHR
    · rw [if_pos hf]
      obtain ⟨format, colorSpace⟩ := f
      simp only at hf
      rw [hf.1, hf.2]
      rfl
    · rw [if_neg hf]
      rcases List.mem_cons.mp h with heq | hmem
      · exact absurd (by rw [← heq]; exact ⟨rfl, rfl⟩) hf
      · exact ih hmem

theorem chooseSwapSurfaceFormat_search_none (formats : List VkSurfaceFormatKHR)
    (h : preferredSurfaceFormat ∉ formats) :
    chooseSwapSurfaceFormat.search formats = none := by
  induction formats with
  | nil => rfl
  | cons f rest ih =>
    rw [chooseSwapSurfaceFormat.search]
    by_cases hf : f.format = VK_FORMAT_B8G8R8A8_UNORM
        ∧ f.colorSpace = VK_COLOR_SPACE_SRGB_NONLINEAR_KHR
    · exfalso
      apply h
      obtain ⟨format, colorSpace⟩ := f
      simp only at hf
      rw [hf.1, hf.2]
      exact List.mem_cons_self _ _
    · rw [if_neg hf]
      exact ih fun hmem => h (List.mem_cons_of_mem _ hmem)

/-- C15, as stated, fails: for the one-entry list holding a format UNDEFINED, which does
not contain (B8G8R8A8_UNORM, SRGB_NONLINEAR), `chooseSwapSurfaceFormat` returns
(B8G8R8A8_UNORM, SRGB_NONLINEAR) and not the first entry of the list. -/
theorem chooseSwapSurfaceFormat_undefined_is_not_first_entry :
    preferredSurfaceFormat ∉ [({ format := VK_FORMAT_UNDEFINED, colorSpace := 0 }
      : VkSurfaceFormatKHR)] ∧
    chooseSwapSurfaceFormat [{ format := VK_FORMAT_UNDEFINED, colorSpace := 0 }]
      = some preferredSurfaceFormat ∧
    chooseSwapSurfaceFormat [{ format := VK_FORMAT_UNDEFINED, colorSpace := 0 }]
      ≠ ([({ format := VK_FORMAT_UNDEFINED, colorSpace := 0 } : VkSurfaceFormatKHR)]).head? := by
  decide

/-- C15 (amended). For every non-empty list of available surface formats: if the list is a
single entry whose format is UNDEFINED, `chooseSwapSurfaceFormat` returns
(B8G8R8A8_UNORM, SRGB_NONLINEAR); otherwise it returns the entry
(B8G8R8A8_UNORM, SRGB_NONLINEAR) if the list contains it, and the first entry of the list if
not. -/
theorem chooseSwapSurfaceFormat_selection (first : VkSurfaceFormatKHR)
    (rest : List VkSurfaceFormatKHR) :
    (rest = [] ∧ first.format = VK_FORMAT_UNDEFINED →
      chooseSwapSurfaceFormat (first :: rest) = some preferredSurfaceFormat) ∧
    (¬ (rest = [] ∧ first.format = VK_FORMAT_UNDEFINED) →
      preferredSurfaceFormat ∈ first :: rest →
      chooseSwapSurfaceFormat (first :: rest) = some preferredSurfaceFormat) ∧
    (¬ (rest = [] ∧ first.format = VK_FORMAT_UNDEFINED) →
      preferredSurfaceFormat ∉ first :: rest →
      chooseSwapSurfaceFormat (first :: rest) = some first) := by
  have hfree : ¬ (rest = [] ∧ first.format = VK_FORMAT_UNDEFINED) →
      chooseSwapSurfaceFormat (first :: rest)
        = match chooseSwapSurfaceFormat.search (first :: rest) with
          | some available_format => some available_format
          | none => some first := by
    intro h
    cases rest with
    | nil =>
      have hne : first.format ≠ VK_FORMAT_UNDEFINED := fun hc => h ⟨rfl, hc⟩
      simp [chooseSwapSurfaceFormat, hne]
    | cons second others =>
      simp [chooseSwapSurfaceFormat]
  refine ⟨?_, ?_, ?_⟩
  · rintro ⟨hrest, hformat⟩
    subst hrest
    simp [chooseSwapSurfaceFormat, hformat, preferredSurfaceFormat]
  · intro h hmem
    rw [hfree h, chooseSwapSurfaceFormat_search_some _ hmem]
  · intro h hmem
    rw [hfree h, chooseSwapSurfaceFormat_search_none _ hmem]

/-- Witness of C15 (amended): one list for each of the three cases. -/
theorem chooseSwapSurfaceFormat_selection_witness :
    chooseSwapSurfaceFormat [{ format := VK_FORMAT_UNDEFINED, colorSpace := 0 }]
      = some preferredSurfaceFormat ∧
    chooseSwapSurfaceFormat [{ format := 50, colorSpace := 0 }, { format := 44, colorSpace := 0 }]
      = some preferredSurfaceFormat ∧
    chooseSwapSurfaceFormat [{ format := 50, colorSpace := 0 }, { format := 37, colorSpace := 0 }]
      = some { format := 50, colorSpace := 0 } :=
  ⟨(chooseSwapSurfaceFormat_selection { format := VK_FORMAT_UNDEFINED, colorSpace := 0 } []).1
      ⟨rfl, rfl⟩,
    (chooseSwapSurfaceFormat_selection { format := 50, colorSpace := 0 }
      [{ format := 44, colorSpace := 0 }]).2.1 (by decide) (by decide),
    (chooseSwapSurfaceFormat_selection { format := 50, colorSpace := 0 }
      [{ format := 37, colorSpace := 0 }]).2.2 (by decide) (by decide)⟩

/-- C16. For every list of available present modes, the empty list and lists without FIFO
included, `chooseSwapPresentMode` returns MAILBOX if the list contains MAILBOX, and FIFO
otherwise. -/
theorem chooseSwapPresentMode_mailbox_or_fifo (available_present_modes : List VkPresentModeKHR) :
    chooseSwapPresentMode available_present_modes
      = if VK_PRESENT_MODE_MAILBOX_KHR ∈ available_present_modes then
          VK_PRESENT_MODE_MAILBOX_KHR
        else VK_PRESENT_MODE_FIFO_KHR := by
  induction available_present_modes with
  | nil => rfl
  | cons mode rest ih =>
    rw [chooseSwapPresentMode]
    by_cases hm : mode = VK_PRESENT_MODE_MAILBOX_KHR
    · rw [if_pos hm, if_pos (by rw [hm]; exact List.mem_cons_self _ _), hm]
    · rw [if_neg hm, ih]
      by_cases hr : VK_PRESENT_MODE_MAILBOX_KHR ∈ rest
      · rw [if_pos hr, if_pos (List.mem_cons_of_mem _ hr)]
      · rw [if_neg hr, if_neg]
        intro hc
        rcases List.mem_cons.mp hc with heq | hmem
        · exact hm heq.symm
        · exact hr hmem

theorem toUInt32_of_framebuffer_size (size : Int) (h₁ : 0 ≤ size) (h₂ : size < 2147483648) :
    toUInt32 size = size.toNat := by
  unfold toUInt32
  rw [Int.emod_eq_of_lt h₁ (by omega)]

/-- C18. When the surface's current extent width is the sentinel 0xFFFFFFFF,
`chooseSwapExtent` returns the stored window framebuffer size (converted to `uint32_t`)
clamped component-wise as max(min, min(max, size)); for a stored size of non-negative `int`s
the conversion changes nothing, and the result is the stored size itself whenever that
already lies within the bounds.  When the width is not the sentinel it returns the surface's
current extent unchanged.  The height of the current extent is never consulted for the
choice. -/
theorem chooseSwapExtent_sentinel_uses_framebuffer_size (r : Renderer)
    (capabilities : VkSurfaceCapabilitiesKHR) :
    (capabilities.currentExtent.width = 4294967295 →
      chooseSwapExtent r capabilities
        = { width := max capabilities.minImageExtent.width
              (min capabilities.maxImageExtent.width (toUInt32 r.window_framebuffer_width))
            height := max capabilities.minImageExtent.height
              (min capabilities.maxImageExtent.height (toUInt32 r.window_framebuffer_height)) }) ∧
    (0 ≤ r.window_framebuffer_width ∧ r.window_framebuffer_width < 2147483648 →
      0 ≤ r.window_framebuffer_height ∧ r.window_framebuffer_height < 2147483648 →
      toUInt32 r.window_framebuffer_width = r.window_framebuffer_width.toNat ∧
      toUInt32 r.window_framebuffer_height = r.window_framebuffer_height.toNat) ∧
    (capabilities.currentExtent.width = 4294967295 →
      0 ≤ r.window_framebuffer_width ∧ r.window_framebuffer_width < 2147483648 →
      0 ≤ r.window_framebuffer_height ∧ r.window_framebuffer_height < 2147483648 →
      capabilities.minImageExtent.width ≤ r.window_framebuffer_width.toNat ∧
        r.window_framebuffer_width.toNat ≤ capabilities.maxImageExtent.width →
      capabilities.minImageExtent.height ≤ r.window_framebuffer_height.toNat ∧
        r.window_framebuffer_height.toNat ≤ capabilities.maxImageExtent.height →
      chooseSwapExtent r capabilities
        = { width := r.window_framebuffer_width.toNat
            height := r.window_framebuffer_height.toNat }) ∧
    (capabilities.currentExtent.width ≠ 4294967295 →
      chooseSwapExtent r capabilities = capabilities.currentExtent) := by
  have hclamp : capabilities.currentExtent.width = 4294967295 →
      chooseSwapExtent r capabilities
        = { width := max capabilities.minImageExtent.width
              (min capabilities.maxImageExtent.width (toUInt32 r.window_framebuffer_width))
            height := max capabilities.minImageExtent.height
              (min capabilities.maxImageExtent.height (toUInt32 r.window_framebuffer_height)) } := by
    intro hs
    have hne : ¬ capabilities.currentExtent.width ≠ 4294967295 := fun hc => hc hs
    simp only [chooseSwapExtent, if_neg hne]
  refine ⟨hclamp, ?_, ?_, ?_⟩
  · intro hw hh
    exact ⟨toUInt32_of_framebuffer_size _ hw.1 hw.2, toUInt32_of_framebuffer_size _ hh.1 hh.2⟩
  · intro hs hw hh hbw hbh
    rw [hclamp hs, toUInt32_of_framebuffer_size _ hw.1 hw.2,
      toUInt32_of_framebuffer_size _ hh.1 hh.2, min_eq_right hbw.2, min_eq_right hbh.2,
      max_eq_right hbw.1, max_eq_right hbh.1]
  · intro hs
    simp only [chooseSwapExtent, if_pos hs]

/-- Witness of C18: a stored size of 5000x300 against bounds 1x1..4096x4096 is clamped to
4096x300 under the sentinel; a stored size of 800x600 is returned as it is; and a current
extent of 800 by 0xFFFFFFFF is returned unchanged. -/
theorem chooseSwapExtent_sentinel_uses_framebuffer_size_witness :
    chooseSwapExtent
        { sampleRenderer with window_framebuffer_width := 5000, window_framebuffer_height := 300 }
        { sampleCapabilities with currentExtent := { width := 4294967295, height := 17 } }
      = { width := 4096, height := 300 } ∧
    chooseSwapExtent sampleRenderer
        { sampleCapabilities with currentExtent := { width := 4294967295, height := 17 } }
      = { width := 800, height := 600 } ∧
    chooseSwapExtent sampleRenderer
        { sampleCapabilities with currentExtent := { width := 800, height := 4294967295 } }
      = { width := 800, height := 4294967295 } :=
  ⟨(chooseSwapExtent_sentinel_uses_framebuffer_size
      { sampleRenderer with window_framebuffer_width := 5000, window_framebuffer_height := 300 }
      { sampleCapabilities with currentExtent := { width := 4294967295, height := 17 } }).1 rfl,
    (chooseSwapExtent_sentinel_uses_framebuffer_size sampleRenderer
      { sampleCapabilities with currentExtent := { width := 4294967295, height := 17 } }).2.2.1
      rfl (by decide) (by decide) (by decide) (by decide),
    (chooseSwapExtent_sentinel_uses_framebuffer_size sampleRenderer
      { sampleCapabilities with currentExtent := { width := 800, height := 4294967295 } }).2.2.2
      (by decide)⟩

/-! ## Claims on device selection and logical device creation -/

theorem isComplete_iff (indices : QueueFamilyIndices) :
    indices.isComplete = true ↔
      0 ≤ indices.graphics_family ∧ 0 ≤ indices.present_family ∧ 0 ≤ indices.compute_family := by
  simp [QueueFamilyIndices.isComplete, and_assoc]

/-- The indices found by the loop are complete exactly when each capability was already
found or is offered by one of the remaining families. -/
theorem findQueueFamilies_loop_complete (families : List QueueFamily) (i : Int) (hi : 0 ≤ i)
    (indices : QueueFamilyIndices) :
    (QueueFamilyIndices.findQueueFamilies.loop families i indices).isComplete = true ↔
      (0 ≤ indices.graphics_family ∨ ∃ f ∈ families, f.supportsGraphics) ∧
      (0 ≤ indices.present_family ∨ ∃ f ∈ families, f.supportsPresent) ∧
      (0 ≤ indices.compute_family ∨ ∃ f ∈ families, f.supportsCompute) := by
  induction families generalizing i indices with
  | nil =>
    simp [QueueFamilyIndices.findQueueFamilies.loop, isComplete_iff]
  | cons f rest ih =>
    rw [QueueFamilyIndices.findQueueFamilies.loop]
    have hg : 0 ≤ (QueueFamilyIndices.findQueueFamilies.visit f i indices).graphics_family ↔
        0 ≤ indices.graphics_family ∨ f.supportsGraphics := by
      unfold QueueFamilyIndices.findQueueFamilies.visit QueueFamily.supportsGraphics
      simp only []
      split_ifs <;> simp_all
    have hp : 0 ≤ (QueueFamilyIndices.findQueueFamilies.visit f i indices).present_family ↔
        0 ≤ indices.present_family ∨ f.supportsPresent := by
      unfold QueueFamilyIndices.findQueueFamilies.visit QueueFamily.supportsPresent
      simp only []
      split_ifs <;> simp_all
    have hc : 0 ≤ (QueueFamilyIndices.findQueueFamilies.visit f i indices).compute_family ↔
        0 ≤ indices.compute_family ∨ f.supportsCompute := by
      unfold QueueFamilyIndices.findQueueFamilies.visit QueueFamily.supportsCompute
      simp only []
      split_ifs <;> simp_all
    generalize QueueFamilyIndices.findQueueFamilies.visit f i indices = updated at hg hp hc ⊢
    by_cases hdone : updated.isComplete = true
    · rw [if_pos hdone]
      have h := (isComplete_iff updated).mp hdone
      simp only [hdone, true_iff, List.mem_cons, exists_eq_or_imp]
      refine ⟨?_, ?_, ?_⟩
      · rcases hg.mp h.1 with h' | h'
        · exact Or.inl h'
        · exact Or.inr (Or.inl h')
      · rcases hp.mp h.2.1 with h' | h'
        · exact Or.inl h'
        · exact Or.inr (Or.inl h')
      · rcases hc.mp h.2.2 with h' | h'
        · exact Or.inl h'
        · exact Or.inr (Or.inl h')
    · rw [if_neg hdone, ih (i + 1) (by omega) updated, hg, hp, hc]
      simp only [List.mem_cons, exists_eq_or_imp, or_assoc]

theorem checkDeviceExtensionSupport_foldl (available required : List String) :
    available.foldl (fun required extension => required.filter fun name => name != extension)
        required
      = required.filter fun name => decide (name ∉ available) := by
  induction available generalizing required with
  | nil => simp
  | cons a rest ih =>
    rw [List.foldl_cons, ih, List.filter_filter]
    apply List.filter_congr
    intro name _
    simp only [List.mem_cons, not_or, bne_iff_ne, ne_eq, Bool.decide_and, Bool.and_comm,
      decide_not, Bool.and_eq_true, Bool.not_eq_true', decide_eq_false_iff_not,
      decide_eq_true_eq]
    by_cases h₁ : name = a <;> by_cases h₂ : name ∈ rest <;> simp [h₁, h₂]

theorem checkDeviceExtensionSupport_iff (device : PhysicalDevice) :
    checkDeviceExtensionSupport device = true ↔
      ∀ name ∈ DEVICE_EXTENSIONS, name ∈ device.available_extensions := by
  simp only [checkDeviceExtensionSupport, checkDeviceExtensionSupport_foldl,
    List.isEmpty_iff, List.filter_eq_nil_iff, decide_eq_true_eq, not_not]

/-- C19. `isDeviceSuitable` returns true for a device if and only if its queue-family list
contains a family with at least one queue supporting graphics, one with at least one queue
supporting compute and one with at least one queue that can present to the surface
(possibly the same family), every required device extension is among the device's available
extensions, and the surface query yields a non-empty format list and a non-empty
present-mode list. -/
theorem isDeviceSuitable_iff (device : PhysicalDevice) :
    isDeviceSuitable device = true ↔
      (∃ f ∈ device.queuefamilies, f.supportsGraphics) ∧
      (∃ f ∈ device.queuefamilies, f.supportsCompute) ∧
      (∃ f ∈ device.queuefamilies, f.supportsPresent) ∧
      (∀ name ∈ DEVICE_EXTENSIONS, name ∈ device.available_extensions) ∧
      device.formats ≠ [] ∧ device.present_modes ≠ [] := by
  have hq := findQueueFamilies_loop_complete device.queuefamilies 0 (le_refl 0) {}
  have hneg : ¬ (0 : Int) ≤ -1 := by decide
  simp only [hneg, false_or] at hq
  have he := checkDeviceExtensionSupport_iff device
  unfold isDeviceSuitable
  simp only []
  by_cases hext : checkDeviceExtensionSupport device = true
  · have hall := he.mp hext
    rw [hext, if_pos rfl]
    simp only [Bool.and_eq_true, Bool.and_true, Bool.not_eq_true', List.isEmpty_eq_false]
    rw [QueueFamilyIndices.findQueueFamilies, hq]
    constructor
    · rintro ⟨⟨hg, hp, hc⟩, hf, hm⟩
      exact ⟨hg, hc, hp, hall, hf, hm⟩
    · rintro ⟨hg, hc, hp, -, hf, hm⟩
      exact ⟨⟨hg, hp, hc⟩, hf, hm⟩
  · have hnot : ¬ ∀ name ∈ DEVICE_EXTENSIONS, name ∈ device.available_extensions :=
      fun hc => hext (he.mpr hc)
    have hfalse : checkDeviceExtensionSupport device = false := by
      cases h : checkDeviceExtensionSupport device
      · rfl
      · exact absurd h hext
    rw [hfalse]
    simp only [Bool.and_false, Bool.false_and, Bool.false_eq_true, false_iff]
    rintro ⟨-, -, -, hx, -⟩
    exact hnot hx

/-- Witness of C19: the sample device is suitable; without the swapchain extension, or
without a family that can present, it is not. -/
theorem isDeviceSuitable_iff_witness :
    isDeviceSuitable sampleDevice = true ∧
    isDeviceSuitable { sampleDevice with available_extensions := ["VK_KHR_maintenance1"] }
      = false ∧
    isDeviceSuitable { sampleDevice with
      queuefamilies := [{ queueFlags := 3, queueCount := 1, presentSupport := false }] }
      = false :=
  ⟨(isDeviceSuitable_iff sampleDevice).mpr
      ⟨⟨_, List.mem_cons_self _ _, by unfold QueueFamily.supportsGraphics; decide⟩,
       ⟨_, List.mem_cons_of_mem _ (List.mem_cons_self _ _),
         by unfold QueueFamily.supportsCompute; decide⟩,
       ⟨_, List.mem_cons_self _ _, by unfold QueueFamily.supportsPresent; decide⟩,
       by decide, by decide, by decide⟩,
    by decide, by decide⟩

/-- C20, evaluated at a failing input: for the complete triple graphics = 0, present = 1,
compute = 1, which `findQueueFamilies` selects on a device whose family 0 cannot present, the
queue-create list has two entries, one per distinct family, but both name family 0 (the
graphics family): family 0 is the `queueFamilyIndex` of two entries and family 1 of none. -/
theorem createLogicalDevice_names_graphics_family_only :
    QueueFamilyIndices.findQueueFamilies splitPresentDevice
      = { graphics_family := 0, present_family := 1, compute_family := 1 } ∧
    QueueFamilyIndices.isComplete
      { graphics_family := 0, present_family := 1, compute_family := 1 } = true ∧
    createLogicalDevice.queue_create_infos
        { graphics_family := 0, present_family := 1, compute_family := 1 }
      = [{ queueFamilyIndex := 0, queueCount := 1 }, { queueFamilyIndex := 0, queueCount := 1 }] ∧
    entriesForFamily (createLogicalDevice.queue_create_infos
        { graphics_family := 0, present_family := 1, compute_family := 1 }) 0 = 2 ∧
    entriesForFamily (createLogicalDevice.queue_create_infos
        { graphics_family := 0, present_family := 1, compute_family := 1 }) 1 = 0 ∧
    createLogicalDevice splitPresentDevice VK_SUCCESS
      = .ok [{ queueFamilyIndex := 0, queueCount := 1 },
          { queueFamilyIndex := 0, queueCount := 1 }] :=
  ⟨by decide, by decide, by decide, by decide, by decide, rfl⟩

/-! ## Lemmas on initialisation and on what a rebuild leaves -/

/-- A rebuild leaves the swapchain-dependent objects built for the reported image count. -/
theorem recreateSwapChain_built (env : Env) (r : Renderer) :
    (recreateSwapChain env r).state.Built env.image_count := by
  refine ⟨?_, ?_, ?_, ?_, ?_, ?_, ?_, ?_, ?_, recreateSwapChain_recorded env r⟩ <;>
  · unfold recreateSwapChain
    rw [createSwapChainImageViews_fun, createFrameBuffers_fun, createGraphicsCommandBuffers_fun]
    rfl

theorem Run.bind_keeps {α : Type} (g : Renderer → α) (a : α) (x : Run) (f : Renderer → Run)
    (hx : x.error = none ∧ g x.state = a)
    (hf : ∀ s, (f s).error = none ∧ g (f s).state = g s) :
    (x.bind f).error = none ∧ g (x.bind f).state = a := by
  rw [Run.bind_of_ok x f hx.1]
  exact ⟨(hf _).1, (hf _).2.trans hx.2⟩

theorem createSwapChainImageViews_initMembers (s : Renderer) :
    (createSwapChainImageViews s).error = none ∧
      (createSwapChainImageViews s).state.initMembers = s.initMembers := by
  rw [createSwapChainImageViews_eq]
  exact ⟨rfl, rfl⟩

theorem createFrameBuffers_initMembers (s : Renderer) :
    (createFrameBuffers s).error = none ∧
      (createFrameBuffers s).state.initMembers = s.initMembers := by
  rw [createFrameBuffers_eq]
  exact ⟨rfl, rfl⟩

theorem createGraphicsCommandBuffers_initMembers (s : Renderer) :
    (createGraphicsCommandBuffers s).error = none ∧
      (createGraphicsCommandBuffers s).state.initMembers = s.initMembers := by
  rw [createGraphicsCommandBuffers_eq]
  exact ⟨rfl, rfl⟩

/-- A rebuild assigns none of the members that initialisation sets up. -/
theorem recreateSwapChain_initMembers (env : Env) (r : Renderer) :
    (recreateSwapChain env r).state.initMembers = r.initMembers := by
  unfold recreateSwapChain
  simp only []
  refine (Run.bind_keeps Renderer.initMembers _ _ createDepthPrePassCommandBuffer ?_
    (fun s => ⟨rfl, rfl⟩)).2
  refine Run.bind_keeps Renderer.initMembers _ _ createLightCullingCommandBuffer ?_
    (fun s => ⟨rfl, rfl⟩)
  refine Run.bind_keeps Renderer.initMembers _ _ createGraphicsCommandBuffers ?_
    createGraphicsCommandBuffers_initMembers
  refine Run.bind_keeps Renderer.initMembers _ _ updateIntermediateDescriptorSet ?_
    (fun s => ⟨rfl, rfl⟩)
  refine Run.bind_keeps Renderer.initMembers _ _ createLightVisibilityBuffer ?_
    (fun s => ⟨rfl, rfl⟩)
  refine Run.bind_keeps Renderer.initMembers _ _ createFrameBuffers ?_
    createFrameBuffers_initMembers
  refine Run.bind_keeps Renderer.initMembers _ _ createDepthResources ?_ (fun s => ⟨rfl, rfl⟩)
  refine Run.bind_keeps Renderer.initMembers _ _ createGraphicsPipelines ?_
    (fun s => ⟨rfl, rfl⟩)
  refine Run.bind_keeps Renderer.initMembers _ _ createRenderPasses ?_ (fun s => ⟨rfl, rfl⟩)
  refine Run.bind_keeps Renderer.initMembers _ _ createSwapChainImageViews ?_
    createSwapChainImageViews_initMembers
  exact ⟨rfl, rfl⟩

theorem recreateSwapChain_extent (env : Env) (r : Renderer) :
    (recreateSwapChain env r).state.swap_chain_extent = chooseSwapExtent r env.capabilities := by
  unfold recreateSwapChain
  rw [createSwapChainImageViews_fun, createFrameBuffers_fun, createGraphicsCommandBuffers_fun]
  rfl

/-- Whatever ran before them without an exception, the three recording steps leave the
command buffers recorded from the final state. -/
theorem recorded_of_bind (x : Run) (hx : x.error = none) :
    (((x.bind createGraphicsCommandBuffers).bind createLightCullingCommandBuffer).bind
      createDepthPrePassCommandBuffer).state.Recorded := by
  rw [Run.bind_of_ok _ _ hx, Run.bind_of_ok _ _ (createGraphicsCommandBuffers_error _),
    Run.bind_of_ok _ _ (createLightCullingCommandBuffer_error _)]
  exact recorded_after_recording x.state

/-- Initialisation returns normally once the queue family indices are complete. -/
theorem initVulkan_error (env : Env) (physical_device : PhysicalDevice)
    (model_indices : List Nat) (r : Renderer)
    (h : (QueueFamilyIndices.findQueueFamilies physical_device).isComplete = true) :
    (initVulkan env physical_device model_indices r).error = none := by
  unfold initVulkan
  rw [findQueueFamilyIndices_fun _ h, createSwapChainImageViews_fun, createFrameBuffers_fun,
    createGraphicsCommandBuffers_fun]
  rfl

theorem initVulkan_recorded (env : Env) (physical_device : PhysicalDevice)
    (model_indices : List Nat) (r : Renderer)
    (h : (QueueFamilyIndices.findQueueFamilies physical_device).isComplete = true) :
    (initVulkan env physical_device model_indices r).state.Recorded := by
  unfold initVulkan
  refine recorded_of_bind _ ?_
  rw [findQueueFamilyIndices_fun _ h, createSwapChainImageViews_fun, createFrameBuffers_fun]
  rfl

/-- Initialisation leaves the swapchain-dependent objects built for the reported image
count. -/
theorem initVulkan_built (env : Env) (physical_device : PhysicalDevice)
    (model_indices : List Nat) (r : Renderer)
    (h : (QueueFamilyIndices.findQueueFamilies physical_device).isComplete = true) :
    (initVulkan env physical_device model_indices r).state.Built env.image_count := by
  refine ⟨?_, ?_, ?_, ?_, ?_, ?_, ?_, ?_, ?_, initVulkan_recorded env _ _ r h⟩ <;>
  · unfold initVulkan
    rw [findQueueFamilyIndices_fun _ h, createSwapChainImageViews_fun, createFrameBuffers_fun,
    createGraphicsCommandBuffers_fun]
    rfl

theorem Renderer.Built.sizedFor {image_count : Nat} {s : Renderer}
    (h : s.Built image_count) : s.sizedFor image_count := by
  obtain ⟨h₁, h₂, h₃, -, -, -, -, -, -, -, -, hc⟩ := h
  have hf : s.swap_chain_framebuffers.length = image_count := by rw [h₃]; simp
  have hcl : s.command_buffers.length = image_count := by rw [hc, hf]; simp
  refine ⟨by rw [h₁]; simp, by rw [h₂]; simp, hf, hcl, ?_⟩
  intro image_index hlt
  have hlt' : image_index < s.command_buffers.length := by rw [hcl]; exact hlt
  exact ⟨s.command_buffers.get ⟨image_index, hlt'⟩, List.get?_eq_get hlt'⟩


theorem initVulkan_initialised (env : Env) (physical_device : PhysicalDevice)
    (model_indices : List Nat) (r : Renderer)
    (h : (QueueFamilyIndices.findQueueFamilies physical_device).isComplete = true) :
    (initVulkan env physical_device model_indices r).state.Initialised := by
  refine ⟨?_, ?_, ?_, ?_, ?_, ?_, ?_, ?_, ?_, ?_⟩ <;>
  · unfold initVulkan
    rw [findQueueFamilyIndices_fun _ h, createSwapChainImageViews_fun, createFrameBuffers_fun,
    createGraphicsCommandBuffers_fun]
    rfl

set_option maxRecDepth 4000 in
theorem initVulkan_pointlights (env : Env) (physical_device : PhysicalDevice)
    (model_indices : List Nat) (r : Renderer)
    (h : (QueueFamilyIndices.findQueueFamilies physical_device).isComplete = true) :
    (initVulkan env physical_device model_indices r).state.pointlights
      = createLights.loop 200 r.pointlights := by
  unfold initVulkan
  rw [findQueueFamilyIndices_fun _ h, createSwapChainImageViews_fun, createFrameBuffers_fun,
    createGraphicsCommandBuffers_fun]
  rfl

theorem createLights_loop_length (n : Nat) (pointlights : List PointLight) :
    (createLights.loop n pointlights).length = pointlights.length + n := by
  induction n generalizing pointlights with
  | zero => rfl
  | succ n ih => rw [createLights.loop, ih]; simp; omega

theorem initVulkan_ready (env : Env) (physical_device : PhysicalDevice)
    (model_indices : List Nat) (r : Renderer)
    (h : (QueueFamilyIndices.findQueueFamilies physical_device).isComplete = true) :
    (initVulkan env physical_device model_indices r).state.Ready :=
  ⟨initVulkan_initialised env _ _ r h, _, initVulkan_built env _ _ r h⟩

theorem Renderer.Initialised.of_same {s s' : Renderer} (h : s.Initialised)
    (h₁ : s'.initMembers = s.initMembers)
    (h₂ : s'.pointlight_buffer_size = s.pointlight_buffer_size) : s'.Initialised := by
  unfold Renderer.initMembers at h₁
  simp only [Prod.mk.injEq] at h₁
  obtain ⟨e₁, e₂, e₃, e₄, e₅, e₆, e₇, -, e₉, e₁₀, -⟩ := h₁
  obtain ⟨i₁, i₂, i₃, i₄, i₅, i₆, i₇, i₈, i₉, i₁₀⟩ := h
  exact ⟨e₁.trans i₁, e₂.trans i₂, e₃.trans i₃, e₄.trans i₄, e₅.trans i₅, e₆.trans i₆,
    e₇.trans i₇, e₉.trans i₈, e₁₀.trans i₉, h₂.trans i₁₀⟩

theorem recreateSwapChain_ready (env : Env) (r : Renderer) (h : r.Initialised) :
    (recreateSwapChain env r).state.Ready :=
  ⟨h.of_same (recreateSwapChain_initMembers env r) (recreateSwapChain_same env r).2.2.2.1,
    _, recreateSwapChain_built env r⟩

/-- A frame leaves the renderer as it was up to the call log, or as a rebuild leaves it. -/
theorem drawFrame_state (env : Env) (r : Renderer) :
    ∃ log, (drawFrame env r).state = { r with log := log } ∨
      (drawFrame env r).state = (recreateSwapChain env { r with log := log }).state := by
  by_cases h₁ : env.aquiring_result = VK_ERROR_OUT_OF_DATE_KHR
  · rw [drawFrame_out_of_date env r h₁]
    exact ⟨(r.logEvent frameAcquire).log, Or.inr rfl⟩
  by_cases h₂ : env.aquiring_result = VK_SUCCESS ∨ env.aquiring_result = VK_SUBOPTIMAL_KHR
  · rw [drawFrame_acquired env r h₂]
    split_ifs
    · exact ⟨(afterSubmissions env r).log, Or.inl rfl⟩
    · exact ⟨(afterPresent env r).log, Or.inr rfl⟩
    · exact ⟨(afterPresent env r).log, Or.inl rfl⟩
    · exact ⟨(afterPresent env r).log, Or.inl rfl⟩
  · rw [drawFrame_acquire_failed env r h₁ (fun h => h₂ (Or.inl h)) (fun h => h₂ (Or.inr h))]
    exact ⟨(r.logEvent frameAcquire).log, Or.inl rfl⟩

theorem Renderer.recorded_with_log {s : Renderer} (h : s.Recorded) (log : List Event) :
    Renderer.Recorded { s with log := log } :=
  ⟨h.1, h.2.1, h.2.2⟩

theorem Renderer.built_with_log {image_count : Nat} {s : Renderer} (h : s.Built image_count)
    (log : List Event) : Renderer.Built image_count { s with log := log } := by
  obtain ⟨h₁, h₂, h₃, h₄, h₅, h₆, h₇, h₈, h₉, hr⟩ := h
  exact ⟨h₁, h₂, h₃, h₄, h₅, h₆, h₇, h₈, h₉, Renderer.recorded_with_log hr log⟩

theorem Renderer.initialised_with_log {s : Renderer} (h : s.Initialised)
    (log : List Event) : Renderer.Initialised { s with log := log } := by
  obtain ⟨i₁, i₂, i₃, i₄, i₅, i₆, i₇, i₈, i₉, i₁₀⟩ := h
  exact ⟨i₁, i₂, i₃, i₄, i₅, i₆, i₇, i₈, i₉, i₁₀⟩

theorem Renderer.ready_with_log {s : Renderer} (h : s.Ready) (log : List Event) :
    Renderer.Ready { s with log := log } :=
  ⟨Renderer.initialised_with_log h.1 log, h.2.choose,
    Renderer.built_with_log h.2.choose_spec log⟩

theorem updateUniformBuffers_eq (deltatime : Nat) (r : Renderer) :
    updateUniformBuffers deltatime r = { r with log := r.log ++ uniformUpload r } := by
  simp [updateUniformBuffers, copyBuffer, recordCopyBuffer, Renderer.logEvent, uniformUpload]

theorem drawFrame_ready (env : Env) (r : Renderer) (h : r.Ready) :
    (drawFrame env r).state.Ready := by
  obtain ⟨log, hs | hs⟩ := drawFrame_state env r
  · rw [hs]; exact Renderer.ready_with_log h log
  · rw [hs]; exact recreateSwapChain_ready env _ (Renderer.initialised_with_log h.1 log)

theorem drawFrame_pointlights (env : Env) (r : Renderer) :
    (drawFrame env r).state.pointlights = r.pointlights := by
  obtain ⟨log, hs | hs⟩ := drawFrame_state env r
  · rw [hs]
  · rw [hs]
    have := recreateSwapChain_initMembers env { r with log := log }
    unfold Renderer.initMembers at this
    simp only [Prod.mk.injEq] at this
    exact this.2.2.2.2.2.2.2.2.2.2

theorem updateUniformBuffers_ready (deltatime : Nat) (r : Renderer) (h : r.Ready) :
    (updateUniformBuffers deltatime r).Ready := by
  rw [updateUniformBuffers_eq]
  exact Renderer.ready_with_log h _

theorem Operation.run_ready (env : Env) (operation : Operation) (r : Renderer) (h : r.Ready) :
    (operation.run env r).state.Ready := by
  cases operation with
  | requestDraw deltatime =>
    exact drawFrame_ready env _ (updateUniformBuffers_ready deltatime r h)
  | resize width height =>
    show (ForwardPlus.resize env width height r).state.Ready
    unfold ForwardPlus.resize
    split_ifs
    · exact h
    · exact recreateSwapChain_ready env _
        ⟨h.1.1, h.1.2.1, h.1.2.2.1, h.1.2.2.2.1, h.1.2.2.2.2.1, h.1.2.2.2.2.2.1,
          h.1.2.2.2.2.2.2.1, h.1.2.2.2.2.2.2.2.1, h.1.2.2.2.2.2.2.2.2.1,
          h.1.2.2.2.2.2.2.2.2.2⟩
  | setCamera view campos =>
    obtain ⟨hi, n, h₁, h₂, h₃, h₄, h₅, h₆, h₇, h₈, h₉, hr⟩ := h
    exact ⟨⟨hi.1, hi.2.1, hi.2.2.1, hi.2.2.2.1, hi.2.2.2.2.1, hi.2.2.2.2.2.1,
        hi.2.2.2.2.2.2.1, hi.2.2.2.2.2.2.2.1, hi.2.2.2.2.2.2.2.2.1, hi.2.2.2.2.2.2.2.2.2⟩,
      n, h₁, h₂, h₃, h₄, h₅, h₆, h₇, h₈, h₉, hr.1, hr.2.1, hr.2.2⟩
  | changeDebugViewIndex target_view =>
    exact recreateSwapChain_ready env _
      ⟨h.1.1, h.1.2.1, h.1.2.2.1, h.1.2.2.2.1, h.1.2.2.2.2.1, h.1.2.2.2.2.2.1,
        h.1.2.2.2.2.2.2.1, h.1.2.2.2.2.2.2.2.1, h.1.2.2.2.2.2.2.2.2.1,
        h.1.2.2.2.2.2.2.2.2.2⟩

theorem Operation.run_pointlights (env : Env) (operation : Operation) (r : Renderer) :
    (operation.run env r).state.pointlights = r.pointlights := by
  have hre : ∀ r' : Renderer, (recreateSwapChain env r').state.pointlights = r'.pointlights := by
    intro r'
    have := recreateSwapChain_initMembers env r'
    unfold Renderer.initMembers at this
    simp only [Prod.mk.injEq] at this
    exact this.2.2.2.2.2.2.2.2.2.2
  cases operation with
  | requestDraw deltatime =>
    show (drawFrame env (updateUniformBuffers deltatime r)).state.pointlights = r.pointlights
    rw [drawFrame_pointlights, updateUniformBuffers_eq]
  | resize width height =>
    show (ForwardPlus.resize env width height r).state.pointlights = r.pointlights
    unfold ForwardPlus.resize
    split_ifs
    · rfl
    · rw [hre]
  | setCamera view campos => rfl
  | changeDebugViewIndex target_view =>
    show (recreateSwapChain env _).state.pointlights = r.pointlights
    rw [hre]

/-- Every state a sequence of public operations passes through and ends in is ready. -/
theorem runOperations_ready (operations : List (Env × Operation)) (r : Renderer) (h : r.Ready) :
    (runOperations operations r).state.Ready := by
  induction operations generalizing r with
  | nil => exact h
  | cons step rest ih =>
    obtain ⟨env, operation⟩ := step
    unfold runOperations Run.bind
    have h₁ := Operation.run_ready env operation r h
    split
    · exact ih _ h₁
    · exact h₁

theorem runOperations_pointlights (operations : List (Env × Operation)) (r : Renderer) :
    (runOperations operations r).state.pointlights = r.pointlights := by
  induction operations generalizing r with
  | nil => rfl
  | cons step rest ih =>
    obtain ⟨env, operation⟩ := step
    unfold runOperations Run.bind
    have h₁ := Operation.run_pointlights env operation r
    split
    · rw [ih, h₁]
    · exact h₁


/-! ## Claims on the per-image arrays and on the light count -/

/-- C21. After initialisation and after every swapchain rebuild (entered directly, from
`changeDebugViewIndex`, from `resize`, or from `drawFrame` on a stale acquire or present),
the swapchain image views, the swapchain framebuffers and the forward command buffers are
each as many as the presentable images the swapchain reports, so that every image index below
the image count names a recorded forward command buffer: `command_buffers[image_index]` in
`drawFrame` is in bounds.  Initialisation is considered for a device whose queue family
indices are complete; on any other device it throws. -/
theorem per_image_arrays_match_image_count (env : Env) (physical_device : PhysicalDevice)
    (model_indices : List Nat) (r : Renderer)
    (h : (QueueFamilyIndices.findQueueFamilies physical_device).isComplete = true) :
    ((initVulkan env physical_device model_indices r).error = none ∧
      (initVulkan env physical_device model_indices r).state.sizedFor env.image_count) ∧
    ((recreateSwapChain env r).error = none ∧
      (recreateSwapChain env r).state.sizedFor env.image_count) ∧
    (∀ target_view, (changeDebugViewIndex env target_view r).state.sizedFor env.image_count) ∧
    (∀ width height, width ≠ 0 ∧ height ≠ 0 →
      (resize env width height r).state.sizedFor env.image_count) ∧
    (env.aquiring_result = VK_ERROR_OUT_OF_DATE_KHR →
      (drawFrame env r).state.sizedFor env.image_count) ∧
    ((env.aquiring_result = VK_SUCCESS ∨ env.aquiring_result = VK_SUBOPTIMAL_KHR) ∧
      env.submit_result = VK_SUCCESS ∧
      (env.present_result = VK_ERROR_OUT_OF_DATE_KHR ∨ env.present_result = VK_SUBOPTIMAL_KHR) →
      (drawFrame env r).state.sizedFor env.image_count) := by
  refine ⟨⟨initVulkan_error env _ _ r h, (initVulkan_built env _ _ r h).sizedFor⟩,
    ⟨(recreateSwapChain_spec env r).1, (recreateSwapChain_built env r).sizedFor⟩,
    fun _ => (recreateSwapChain_built env _).sizedFor, ?_, ?_, ?_⟩
  · rintro width height ⟨hw, hh⟩
    have hz : ¬ (width = 0 ∨ height = 0) := by
      rintro (h' | h')
      · exact hw h'
      · exact hh h'
    simp only [resize, if_neg hz]
    exact (recreateSwapChain_built env _).sizedFor
  · intro hacq
    rw [drawFrame_out_of_date env r hacq]
    exact (recreateSwapChain_built env _).sizedFor
  · rintro ⟨hacq, hsub, hpres⟩
    rw [drawFrame_acquired env r hacq, if_neg (not_not.mpr hsub), if_pos hpres]
    exact (recreateSwapChain_built env _).sizedFor

/-- Witness of C21: the sample device has complete queue family indices, and after
initialisation for a swapchain of three images there are three image views, three
framebuffers and three forward command buffers. -/
theorem per_image_arrays_match_image_count_witness :
    (QueueFamilyIndices.findQueueFamilies sampleDevice).isComplete = true ∧
    (initVulkan sampleEnv sampleDevice (List.range 36) {}).state.sizedFor 3 ∧
    (recreateSwapChain sampleEnv {}).state.sizedFor 3 :=
  ⟨by decide,
    (per_image_arrays_match_image_count sampleEnv sampleDevice (List.range 36) {}
      (by decide)).1.2,
    (per_image_arrays_match_image_count sampleEnv sampleDevice (List.range 36) {}
      (by decide)).2.1.2⟩

/-- What a frame appends to the log holds no write of the light count and no copy of the
light buffer. -/
theorem drawFrame_keeps_light_count (env : Env) (r : Renderer) :
    ∃ added, (drawFrame env r).state.log = r.log ++ added ∧
      ∀ held, added.foldl lightBufferCount.step held = held := by
  by_cases h₁ : env.aquiring_result = VK_ERROR_OUT_OF_DATE_KHR
  · rw [drawFrame_out_of_date env r h₁]
    obtain ⟨-, w₁, w₂, hl⟩ := recreateSwapChain_spec env (r.logEvent frameAcquire)
    refine ⟨frameAcquire :: rebuildLog w₁ w₂, ?_, ?_⟩
    · rw [hl]; simp [Renderer.logEvent, rebuildLog]
    · intro held; rfl
  by_cases h₂ : env.aquiring_result = VK_SUCCESS ∨ env.aquiring_result = VK_SUBOPTIMAL_KHR
  · rw [drawFrame_acquired env r h₂]
    split_ifs
    · exact ⟨_, rfl, fun _ => rfl⟩
    · obtain ⟨-, w₁, w₂, hl⟩ := recreateSwapChain_spec env (afterPresent env r)
      refine ⟨[frameAcquire, depthPrePassSubmission, lightCullingSubmission,
        forwardSubmission env.image_index, framePresent env.image_index]
          ++ rebuildLog w₁ w₂, ?_, ?_⟩
      · rw [hl]; simp [afterPresent, rebuildLog]
      · intro held; rfl
    · exact ⟨_, rfl, fun _ => rfl⟩
    · exact ⟨_, rfl, fun _ => rfl⟩
  · rw [drawFrame_acquire_failed env r h₁ (fun h => h₂ (Or.inl h)) (fun h => h₂ (Or.inr h))]
    exact ⟨_, rfl, fun _ => rfl⟩

/-- After a `requestDraw` the device-local light buffer starts with the number of lights,
provided the light buffer is at least one `int` long. -/
theorem requestDraw_light_count (env : Env) (deltatime : Nat) (r : Renderer)
    (h : 4 ≤ r.pointlight_buffer_size) :
    lightBufferCount (requestDraw env deltatime r).state.log
      = some (toInt32 r.pointlights.length) := by
  obtain ⟨added, hl, hk⟩ := drawFrame_keeps_light_count env (updateUniformBuffers deltatime r)
  unfold requestDraw lightBufferCount
  rw [hl, List.foldl_append, hk, updateUniformBuffers_eq]
  simp only [List.foldl_append]
  generalize List.foldl lightBufferCount.step (none, none) r.log = held
  simp [uniformUpload, List.foldl, lightBufferCount.step, sizeof_int, sizeof_vec4, h]


theorem Renderer.Initialised.light_buffer_size {s : Renderer} (h : s.Initialised) :
    s.pointlight_buffer_size = 32016 :=
  h.2.2.2.2.2.2.2.2.2.trans (by decide)

/-- The constructed renderer is ready, and so is every state that public operations lead
to from it. -/
theorem VulkanRenderer_Impl.create_ready (env : Env) (physical_device : PhysicalDevice)
    (model_indices : List Nat)
    (h : (QueueFamilyIndices.findQueueFamilies physical_device).isComplete = true) :
    (VulkanRenderer_Impl.create env physical_device model_indices).error = none ∧
    (VulkanRenderer_Impl.create env physical_device model_indices).state.Ready ∧
    ∀ operations, (runOperations operations
      (VulkanRenderer_Impl.create env physical_device model_indices).state).state.Ready :=
  ⟨initVulkan_error env _ _ _ h, initVulkan_ready env _ _ _ h,
    fun operations => runOperations_ready operations _ (initVulkan_ready env _ _ _ h)⟩

/-- C22. The constructor leaves exactly 200 point lights, which is within the capacity
`MAX_POINT_LIGHT_COUNT` = 1000.  Every sequence of `requestDraw`, `resize`, `setCamera` and
`changeDebugViewIndex`, from any state and whatever the device answers, leaves the number of
lights as it was, so it stays 200 after construction; and a `requestDraw` issued after any
such sequence leaves that count, 200, in the first four bytes of the device-local light
buffer (written at offset 0 of the staging memory and copied from there). -/
theorem light_count_fixed_by_initialisation (env : Env) (physical_device : PhysicalDevice)
    (model_indices : List Nat)
    (h : (QueueFamilyIndices.findQueueFamilies physical_device).isComplete = true)
    (operations : List (Env × Operation)) (env' : Env) (deltatime : Nat) :
    (VulkanRenderer_Impl.create env physical_device model_indices).error = none ∧
    (VulkanRenderer_Impl.create env physical_device model_indices).state.pointlights.length
      = 200 ∧
    (200 : Int) ≤ MAX_POINT_LIGHT_COUNT ∧
    (∀ r : Renderer,
      (runOperations operations r).state.pointlights.length = r.pointlights.length) ∧
    (runOperations operations
      (VulkanRenderer_Impl.create env physical_device model_indices).state
        ).state.pointlights.length = 200 ∧
    lightBufferCount (requestDraw env' deltatime (runOperations operations
      (VulkanRenderer_Impl.create env physical_device model_indices).state).state).state.log
      = some 200 := by
  have h₀ : (VulkanRenderer_Impl.create env physical_device model_indices
      ).state.pointlights.length = 200 := by
    unfold VulkanRenderer_Impl.create
    rw [initVulkan_pointlights _ _ _ _ h, createLights_loop_length]
    rfl
  have hready := (VulkanRenderer_Impl.create_ready env physical_device model_indices h).2.2
    operations
  have hkeep := runOperations_pointlights operations
    (VulkanRenderer_Impl.create env physical_device model_indices).state
  refine ⟨initVulkan_error env _ _ _ h, h₀, by decide,
    fun r => by rw [runOperations_pointlights], by rw [hkeep, h₀], ?_⟩
  rw [requestDraw_light_count env' deltatime _
    (by rw [Renderer.Initialised.light_buffer_size hready.1]; decide), hkeep, h₀]
  rfl

/-- Witness of C22: the renderer constructed for the sample device, then moved, resized,
switched to debug view 2 and drawn, still holds 200 lights and uploads the count 200. -/
theorem light_count_fixed_by_initialisation_witness :
    (QueueFamilyIndices.findQueueFamilies sampleDevice).isComplete = true ∧
    (runOperations
      [(sampleEnv, .setCamera [] []), (sampleEnv, .resize 801 600),
        (sampleEnv, .changeDebugViewIndex 2), (sampleEnv, .requestDraw 0)]
      (VulkanRenderer_Impl.create sampleEnv sampleDevice (List.range 36)).state
        ).state.pointlights.length = 200 ∧
    lightBufferCount (requestDraw sampleEnv 0 (runOperations
      [(sampleEnv, .setCamera [] []), (sampleEnv, .resize 801 600),
        (sampleEnv, .changeDebugViewIndex 2), (sampleEnv, .requestDraw 0)]
      (VulkanRenderer_Impl.create sampleEnv sampleDevice (List.range 36)).state).state).state.log
      = some 200 :=
  ⟨by decide,
    (light_count_fixed_by_initialisation sampleEnv sampleDevice (List.range 36) (by decide)
      [(sampleEnv, .setCamera [] []), (sampleEnv, .resize 801 600),
        (sampleEnv, .changeDebugViewIndex 2), (sampleEnv, .requestDraw 0)]
      sampleEnv 0).2.2.2.2.1,
    (light_count_fixed_by_initialisation sampleEnv sampleDevice (List.range 36) (by decide)
      [(sampleEnv, .setCamera [] []), (sampleEnv, .resize 801 600),
        (sampleEnv, .changeDebugViewIndex 2), (sampleEnv, .requestDraw 0)]
      sampleEnv 0).2.2.2.2.2⟩


/-! ## Claims on the submissions of a frame -/

/-- C24, evaluated at failing inputs: when the device rejects the depth pre-pass submission,
or the light-culling submission, with `VK_ERROR_DEVICE_LOST`, `drawFrame` still returns
normally, having gone on to the remaining submissions and to the present; only a rejected
forward submission makes it throw.  In general the two result codes do not influence
`drawFrame` at all. -/
theorem drawFrame_ignores_first_two_submit_results :
    (depthPrePassRejectedEnv.depth_prepass_submit_result ≠ VK_SUCCESS ∧
      (drawFrame depthPrePassRejectedEnv rebuiltSample).error = none ∧
      frameOperations (frameLog depthPrePassRejectedEnv rebuiltSample)
        = [frameAcquire, depthPrePassSubmission, lightCullingSubmission, forwardSubmission 1,
            framePresent 1]) ∧
    (lightCullingRejectedEnv.light_culling_submit_result ≠ VK_SUCCESS ∧
      (drawFrame lightCullingRejectedEnv rebuiltSample).error = none ∧
      frameOperations (frameLog lightCullingRejectedEnv rebuiltSample)
        = [frameAcquire, depthPrePassSubmission, lightCullingSubmission, forwardSubmission 1,
            framePresent 1]) ∧
    (drawFrame { sampleEnv with submit_result := VK_ERROR_DEVICE_LOST } rebuiltSample).error
      = some "Failed to submit draw command buffer!" ∧
    (∀ (env : Env) (r : Renderer) (a b : VkResult),
      drawFrame { env with depth_prepass_submit_result := a, light_culling_submit_result := b } r
        = drawFrame env r) := by
  refine ⟨by decide, by decide, by decide, ?_⟩
  intro env r a b
  rfl


/-! ## Claims on the light-culling command buffer -/

theorem createBuffer_buffer_info_size (size : Nat) (usage : VkFlags) (a b : Int) :
    (createBuffer.buffer_info size usage a b).size = size := by
  unfold createBuffer.buffer_info
  split_ifs <;> rfl

/-- A tile count is between 1 and 2^28, whatever the extent. -/
theorem tileCount_bounds (extent : Nat) :
    1 ≤ tileCount extent ∧ tileCount extent ≤ 268435456 := by
  have hlt : (extent + 4294967296 - 1) % 4294967296 < 4294967296 := Nat.mod_lt _ (by norm_num)
  have hq : (extent + 4294967296 - 1) % 4294967296 / 16 < 268435456 := by omega
  have hsmall : ((extent + 4294967296 - 1) % 4294967296 / 16 + 1) % 4294967296
      = (extent + 4294967296 - 1) % 4294967296 / 16 + 1 := by omega
  unfold tileCount toInt32
  rw [toUInt32_TILE_SIZE, hsmall, hsmall, if_pos (by omega)]
  omega

/-- The conversion of a tile count to `uint32_t`, as in the call of `vkCmdDispatch`, keeps
its value. -/
theorem toUInt32_tileCount (extent : Nat) :
    ((toUInt32 (tileCount extent) : Nat) : Int) = tileCount extent := by
  obtain ⟨h₁, h₂⟩ := tileCount_bounds extent
  unfold toUInt32
  omega

/-- What `createLights` leaves in the three members that describe the light buffers. -/
theorem createLights_buffers (r : Renderer) :
    (createLights r).state.pointlight_buffer_size = 32016 ∧
    (createLights r).state.lights_staging_buffer
      = some (createBuffer.buffer_info 32016 VK_BUFFER_USAGE_TRANSFER_SRC_BIT (-1) (-1)) ∧
    (createLights r).state.pointlight_buffer
      = some (createBuffer.buffer_info 32016
          (VK_BUFFER_USAGE_STORAGE_BUFFER_BIT ||| VK_BUFFER_USAGE_TRANSFER_DST_BIT) (-1) (-1)) := by
  simp only [createLights_eq, Run.ok]
  exact ⟨by decide, rfl, rfl⟩

/-- In a ready state the light buffer and the visibility buffer exist with the sizes held in
`pointlight_buffer_size` and `light_visibility_buffer_size`. -/
theorem Renderer.Ready.buffer_sizes {s : Renderer} (h : s.Ready) :
    ∃ visibility light, s.light_visibility_buffer = some visibility ∧
      visibility.size = s.light_visibility_buffer_size ∧
      s.pointlight_buffer = some light ∧ light.size = s.pointlight_buffer_size := by
  obtain ⟨hi, n, hb⟩ := h
  have h₁ := hi.2.2.2.2.2.2.2.1
  have h₂ := hi.2.2.2.2.2.2.2.2.2
  rw [(createLights_buffers {}).2.2] at h₁
  rw [(createLights_buffers {}).1] at h₂
  exact ⟨_, _, hb.2.2.2.2.2.2.1, createBuffer_buffer_info_size _ _ _ _, h₁,
    (createBuffer_buffer_info_size _ _ _ _).trans h₂.symm⟩

/-- C25. The command buffer recorded by `createLightCullingCommandBuffer` holds exactly one
dispatch, with group counts (`tile_count_per_row`, `tile_count_per_col`, 1) converted to
`uint32_t`.  Before it there is one pipeline barrier (fragment shader to compute shader) with
two buffer barriers, on the visibility buffer and on the light buffer, each from offset 0
over the size held for that buffer, shader read to shader write, graphics family to compute
family.  After it there is one pipeline barrier (compute shader to fragment shader) whose two
buffer barriers are the mirror images of the first two.  In every state reached after
construction the command buffer held is this recording for the current state, the two sizes
are the sizes the buffers were created with, and the conversion leaves the tile counts
unchanged. -/
theorem lightCulling_dispatch_between_mirrored_barriers (r : Renderer) (env : Env)
    (physical_device : PhysicalDevice) (model_indices : List Nat)
    (h : (QueueFamilyIndices.findQueueFamilies physical_device).isComplete = true)
    (operations : List (Env × Operation)) :
    (∃ before after,
      (createLightCullingCommandBuffer r).state.light_culling_command_buffer
        = some { flags := VK_COMMAND_BUFFER_USAGE_SIMULTANEOUS_USE_BIT
                 commands := before ++ [.dispatch (toUInt32 r.tile_count_per_row)
                   (toUInt32 r.tile_count_per_col) 1] ++ after } ∧
      dispatches before = [] ∧ dispatches after = [] ∧
      pipelineBarriers before
        = [.pipelineBarrier VK_PIPELINE_STAGE_FRAGMENT_SHADER_BIT
            VK_PIPELINE_STAGE_COMPUTE_SHADER_BIT
            [ acquireForCompute r .light_visibility_buffer r.light_visibility_buffer_size,
              acquireForCompute r .pointlight_buffer r.pointlight_buffer_size ] []] ∧
      pipelineBarriers after
        = [.pipelineBarrier VK_PIPELINE_STAGE_COMPUTE_SHADER_BIT
            VK_PIPELINE_STAGE_FRAGMENT_SHADER_BIT
            [ (acquireForCompute r .light_visibility_buffer
                r.light_visibility_buffer_size).mirror,
              (acquireForCompute r .pointlight_buffer r.pointlight_buffer_size).mirror ] []]) ∧
    (runOperations operations
        (VulkanRenderer_Impl.create env physical_device model_indices).state
      ).state.light_culling_command_buffer
      = (createLightCullingCommandBuffer (runOperations operations
          (VulkanRenderer_Impl.create env physical_device model_indices).state).state
        ).state.light_culling_command_buffer ∧
    (∃ visibility light,
      (runOperations operations
        (VulkanRenderer_Impl.create env physical_device model_indices).state
          ).state.light_visibility_buffer = some visibility ∧
      visibility.size = (runOperations operations
        (VulkanRenderer_Impl.create env physical_device model_indices).state
          ).state.light_visibility_buffer_size ∧
      (runOperations operations
        (VulkanRenderer_Impl.create env physical_device model_indices).state
          ).state.pointlight_buffer = some light ∧
      light.size = (runOperations operations
        (VulkanRenderer_Impl.create env physical_device model_indices).state
          ).state.pointlight_buffer_size) ∧
    ((toUInt32 (runOperations operations
        (VulkanRenderer_Impl.create env physical_device model_indices).state
          ).state.tile_count_per_row : Nat) : Int)
      = (runOperations operations
        (VulkanRenderer_Impl.create env physical_device model_indices).state
          ).state.tile_count_per_row ∧
    ((toUInt32 (runOperations operations
        (VulkanRenderer_Impl.create env physical_device model_indices).state
          ).state.tile_count_per_col : Nat) : Int)
      = (runOperations operations
        (VulkanRenderer_Impl.create env physical_device model_indices).state
          ).state.tile_count_per_col := by
  have hready := (VulkanRenderer_Impl.create_ready env physical_device model_indices h).2.2
    operations
  generalize (runOperations operations
    (VulkanRenderer_Impl.create env physical_device model_indices).state).state = s at hready ⊢
  refine ⟨⟨[ .pipelineBarrier VK_PIPELINE_STAGE_FRAGMENT_SHADER_BIT
        VK_PIPELINE_STAGE_COMPUTE_SHADER_BIT
        (createLightCullingCommandBuffer.barriers_before r) [],
      .bindDescriptorSets .compute .compute_pipeline_layout 0
        [ .light_culling_descriptor_set, .camera_descriptor_set, .intermediate_descriptor_set ],
      .pushConstants .compute_pipeline_layout VK_SHADER_STAGE_COMPUTE_BIT 0
        { viewport_size := (toInt32 r.swap_chain_extent.width, toInt32 r.swap_chain_extent.height)
          tile_nums := (r.tile_count_per_row, r.tile_count_per_col)
          debugview_index := 0 },
      .bindPipeline .compute .compute_pipeline ],
    [ .pipelineBarrier VK_PIPELINE_STAGE_COMPUTE_SHADER_BIT
        VK_PIPELINE_STAGE_FRAGMENT_SHADER_BIT
        (createLightCullingCommandBuffer.barriers_after r) [] ],
    rfl, rfl, rfl, rfl, rfl⟩, ?_, hready.buffer_sizes, ?_, ?_⟩
  · obtain ⟨-, n, hb⟩ := hready
    exact hb.2.2.2.2.2.2.2.2.2.1
  · obtain ⟨-, n, hb⟩ := hready
    rw [hb.2.2.2.1]
    exact toUInt32_tileCount _
  · obtain ⟨-, n, hb⟩ := hready
    rw [hb.2.2.2.2.1]
    exact toUInt32_tileCount _

/-- Witness of C25: the renderer constructed for the sample device and then resized. -/
theorem lightCulling_dispatch_between_mirrored_barriers_witness :
    (QueueFamilyIndices.findQueueFamilies sampleDevice).isComplete = true ∧
    (runOperations [(sampleEnv, .resize 801 600)]
        (VulkanRenderer_Impl.create sampleEnv sampleDevice (List.range 36)).state
      ).state.light_culling_command_buffer
      = (createLightCullingCommandBuffer (runOperations [(sampleEnv, .resize 801 600)]
          (VulkanRenderer_Impl.create sampleEnv sampleDevice (List.range 36)).state).state
        ).state.light_culling_command_buffer ∧
    dispatches (createLightCullingCommandBuffer.commands rebuiltSample) = [(50, 38, 1)] :=
  ⟨by decide,
    (lightCulling_dispatch_between_mirrored_barriers sampleRenderer sampleEnv sampleDevice
      (List.range 36) (by decide) [(sampleEnv, .resize 801 600)]).2.1,
    by decide⟩


/-! ## Claims on descriptor slots and on the descriptor pool -/

theorem mem_recordedCommandBuffers {s : Renderer} (h : s.Recorded) (command_buffer : CommandBuffer)
    (hm : command_buffer ∈ s.recordedCommandBuffers) :
    (∃ i, command_buffer = forwardCommandBuffer s i) ∨
    command_buffer = { flags := VK_COMMAND_BUFFER_USAGE_SIMULTANEOUS_USE_BIT
                       commands := createLightCullingCommandBuffer.commands s } ∨
    command_buffer = { flags := VK_COMMAND_BUFFER_USAGE_SIMULTANEOUS_USE_BIT
                       commands := createDepthPrePassCommandBuffer.commands s } := by
  unfold Renderer.recordedCommandBuffers at hm
  rw [h.1, h.2.1, h.2.2] at hm
  simp only [List.mem_append, List.mem_map, Option.toList, List.mem_singleton] at hm
  rcases hm with (⟨i, -, hi⟩ | hm) | hm
  · exact Or.inl ⟨i, hi.symm⟩
  · exact Or.inr (Or.inl hm)
  · exact Or.inr (Or.inr hm)

/-- In a ready state every bind sits in the slots of its pipeline layout. -/
theorem Renderer.Ready.bindsFollowLayouts {s : Renderer} (h : s.Ready) :
    s.bindsFollowLayouts := by
  obtain ⟨hi, n, hb⟩ := h
  have hrec : s.Recorded := hb.2.2.2.2.2.2.2.2.2
  have hp : s.setLayouts .pipeline_layout
      = [ .object_descriptor_set_layout, .camera_descriptor_set_layout,
          .light_culling_descriptor_set_layout, .intermediate_descriptor_set_layout ] :=
    hb.2.2.2.2.2.2.2.1
  have hd : s.setLayouts .depth_pipeline_layout
      = [ .object_descriptor_set_layout, .camera_descriptor_set_layout ] :=
    hb.2.2.2.2.2.2.2.2.1
  have hc : s.setLayouts .compute_pipeline_layout
      = [ .light_culling_descriptor_set_layout, .camera_descriptor_set_layout,
          .intermediate_descriptor_set_layout ] := hi.2.2.2.2.1
  have ha : ∀ descriptor_set, s.allocatedFrom descriptor_set
      = (initialAllocations.find? fun a => decide (a.descriptor_set = descriptor_set)).map
          fun a => a.layout := by
    intro descriptor_set
    unfold Renderer.allocatedFrom
    rw [hi.2.2.2.2.2.2.1]
  refine ⟨hp, ?_, hc, ⟨_, hrec.1, rfl⟩, hd, ⟨_, hrec.2.1, rfl⟩,
    ⟨by rw [ha]; rfl, by rw [ha]; rfl, by rw [ha]; rfl, by rw [ha]; rfl⟩, ?_⟩
  · intro command_buffer hm
    rw [hrec.2.2] at hm
    obtain ⟨i, -, rfl⟩ := List.mem_map.mp hm
    rfl
  · intro command_buffer hm bind hbind
    rcases mem_recordedCommandBuffers hrec command_buffer hm with ⟨i, rfl⟩ | rfl | rfl
    · have : bind = (.pipeline_layout, 0,
          [ .object_descriptor_set, .camera_descriptor_set, .light_culling_descriptor_set,
            .intermediate_descriptor_set ]) := List.mem_singleton.mp hbind
      subst this
      intro k hk
      rw [hp]
      have hk' : k < 4 := hk
      interval_cases k <;> simp [ha, initialAllocations]
    · have : bind = (.compute_pipeline_layout, 0,
          [ .light_culling_descriptor_set, .camera_descriptor_set,
            .intermediate_descriptor_set ]) := List.mem_singleton.mp hbind
      subst this
      intro k hk
      rw [hc]
      have hk' : k < 3 := hk
      interval_cases k <;> simp [ha, initialAllocations]
    · have : bind = (.depth_pipeline_layout, 0,
          [ .object_descriptor_set, .camera_descriptor_set ]) := List.mem_singleton.mp hbind
      subst this
      intro k hk
      rw [hd]
      have hk' : k < 2 := hk
      interval_cases k <;> simp [ha, initialAllocations]

/-- C26. In every state reached after construction, for each pipeline the descriptor sets
bound at record time occupy the slots of the set layouts they were allocated with: the
forward pipeline layout is [object, camera, light-culling, intermediate] and every forward
command buffer binds [object set, camera set, light-culling set, intermediate set] from slot
0; the compute pipeline layout is [light-culling, camera, intermediate] and the light-culling
command buffer binds [light-culling set, camera set, intermediate set] from slot 0; the depth
pipeline layout is [object, camera] and the depth pre-pass buffer binds [object set, camera
set] from slot 0; and each set was allocated with the layout of its name. -/
theorem descriptor_sets_bound_in_layout_slots (env : Env) (physical_device : PhysicalDevice)
    (model_indices : List Nat)
    (h : (QueueFamilyIndices.findQueueFamilies physical_device).isComplete = true)
    (operations : List (Env × Operation)) :
    (VulkanRenderer_Impl.create env physical_device model_indices).error = none ∧
    (VulkanRenderer_Impl.create env physical_device model_indices).state.bindsFollowLayouts ∧
    (runOperations operations
      (VulkanRenderer_Impl.create env physical_device model_indices).state
        ).state.bindsFollowLayouts :=
  ⟨(VulkanRenderer_Impl.create_ready env physical_device model_indices h).1,
    (VulkanRenderer_Impl.create_ready env physical_device model_indices h).2.1.bindsFollowLayouts,
    ((VulkanRenderer_Impl.create_ready env physical_device model_indices h).2.2
      operations).bindsFollowLayouts⟩

/-- Witness of C26: the renderer constructed for the sample device, also after a resize and
a change of the debug view. -/
theorem descriptor_sets_bound_in_layout_slots_witness :
    (QueueFamilyIndices.findQueueFamilies sampleDevice).isComplete = true ∧
    initialisedSample.bindsFollowLayouts ∧
    (runOperations [(sampleEnv, .resize 801 600), (sampleEnv, .changeDebugViewIndex 3)]
      initialisedSample).state.bindsFollowLayouts :=
  ⟨by decide,
    (descriptor_sets_bound_in_layout_slots sampleEnv sampleDevice (List.range 36) (by decide)
      []).2.1,
    (descriptor_sets_bound_in_layout_slots sampleEnv sampleDevice (List.range 36) (by decide)
      [(sampleEnv, .resize 801 600), (sampleEnv, .changeDebugViewIndex 3)]).2.2⟩

/-- In a ready state the descriptor pool suffices for the sets allocated from it. -/
theorem Renderer.Ready.poolSuffices {s : Renderer} (h : s.Ready) : s.poolSuffices := by
  obtain ⟨⟨h₁, h₂, h₃, h₄, -, h₆, h₇, -⟩, -⟩ := h
  have hall : ∀ type : Nat, s.descriptorsAllocated type
      = (if VK_DESCRIPTOR_TYPE_UNIFORM_BUFFER = type then 1 else 0)
        + (if VK_DESCRIPTOR_TYPE_COMBINED_IMAGE_SAMPLER = type then 3 else 0)
        + (if VK_DESCRIPTOR_TYPE_STORAGE_BUFFER = type then 3 else 0) := by
    intro type
    unfold Renderer.descriptorsAllocated Renderer.layoutBindings
    rw [h₇]
    simp only [h₁, h₂, h₃, h₄, initialAllocations, createDescriptorSetLayouts, Run.ok,
      List.map, List.filter, List.sum_cons, List.sum_nil, VK_DESCRIPTOR_TYPE_UNIFORM_BUFFER,
      VK_DESCRIPTOR_TYPE_COMBINED_IMAGE_SAMPLER, VK_DESCRIPTOR_TYPE_STORAGE_BUFFER]
    by_cases e₆ : (6 : Nat) = type <;> by_cases e₁ : (1 : Nat) = type <;>
      by_cases e₇ : (7 : Nat) = type <;> simp [e₆, e₁, e₇] <;> omega
  have hcap : (createDescriptorPool {}).state.descriptor_pool
      = some { pPoolSizes :=
                [ { type := VK_DESCRIPTOR_TYPE_UNIFORM_BUFFER, descriptorCount := 4 },
                  { type := VK_DESCRIPTOR_TYPE_COMBINED_IMAGE_SAMPLER, descriptorCount := 3 },
                  { type := VK_DESCRIPTOR_TYPE_STORAGE_BUFFER, descriptorCount := 3 } ]
               maxSets := 4
               flags := 0 } := rfl
  refine ⟨_, h₆.trans hcap, h₇, by rw [h₇]; decide, ?_,
    ⟨by rw [hall]; rfl, rfl⟩, ⟨by rw [hall]; rfl, rfl⟩, ⟨by rw [hall]; rfl, rfl⟩⟩
  intro type
  rw [hall]
  unfold VkDescriptorPoolCreateInfo.capacity
  simp only [List.filter, VK_DESCRIPTOR_TYPE_UNIFORM_BUFFER,
    VK_DESCRIPTOR_TYPE_COMBINED_IMAGE_SAMPLER, VK_DESCRIPTOR_TYPE_STORAGE_BUFFER]
  by_cases e₆ : (6 : Nat) = type <;> by_cases e₁ : (1 : Nat) = type <;>
    by_cases e₇ : (7 : Nat) = type <;> simp [e₆, e₁, e₇] <;> omega

/-- C29. The descriptor pool created by `createDescriptorPool` is large enough for everything
initialisation allocates from it, and nothing is allocated from it afterwards: in the
constructed renderer and in every state reached from it, the sets allocated are the four of
initialisation (object, camera, intermediate, light culling), which does not exceed `maxSets`
= 4, and for every descriptor type the descriptors declared by the four layouts do not exceed
the pool size of that type: 1 of 4 uniform buffers, 3 of 3 combined image samplers, 3 of 3
storage buffers, and none of any other type. -/
theorem descriptor_pool_suffices (env : Env) (physical_device : PhysicalDevice)
    (model_indices : List Nat)
    (h : (QueueFamilyIndices.findQueueFamilies physical_device).isComplete = true)
    (operations : List (Env × Operation)) :
    (VulkanRenderer_Impl.create env physical_device model_indices).error = none ∧
    (VulkanRenderer_Impl.create env physical_device model_indices).state.poolSuffices ∧
    (runOperations operations
      (VulkanRenderer_Impl.create env physical_device model_indices).state
        ).state.poolSuffices :=
  ⟨(VulkanRenderer_Impl.create_ready env physical_device model_indices h).1,
    (VulkanRenderer_Impl.create_ready env physical_device model_indices h).2.1.poolSuffices,
    ((VulkanRenderer_Impl.create_ready env physical_device model_indices h).2.2
      operations).poolSuffices⟩

/-- Witness of C29: the renderer constructed for the sample device, also after a resize. -/
theorem descriptor_pool_suffices_witness :
    (QueueFamilyIndices.findQueueFamilies sampleDevice).isComplete = true ∧
    initialisedSample.poolSuffices ∧
    (runOperations [(sampleEnv, .resize 801 600)] initialisedSample).state.poolSuffices :=
  ⟨by decide,
    (descriptor_pool_suffices sampleEnv sampleDevice (List.range 36) (by decide) []).2.1,
    (descriptor_pool_suffices sampleEnv sampleDevice (List.range 36) (by decide)
      [(sampleEnv, .resize 801 600)]).2.2⟩


/-! ## Claims on the light staging buffer -/

/-- C30. In `updateUniformBuffers`, for every light count `n` of at most
`MAX_POINT_LIGHT_COUNT` and with `pointlight_buffer_size` as `createLights` sets it
(`sizeof(PointLight) * MAX_POINT_LIGHT_COUNT + 16` = 32016), the light staging memory is
mapped from offset 0 over `pointlight_buffer_size` bytes; the host writes into it are the
4-byte count at offset 0 and the `32 * n` bytes of the lights at offset 16; each write ends
within the mapped range; the count ends before the lights begin; and the copy that follows
transfers exactly `pointlight_buffer_size` bytes from offset 0 of the staging buffer to
offset 0 of the light buffer.  `createLights` creates both buffers with that size. -/
theorem light_staging_writes_in_bounds (deltatime : Nat) (r : Renderer) (n : Nat)
    (hn : r.pointlights.length = n) (hcap : (n : Int) ≤ MAX_POINT_LIGHT_COUNT)
    (hsize : r.pointlight_buffer_size
      = sizeof_PointLight * MAX_POINT_LIGHT_COUNT.toNat + sizeof_vec4) :
    mappedRanges .lights_staging_buffer
        (logAdded r (Run.ok (updateUniformBuffers deltatime r)))
      = [(0, r.pointlight_buffer_size)] ∧
    hostWrites .lights_staging_buffer (logAdded r (Run.ok (updateUniformBuffers deltatime r)))
      = [(0, 4), (16, 32 * n)] ∧
    (∀ w ∈ hostWrites .lights_staging_buffer
        (logAdded r (Run.ok (updateUniformBuffers deltatime r))),
      0 ≤ w.1 ∧ w.1 + w.2 ≤ r.pointlight_buffer_size) ∧
    0 + 4 ≤ 16 ∧
    (bufferCopies (logAdded r (Run.ok (updateUniformBuffers deltatime r)))).filter
        (fun c => match c with
          | .copyBuffer src _ _ _ _ => decide (src = .lights_staging_buffer)
          | _ => false)
      = [.copyBuffer .lights_staging_buffer .pointlight_buffer 0 0 r.pointlight_buffer_size] ∧
    r.pointlight_buffer_size = 32016 ∧
    (∀ r₀ : Renderer,
      (createLights r₀).state.pointlight_buffer_size
        = sizeof_PointLight * MAX_POINT_LIGHT_COUNT.toNat + sizeof_vec4 ∧
      (∃ staging light, (createLights r₀).state.lights_staging_buffer = some staging ∧
        staging.size = (createLights r₀).state.pointlight_buffer_size ∧
        (createLights r₀).state.pointlight_buffer = some light ∧
        light.size = (createLights r₀).state.pointlight_buffer_size)) := by
  have hsize' : r.pointlight_buffer_size = 32016 := by rw [hsize]; decide
  have hn' : n ≤ 1000 := by
    have : MAX_POINT_LIGHT_COUNT = 1000 := rfl
    omega
  have hlog : logAdded r (Run.ok (updateUniformBuffers deltatime r)) = uniformUpload r := by
    apply logAdded_of_log
    rw [updateUniformBuffers_eq]
    rfl
  have hw : hostWrites .lights_staging_buffer (uniformUpload r) = [(0, 4), (16, 32 * n)] := by
    have : (sizeof_PointLight * n) % 18446744073709551616 = 32 * n := by
      unfold sizeof_PointLight
      omega
    simp [uniformUpload, hostWrites, hn, this, sizeof_int, sizeof_vec4]
  rw [hlog, hw]
  refine ⟨by simp [uniformUpload, mappedRanges], rfl, ?_, by decide, ?_, hsize', ?_⟩
  · intro w hmem
    simp only [List.mem_cons, List.mem_singleton, List.not_mem_nil, or_false] at hmem
    rcases hmem with rfl | rfl
    · simp only [hsize']; omega
    · simp only [hsize']; omega
  · simp [uniformUpload, bufferCopies, oneShotSubmissions]
  · intro r₀
    obtain ⟨h₁, h₂, h₃⟩ := createLights_buffers r₀
    refine ⟨by rw [h₁]; decide, _, _, h₂, ?_, h₃, ?_⟩
    · rw [h₁]; exact createBuffer_buffer_info_size _ _ _ _
    · rw [h₁]; exact createBuffer_buffer_info_size _ _ _ _

/-- Witness of C30: three lights in a renderer whose light buffer has the size that
`createLights` gives it. -/
theorem light_staging_writes_in_bounds_witness :
    (({ sampleRenderer with pointlights := [(), (), ()] } : Renderer).pointlights.length = 3 ∧
      ((3 : Nat) : Int) ≤ MAX_POINT_LIGHT_COUNT ∧
      ({ sampleRenderer with pointlights := [(), (), ()] } : Renderer).pointlight_buffer_size
        = sizeof_PointLight * MAX_POINT_LIGHT_COUNT.toNat + sizeof_vec4) ∧
    hostWrites .lights_staging_buffer
        (logAdded { sampleRenderer with pointlights := [(), (), ()] }
          (Run.ok (updateUniformBuffers 0 { sampleRenderer with pointlights := [(), (), ()] })))
      = [(0, 4), (16, 32 * 3)] :=
  ⟨⟨rfl, by decide, by decide⟩,
    (light_staging_writes_in_bounds 0 { sampleRenderer with pointlights := [(), (), ()] } 3
      rfl (by decide) (by decide)).2.1⟩


/-! ## Claims on the size-dependent state -/

/-- On an extent side of at least 1 that fits 32 bits the tile count is `(extent - 1) / 16 + 1`
without wrap-around. -/
theorem tileCount_of_pos (extent : Nat) (h₁ : 1 ≤ extent) (h₂ : extent < 4294967296) :
    tileCount extent = (((extent - 1) / 16 + 1 : Nat) : Int) := by
  have hsub : (extent + 4294967296 - 1) % 4294967296 = extent - 1 := by omega
  have hsmall : ((extent - 1) / 16 + 1) % 4294967296 = (extent - 1) / 16 + 1 := by omega
  unfold tileCount toInt32
  rw [hsub, toUInt32_TILE_SIZE, hsmall, hsmall, if_pos (by omega)]

theorem toInt32_of_lt (n : Nat) (h : n < 2147483648) : toInt32 n = (n : Int) := by
  have hsmall : n % 4294967296 = n := by omega
  unfold toInt32
  rw [hsmall, if_pos h]

/-- The visibility buffer of a grid whose sides are at most 2^27 tiles takes 256 bytes per
tile, without wrap-around. -/
theorem visibilityBufferSize_eq (p q : Nat) (hp : p ≤ 134217728) (hq : q ≤ 134217728) :
    visibilityBufferSize (p : Int) (q : Int) = 256 * (p * q) := by
  have h₁ : toUInt64 (p : Int) = p := by unfold toUInt64; omega
  have h₂ : toUInt64 (q : Int) = q := by unfold toUInt64; omega
  have hb₁ : 256 * p ≤ 34359738368 := by omega
  have hb₂ : 256 * p * q ≤ 34359738368 * 134217728 := Nat.mul_le_mul hb₁ hq
  have e : 4 * (63 + 1) * p = 256 * p := by omega
  unfold visibilityBufferSize sizeof_Dummy_VisibleLightsForTile
  rw [h₁, h₂, e, Nat.mod_eq_of_lt (show 256 * p < 18446744073709551616 by omega),
    Nat.mod_eq_of_lt (show 256 * p * q < 18446744073709551616 by omega), Nat.mul_assoc]

/-- A built state whose extent is at least 1x1 and fits an `int` has its size-dependent
state in agreement with the extent. -/
theorem Renderer.Built.sizeAgrees {image_count : Nat} {s : Renderer}
    (h : s.Built image_count) (hfit : s.extentFits) : s.sizeAgrees := by
  obtain ⟨-, -, -, hrow, hcol, hsz, -, -, -, hlc, -, hcb⟩ := h
  obtain ⟨hw₁, hw₂, hh₁, hh₂⟩ := hfit
  have hrow' := tileCount_of_pos _ hw₁ (by omega)
  have hcol' := tileCount_of_pos _ hh₁ (by omega)
  have hwi := toInt32_of_lt _ hw₂
  have hhi := toInt32_of_lt _ hh₂
  refine ⟨?_, ?_, ?_, by decide, ⟨_, hlc, ?_, ?_⟩, ?_⟩
  · rw [hrow]; exact tileCount_eq_ceil _ hw₁ (by omega)
  · rw [hcol]; exact tileCount_eq_ceil _ hh₁ (by omega)
  · rw [hsz, hrow, hcol, hrow', hcol', visibilityBufferSize_eq _ _ (by omega) (by omega)]
    push_cast
    ring
  · show [(((toUInt32 s.tile_count_per_row : Nat) : Int),
      ((toUInt32 s.tile_count_per_col : Nat) : Int), ((1 : Nat) : Int))] = _
    rw [hrow, hcol, toUInt32_tileCount, toUInt32_tileCount]
    rfl
  · show [((toInt32 s.swap_chain_extent.width, toInt32 s.swap_chain_extent.height),
      (s.tile_count_per_row, s.tile_count_per_col))] = _
    rw [hwi, hhi]
  · intro command_buffer hm
    rw [hcb] at hm
    obtain ⟨i, -, rfl⟩ := List.mem_map.mp hm
    show [({ viewport_size := (toInt32 s.swap_chain_extent.width,
        toInt32 s.swap_chain_extent.height)
             tile_nums := (s.tile_count_per_row, s.tile_count_per_col)
             debugview_index := s.debug_view_index } : PushConstantObject)] = _
    rw [hwi, hhi]

/-- After initialisation and after every swapchain rebuild on a device that honours the
creation requests (entered directly, from `changeDebugViewIndex`, from `resize`, or from
`drawFrame` on a stale acquire or present), and in every state reached after construction,
whenever the swapchain extent is at least 1x1 and fits an `int`, the size-dependent recorded
state agrees with it: the tile grid is (ceil(width/16), ceil(height/16)); the visibility
buffer size is 256 bytes (four bytes times one count plus 63 indices) times the number of
tiles; the light-culling dispatch has one workgroup per tile; the push constants of the
light-culling command buffer and of every forward command buffer carry the extent and the
tile grid, the forward ones also the current debug view index.  In a rebuild the tile grid is
computed (`createLightVisibilityBuffer`) before the forward and the light-culling command
buffers are recorded. -/
theorem sizeAgrees_of_fitting_extent (env : Env) (physical_device : PhysicalDevice)
    (model_indices : List Nat) (r : Renderer)
    (h : (QueueFamilyIndices.findQueueFamilies physical_device).isComplete = true) :
    ((initVulkan env physical_device model_indices r).state.extentFits →
      (initVulkan env physical_device model_indices r).state.sizeAgrees) ∧
    ((recreateSwapChain env r).state.extentFits → (recreateSwapChain env r).state.sizeAgrees) ∧
    (∀ target_view, (changeDebugViewIndex env target_view r).state.extentFits →
      (changeDebugViewIndex env target_view r).state.sizeAgrees ∧
      (changeDebugViewIndex env target_view r).state.debug_view_index
        = Int.tmod target_view 5) ∧
    (∀ width height, width ≠ 0 ∧ height ≠ 0 → (resize env width height r).state.extentFits →
      (resize env width height r).state.sizeAgrees) ∧
    (env.aquiring_result = VK_ERROR_OUT_OF_DATE_KHR → (drawFrame env r).state.extentFits →
      (drawFrame env r).state.sizeAgrees) ∧
    ((env.aquiring_result = VK_SUCCESS ∨ env.aquiring_result = VK_SUBOPTIMAL_KHR) ∧
      env.submit_result = VK_SUCCESS ∧
      (env.present_result = VK_ERROR_OUT_OF_DATE_KHR ∨ env.present_result = VK_SUBOPTIMAL_KHR) →
      (drawFrame env r).state.extentFits → (drawFrame env r).state.sizeAgrees) ∧
    (∀ operations : List (Env × Operation),
      (runOperations operations
        (VulkanRenderer_Impl.create env physical_device model_indices).state
          ).state.extentFits →
      (runOperations operations
        (VulkanRenderer_Impl.create env physical_device model_indices).state
          ).state.sizeAgrees) ∧
    callSequence (logAdded r (recreateSwapChain env r)) = fullRebuildSequence ∧
    fullRebuildSequence.indexOf (.enter .createLightVisibilityBuffer)
      < fullRebuildSequence.indexOf (.enter .createGraphicsCommandBuffers) ∧
    fullRebuildSequence.indexOf (.enter .createLightVisibilityBuffer)
      < fullRebuildSequence.indexOf (.enter .createLightCullingCommandBuffer) := by
  refine ⟨(initVulkan_built env _ _ r h).sizeAgrees, (recreateSwapChain_built env r).sizeAgrees,
    fun target_view hfit => ⟨(recreateSwapChain_built env _).sizeAgrees hfit,
      changeDebugViewIndex_index env target_view r⟩, ?_, ?_, ?_, ?_, ?_, by decide, by decide⟩
  · rintro width height ⟨hw, hh⟩
    have hz : ¬ (width = 0 ∨ height = 0) := by
      rintro (h' | h')
      · exact hw h'
      · exact hh h'
    simp only [resize, if_neg hz]
    exact (recreateSwapChain_built env _).sizeAgrees
  · intro hacq
    rw [drawFrame_out_of_date env r hacq]
    exact (recreateSwapChain_built env _).sizeAgrees
  · rintro ⟨hacq, hsub, hpres⟩
    rw [drawFrame_acquired env r hacq, if_neg (not_not.mpr hsub), if_pos hpres]
    exact (recreateSwapChain_built env _).sizeAgrees
  · intro operations
    obtain ⟨-, n, hb⟩ :=
      (VulkanRenderer_Impl.create_ready env physical_device model_indices h).2.2 operations
    exact hb.sizeAgrees
  · obtain ⟨-, added, hl, -, hc⟩ := recreateSwapChain_full env r
    rw [logAdded_of_log r _ _ hl]
    exact hc

/-- C28 fails in the code.  `resize` returns at once when the window reports a width or a
height of zero (line 534), but the rebuild that `drawFrame` starts on a stale acquire has no
such guard (lines 2415-2419).  For a surface whose extent has become 0x0 and a device that
still creates the swapchain, the frame returns normally, the swapchain extent is 0x0, and
`(extent - 1) / 16 + 1` wraps around in `uint32_t`: the tile grid is 268435456 x 268435456
instead of 0 x 0, and the visibility buffer size, 256 bytes times the number of tiles,
wraps around to 0 in 64 bits. -/
theorem stale_acquire_on_empty_surface_disagrees :
    emptySurfaceEnv.aquiring_result = VK_ERROR_OUT_OF_DATE_KHR ∧
    emptySurfaceEnv.capabilities.asReported ∧
    (drawFrame emptySurfaceEnv rebuiltSample).error = none ∧
    rebuilds (frameLog emptySurfaceEnv rebuiltSample) = 1 ∧
    (drawFrame emptySurfaceEnv rebuiltSample).state.swap_chain_extent
      = { width := 0, height := 0 } ∧
    (drawFrame emptySurfaceEnv rebuiltSample).state.tile_count_per_row = 268435456 ∧
    (drawFrame emptySurfaceEnv rebuiltSample).state.tile_count_per_col = 268435456 ∧
    (drawFrame emptySurfaceEnv rebuiltSample).state.light_visibility_buffer_size = 0 ∧
    ¬ (drawFrame emptySurfaceEnv rebuiltSample).state.sizeAgrees ∧
    resize emptySurfaceEnv 0 0 rebuiltSample = Run.ok rebuiltSample := by
  have hrow : (drawFrame emptySurfaceEnv rebuiltSample).state.tile_count_per_row
      = 268435456 := by decide
  have hwidth : (drawFrame emptySurfaceEnv rebuiltSample).state.swap_chain_extent.width
      = 0 := by decide
  refine ⟨rfl, Or.inr (by decide), by decide, by decide, by decide, hrow, by decide,
    by decide, ?_, rfl⟩
  intro hagree
  have h := hagree.1
  rw [hrow, hwidth] at h
  norm_num at h


/-! ## Claims on the resources the two queues use -/

theorem descriptorTable_append (events added : List Event) :
    descriptorTable (events ++ added)
      = added.foldl descriptorTable.step (descriptorTable events) := by
  unfold descriptorTable
  rw [List.foldl_append]

theorem Run.bind_post (P : Renderer → Prop) (x : Run) (f : Renderer → Run)
    (hx : x.error = none ∧ P x.state) (hf : ∀ s, P s → (f s).error = none ∧ P (f s).state) :
    (x.bind f).error = none ∧ P (x.bind f).state := by
  rw [Run.bind_of_ok x f hx.1]
  exact hf _ hx.2

theorem descriptorsWritten_of_log {s s' : Renderer} (added : List Event)
    (h : s.DescriptorsWritten) (hl : s'.log = s.log ++ added)
    (ha : added.foldl descriptorTable.step initialDescriptorTable = initialDescriptorTable) :
    s'.DescriptorsWritten := by
  unfold Renderer.DescriptorsWritten at h ⊢
  rw [hl, descriptorTable_append, h, ha]

theorem createLightVisibilityBuffer_written (s : Renderer) (h : s.DescriptorsWritten) :
    (createLightVisibilityBuffer s).error = none ∧
      (createLightVisibilityBuffer s).state.DescriptorsWritten := by
  refine ⟨rfl, ?_⟩
  unfold Renderer.DescriptorsWritten at h ⊢
  simp only [createLightVisibilityBuffer_eq, Run.ok, Renderer.logEvent]
  rw [descriptorTable_append, descriptorTable_append, h]
  rfl

theorem updateIntermediateDescriptorSet_written (s : Renderer) (h : s.DescriptorsWritten) :
    (updateIntermediateDescriptorSet s).error = none ∧
      (updateIntermediateDescriptorSet s).state.DescriptorsWritten := by
  refine ⟨rfl, ?_⟩
  unfold Renderer.DescriptorsWritten at h ⊢
  simp only [updateIntermediateDescriptorSet, Run.ok, Renderer.logEvent]
  rw [descriptorTable_append, descriptorTable_append, h]
  rfl

/-- A rebuild writes into the descriptor sets what they already hold. -/
theorem recreateSwapChain_written (env : Env) (r : Renderer) (h : r.DescriptorsWritten) :
    (recreateSwapChain env r).state.DescriptorsWritten := by
  unfold recreateSwapChain
  simp only []
  refine (Run.bind_post Renderer.DescriptorsWritten _ createDepthPrePassCommandBuffer ?_
    (fun s hs => ⟨rfl, descriptorsWritten_of_log _ hs
      (createDepthPrePassCommandBuffer_log s) rfl⟩)).2
  refine Run.bind_post Renderer.DescriptorsWritten _ createLightCullingCommandBuffer ?_
    (fun s hs => ⟨rfl, descriptorsWritten_of_log _ hs
      (createLightCullingCommandBuffer_log s) rfl⟩)
  refine Run.bind_post Renderer.DescriptorsWritten _ createGraphicsCommandBuffers ?_
    (fun s hs => ⟨createGraphicsCommandBuffers_error s, descriptorsWritten_of_log _ hs
      (createGraphicsCommandBuffers_log s) rfl⟩)
  refine Run.bind_post Renderer.DescriptorsWritten _ updateIntermediateDescriptorSet ?_
    updateIntermediateDescriptorSet_written
  refine Run.bind_post Renderer.DescriptorsWritten _ createLightVisibilityBuffer ?_
    createLightVisibilityBuffer_written
  refine Run.bind_post Renderer.DescriptorsWritten _ createFrameBuffers ?_
    (fun s hs => ⟨createFrameBuffers_error s,
      descriptorsWritten_of_log _ hs (createFrameBuffers_log s) rfl⟩)
  refine Run.bind_post Renderer.DescriptorsWritten _ createDepthResources ?_
    (fun s hs => ⟨rfl, descriptorsWritten_of_log _ hs (createDepthResources_log s) rfl⟩)
  refine Run.bind_post Renderer.DescriptorsWritten _ createGraphicsPipelines ?_
    (fun s hs => ⟨rfl, descriptorsWritten_of_log _ hs (createGraphicsPipelines_log s) rfl⟩)
  refine Run.bind_post Renderer.DescriptorsWritten _ createRenderPasses ?_
    (fun s hs => ⟨rfl, descriptorsWritten_of_log _ hs (createRenderPasses_log s) rfl⟩)
  refine Run.bind_post Renderer.DescriptorsWritten _ createSwapChainImageViews ?_
    (fun s hs => ⟨createSwapChainImageViews_error s,
      descriptorsWritten_of_log _ hs (createSwapChainImageViews_log s) rfl⟩)
  refine ⟨rfl, descriptorsWritten_of_log
    [.enter .recreateSwapChain, .vkDeviceWaitIdle, .enter .createSwapChain] h ?_ rfl⟩
  simp [createSwapChain_eq, Run.ok, Renderer.logEvent]

theorem Renderer.descriptorsWritten_with_log {s : Renderer} (added : List Event)
    (h : s.DescriptorsWritten)
    (ha : added.foldl descriptorTable.step initialDescriptorTable = initialDescriptorTable) :
    Renderer.DescriptorsWritten { s with log := s.log ++ added } :=
  descriptorsWritten_of_log added h rfl ha

theorem drawFrame_written (env : Env) (r : Renderer) (h : r.DescriptorsWritten) :
    (drawFrame env r).state.DescriptorsWritten := by
  by_cases h₁ : env.aquiring_result = VK_ERROR_OUT_OF_DATE_KHR
  · rw [drawFrame_out_of_date env r h₁]
    exact recreateSwapChain_written env _
      (Renderer.descriptorsWritten_with_log [frameAcquire] h rfl)
  by_cases h₂ : env.aquiring_result = VK_SUCCESS ∨ env.aquiring_result = VK_SUBOPTIMAL_KHR
  · rw [drawFrame_acquired env r h₂]
    split_ifs
    · exact Renderer.descriptorsWritten_with_log _ h rfl
    · exact recreateSwapChain_written env _ (Renderer.descriptorsWritten_with_log _ h rfl)
    · exact Renderer.descriptorsWritten_with_log _ h rfl
    · exact Renderer.descriptorsWritten_with_log _ h rfl
  · rw [drawFrame_acquire_failed env r h₁ (fun h => h₂ (Or.inl h)) (fun h => h₂ (Or.inr h))]
    exact Renderer.descriptorsWritten_with_log [frameAcquire] h rfl

theorem Operation.run_written (env : Env) (operation : Operation) (r : Renderer)
    (h : r.DescriptorsWritten) : (operation.run env r).state.DescriptorsWritten := by
  cases operation with
  | requestDraw deltatime =>
    show (drawFrame env (updateUniformBuffers deltatime r)).state.DescriptorsWritten
    rw [updateUniformBuffers_eq]
    exact drawFrame_written env _ (Renderer.descriptorsWritten_with_log _ h rfl)
  | resize width height =>
    show (ForwardPlus.resize env width height r).state.DescriptorsWritten
    unfold ForwardPlus.resize
    split_ifs
    · exact h
    · exact recreateSwapChain_written env _ h
  | setCamera view campos => exact h
  | changeDebugViewIndex target_view => exact recreateSwapChain_written env _ h

theorem runOperations_written (operations : List (Env × Operation)) (r : Renderer)
    (h : r.DescriptorsWritten) : (runOperations operations r).state.DescriptorsWritten := by
  induction operations generalizing r with
  | nil => exact h
  | cons step rest ih =>
    obtain ⟨env, operation⟩ := step
    unfold runOperations Run.bind
    have h₁ := Operation.run_written env operation r h
    split
    · exact ih _ h₁
    · exact h₁

theorem Run.bind_step (P Q : Renderer → Prop) (x : Run) (f : Renderer → Run)
    (hx : x.error = none ∧ P x.state) (hf : ∀ s, P s → (f s).error = none ∧ Q (f s).state) :
    (x.bind f).error = none ∧ Q (x.bind f).state := by
  rw [Run.bind_of_ok x f hx.1]
  exact hf _ hx.2

theorem descriptorTable_kept (table : List ((DescriptorSetId × Nat) × Resource))
    {s s' : Renderer} (added : List Event) (hs : descriptorTable s.log = table)
    (hl : s'.log = s.log ++ added)
    (ha : added.foldl descriptorTable.step table = table) :
    descriptorTable s'.log = table := by
  rw [hl, descriptorTable_append, hs, ha]

theorem createUniformBuffers_table (s : Renderer) (hs : descriptorTable s.log = []) :
    descriptorTable (createUniformBuffers s).state.log = [] := by
  simp only [createUniformBuffers_eq, copyBuffer, Run.ok, Renderer.logEvent]
  rw [descriptorTable_append, descriptorTable_append, descriptorTable_append,
    descriptorTable_append, hs]
  rfl

theorem createSceneObjectDescriptorSet_table (s : Renderer) (hs : descriptorTable s.log = []) :
    descriptorTable (createSceneObjectDescriptorSet s).state.log
      = initialDescriptorTable.take 3 := by
  simp only [createSceneObjectDescriptorSet_eq, Run.ok, Renderer.logEvent]
  rw [descriptorTable_append, hs]
  rfl

theorem createCameraDescriptorSet_table (s : Renderer)
    (hs : descriptorTable s.log = initialDescriptorTable.take 3) :
    descriptorTable (createCameraDescriptorSet s).state.log
      = initialDescriptorTable.take 4 := by
  simp only [createCameraDescriptorSet, Run.ok, Renderer.logEvent]
  rw [descriptorTable_append, hs]
  rfl

theorem updateIntermediateDescriptorSet_table (s : Renderer)
    (hs : descriptorTable s.log = initialDescriptorTable.take 4) :
    descriptorTable (updateIntermediateDescriptorSet s).state.log
      = initialDescriptorTable.take 5 := by
  simp only [updateIntermediateDescriptorSet, Run.ok, Renderer.logEvent]
  rw [descriptorTable_append, descriptorTable_append, hs]
  rfl

theorem createLightVisibilityBuffer_table (s : Renderer)
    (hs : descriptorTable s.log = initialDescriptorTable.take 5) :
    descriptorTable (createLightVisibilityBuffer s).state.log = initialDescriptorTable := by
  simp only [createLightVisibilityBuffer_eq, Run.ok, Renderer.logEvent]
  rw [descriptorTable_append, descriptorTable_append, hs]
  rfl

/-- Initialisation of a renderer with an empty log leaves the descriptor sets written. -/
theorem initVulkan_written (env : Env) (physical_device : PhysicalDevice)
    (model_indices : List Nat) (r : Renderer)
    (h : (QueueFamilyIndices.findQueueFamilies physical_device).isComplete = true)
    (hr : r.log = []) :
    (initVulkan env physical_device model_indices r).state.DescriptorsWritten := by
  unfold initVulkan
  refine (Run.bind_step (fun s => descriptorTable s.log = initialDescriptorTable)
    (fun s => descriptorTable s.log = initialDescriptorTable) _
    createDepthPrePassCommandBuffer ?_
    (fun s hs => ⟨rfl, descriptorTable_kept _ _ hs (createDepthPrePassCommandBuffer_log s) rfl⟩)).2
  refine Run.bind_step (fun s => descriptorTable s.log = initialDescriptorTable)
    (fun s => descriptorTable s.log = initialDescriptorTable) _
    createLightCullingCommandBuffer ?_
    (fun s hs => ⟨rfl, descriptorTable_kept _ _ hs (createLightCullingCommandBuffer_log s) rfl⟩)
  refine Run.bind_step (fun s => descriptorTable s.log = initialDescriptorTable)
    (fun s => descriptorTable s.log = initialDescriptorTable) _
    createGraphicsCommandBuffers ?_
    (fun s hs => ⟨createGraphicsCommandBuffers_error s,
      descriptorTable_kept _ _ hs (createGraphicsCommandBuffers_log s) rfl⟩)
  refine Run.bind_step (fun s => descriptorTable s.log = (initialDescriptorTable.take 5))
    (fun s => descriptorTable s.log = initialDescriptorTable) _
    createLightVisibilityBuffer ?_
    (fun s hs => ⟨rfl, createLightVisibilityBuffer_table s hs⟩)
  refine Run.bind_step (fun s => descriptorTable s.log = (initialDescriptorTable.take 5))
    (fun s => descriptorTable s.log = (initialDescriptorTable.take 5)) _
    createLigutCullingDescriptorSet ?_
    (fun s hs => ⟨rfl, descriptorTable_kept _ [] hs (List.append_nil _).symm rfl⟩)
  refine Run.bind_step (fun s => descriptorTable s.log = (initialDescriptorTable.take 4))
    (fun s => descriptorTable s.log = (initialDescriptorTable.take 5)) _
    updateIntermediateDescriptorSet ?_
    (fun s hs => ⟨rfl, updateIntermediateDescriptorSet_table s hs⟩)
  refine Run.bind_step (fun s => descriptorTable s.log = (initialDescriptorTable.take 4))
    (fun s => descriptorTable s.log = (initialDescriptorTable.take 4)) _
    createIntermediateDescriptorSet ?_
    (fun s hs => ⟨rfl, descriptorTable_kept _ [] hs (List.append_nil _).symm rfl⟩)
  refine Run.bind_step (fun s => descriptorTable s.log = (initialDescriptorTable.take 3))
    (fun s => descriptorTable s.log = (initialDescriptorTable.take 4)) _
    createCameraDescriptorSet ?_
    (fun s hs => ⟨rfl, createCameraDescriptorSet_table s hs⟩)
  refine Run.bind_step (fun s => descriptorTable s.log = [])
    (fun s => descriptorTable s.log = (initialDescriptorTable.take 3)) _
    createSceneObjectDescriptorSet ?_
    (fun s hs => ⟨rfl, createSceneObjectDescriptorSet_table s hs⟩)
  refine Run.bind_step (fun s => descriptorTable s.log = [])
    (fun s => descriptorTable s.log = []) _
    createDescriptorPool ?_
    (fun s hs => ⟨rfl, descriptorTable_kept _ [] hs (List.append_nil _).symm rfl⟩)
  refine Run.bind_step (fun s => descriptorTable s.log = [])
    (fun s => descriptorTable s.log = []) _
    createLights ?_
    (fun s hs => ⟨rfl, descriptorTable_kept _ [] hs (List.append_nil _).symm rfl⟩)
  refine Run.bind_step (fun s => descriptorTable s.log = [])
    (fun s => descriptorTable s.log = []) _
    createUniformBuffers ?_
    (fun s hs => ⟨rfl, createUniformBuffers_table s hs⟩)
  refine Run.bind_step (fun s => descriptorTable s.log = [])
    (fun s => descriptorTable s.log = []) _
    (fun r => Run.ok { r with vertex_indices := model_indices }) ?_
    (fun s hs => ⟨rfl, descriptorTable_kept _ [] hs (List.append_nil _).symm rfl⟩)
  refine Run.bind_step (fun s => descriptorTable s.log = [])
    (fun s => descriptorTable s.log = []) _
    createTextureSampler ?_
    (fun s hs => ⟨rfl, descriptorTable_kept _ [] hs (List.append_nil _).symm rfl⟩)
  refine Run.bind_step (fun s => descriptorTable s.log = [])
    (fun s => descriptorTable s.log = []) _
    createFrameBuffers ?_
    (fun s hs => ⟨createFrameBuffers_error s,
      descriptorTable_kept _ _ hs (createFrameBuffers_log s) rfl⟩)
  refine Run.bind_step (fun s => descriptorTable s.log = [])
    (fun s => descriptorTable s.log = []) _
    createDepthResources ?_
    (fun s hs => ⟨rfl, descriptorTable_kept _ _ hs (createDepthResources_log s) rfl⟩)
  refine Run.bind_step (fun s => descriptorTable s.log = [])
    (fun s => descriptorTable s.log = []) _
    createCommandPool ?_
    (fun s hs => ⟨rfl, descriptorTable_kept _ [] hs (List.append_nil _).symm rfl⟩)
  refine Run.bind_step (fun s => descriptorTable s.log = [])
    (fun s => descriptorTable s.log = []) _
    createComputePipeline ?_
    (fun s hs => ⟨rfl, descriptorTable_kept _ [] hs (List.append_nil _).symm rfl⟩)
  refine Run.bind_step (fun s => descriptorTable s.log = [])
    (fun s => descriptorTable s.log = []) _
    createGraphicsPipelines ?_
    (fun s hs => ⟨rfl, descriptorTable_kept _ _ hs (createGraphicsPipelines_log s) rfl⟩)
  refine Run.bind_step (fun s => descriptorTable s.log = [])
    (fun s => descriptorTable s.log = []) _
    createDescriptorSetLayouts ?_
    (fun s hs => ⟨rfl, descriptorTable_kept _ [] hs (List.append_nil _).symm rfl⟩)
  refine Run.bind_step (fun s => descriptorTable s.log = [])
    (fun s => descriptorTable s.log = []) _
    createRenderPasses ?_
    (fun s hs => ⟨rfl, descriptorTable_kept _ _ hs (createRenderPasses_log s) rfl⟩)
  refine Run.bind_step (fun s => descriptorTable s.log = [])
    (fun s => descriptorTable s.log = []) _
    createSwapChainImageViews ?_
    (fun s hs => ⟨createSwapChainImageViews_error s,
      descriptorTable_kept _ _ hs (createSwapChainImageViews_log s) rfl⟩)
  refine Run.bind_step (fun s => descriptorTable s.log = [])
    (fun s => descriptorTable s.log = []) _
    (createSwapChain env) ?_
    (fun s hs => ⟨rfl, descriptorTable_kept _ _ hs (createSwapChain_log env s) rfl⟩)
  rw [initVulkan_start _ _ h]
  exact ⟨rfl, (congrArg descriptorTable hr).trans rfl⟩

theorem VulkanRenderer_Impl.create_written (env : Env) (physical_device : PhysicalDevice)
    (model_indices : List Nat)
    (h : (QueueFamilyIndices.findQueueFamilies physical_device).isComplete = true) :
    (VulkanRenderer_Impl.create env physical_device model_indices).state.DescriptorsWritten :=
  initVulkan_written env _ _ _ h rfl


theorem forward_command_buffer_lookup (s : Renderer) (hrec : s.Recorded) (i : Nat)
    (hi : i < s.swap_chain_framebuffers.length) :
    s.commandBuffer (.command_buffers i) = some (forwardCommandBuffer s i) := by
  unfold Renderer.commandBuffer
  rw [hrec.2.2]
  simp [List.getElem?_map, List.getElem?_range', hi]

/-- The command buffers one frame hands to the graphics queue, in a state whose command
buffers are recorded, when the acquired image index names a framebuffer. -/
theorem submittedTo_graphics_frame (s : Renderer) (hrec : s.Recorded) (env : Env)
    (hacq : env.aquiring_result = VK_SUCCESS ∨ env.aquiring_result = VK_SUBOPTIMAL_KHR)
    (hi : env.image_index < s.swap_chain_framebuffers.length) :
    submittedTo .graphics_queue s (frameLog env s)
      = [{ flags := VK_COMMAND_BUFFER_USAGE_SIMULTANEOUS_USE_BIT
           commands := createDepthPrePassCommandBuffer.commands s },
         forwardCommandBuffer s env.image_index] := by
  obtain ⟨added, hl, hs, -, -⟩ := frameLog_acquired env s hacq
  have hsub : submissions (frameLog env s) = submissions [depthPrePassSubmission,
      lightCullingSubmission, forwardSubmission env.image_index] := by
    rw [hl, submissions_append, hs, List.append_nil]; rfl
  have hf := forward_command_buffer_lookup s hrec env.image_index hi
  have hd : s.commandBuffer .depth_prepass_command_buffer
      = some { flags := VK_COMMAND_BUFFER_USAGE_SIMULTANEOUS_USE_BIT
               commands := createDepthPrePassCommandBuffer.commands s } := hrec.2.1
  simp [submittedTo, hsub, submissions, depthPrePassSubmission, lightCullingSubmission,
    forwardSubmission, hf, hd]

/-- The resources the two queues refer to in one frame. -/
theorem referencedOn_frame (s : Renderer) (hrec : s.Recorded) (hw : s.DescriptorsWritten)
    (env : Env)
    (hacq : env.aquiring_result = VK_SUCCESS ∨ env.aquiring_result = VK_SUBOPTIMAL_KHR)
    (hi : env.image_index < s.swap_chain_framebuffers.length) :
    referencedOn .compute_queue s env
      = [ .buffer .light_visibility_buffer, .buffer .pointlight_buffer,
          .buffer .light_visibility_buffer, .buffer .pointlight_buffer,
          .buffer .camera_uniform_buffer, .image .pre_pass_depth_image,
          .buffer .light_visibility_buffer, .buffer .pointlight_buffer ] ∧
    referencedOn .graphics_queue s env
      = [ .image .pre_pass_depth_image, .buffer .object_uniform_buffer, .image .texture_image,
          .image .normalmap_image, .buffer .camera_uniform_buffer, .buffer .vertex_buffer,
          .buffer .index_buffer,
          .swap_chain_image env.image_index, .image .depth_image, .buffer .vertex_buffer,
          .buffer .index_buffer, .buffer .object_uniform_buffer, .image .texture_image,
          .image .normalmap_image, .buffer .camera_uniform_buffer,
          .buffer .light_visibility_buffer, .buffer .pointlight_buffer,
          .image .pre_pass_depth_image, .image .pre_pass_depth_image ] ∧
    boundForLightCulling s
      = [ .buffer .light_visibility_buffer, .buffer .pointlight_buffer,
          .buffer .camera_uniform_buffer, .image .pre_pass_depth_image ] := by
  unfold Renderer.DescriptorsWritten at hw
  refine ⟨?_, ?_, ?_⟩
  · unfold referencedOn
    rw [(submittedTo_frame s hrec env hacq).1, hw]
    rfl
  · unfold referencedOn
    rw [submittedTo_graphics_frame s hrec env hacq hi, hw]
    rfl
  · unfold boundForLightCulling
    rw [hrec.1, hw]
    rfl

/-- C23, as stated, fails: in a frame of the renderer constructed for the sample device, the
camera buffer is referred to by the light-culling command buffer on the compute queue (its
descriptor set is bound in slot 1) and by the command buffers on the graphics queue, and so
is the pre-pass depth image (intermediate set on both queues); neither is the light buffer or
the visibility buffer, and both are bound in the light-culling command buffer's descriptor
sets without being used by the compute queue alone. -/
theorem camera_buffer_and_depth_image_used_by_both_queues :
    (Resource.buffer .camera_uniform_buffer ∈ referencedOn .compute_queue initialisedSample sampleEnv ∧
      Resource.buffer .camera_uniform_buffer
        ∈ referencedOn .graphics_queue initialisedSample sampleEnv ∧
      Resource.buffer .camera_uniform_buffer ∈ boundForLightCulling initialisedSample) ∧
    (Resource.image .pre_pass_depth_image ∈ referencedOn .compute_queue initialisedSample sampleEnv ∧
      Resource.image .pre_pass_depth_image
        ∈ referencedOn .graphics_queue initialisedSample sampleEnv ∧
      Resource.image .pre_pass_depth_image ∈ boundForLightCulling initialisedSample) ∧
    ¬ (∀ x, x ∈ referencedOn .compute_queue initialisedSample sampleEnv →
        x ∈ referencedOn .graphics_queue initialisedSample sampleEnv →
        x = .buffer .pointlight_buffer ∨ x = .buffer .light_visibility_buffer) := by
  have hready := (VulkanRenderer_Impl.create_ready sampleEnv sampleDevice (List.range 36)
    (by decide)).2.1
  have hw := VulkanRenderer_Impl.create_written sampleEnv sampleDevice (List.range 36)
    (by decide)
  obtain ⟨-, n, hb⟩ := hready
  have hi : sampleEnv.image_index < initialisedSample.swap_chain_framebuffers.length := by
    decide
  obtain ⟨hc, hg, hl⟩ := referencedOn_frame initialisedSample hb.2.2.2.2.2.2.2.2.2 hw sampleEnv
    (Or.inl rfl) hi
  rw [hc, hg, hl]
  refine ⟨by decide, by decide, ?_⟩
  intro hall
  have := hall (.buffer .camera_uniform_buffer) (by decide) (by decide)
  revert this
  decide


/-- C23 (amended). In every state reached after construction and every frame that submits
(the acquire succeeds and the acquired image index names a framebuffer), the resources
referred to both by the command buffer submitted to the compute queue and by a command buffer
submitted to the graphics queue are exactly four: the light buffer, the visibility buffer,
the camera buffer and the pre-pass depth image.  These four are also all that the descriptor
sets bound in the light-culling command buffer hold, so none of the resources bound there is
used by the compute queue alone. -/
theorem resources_shared_by_the_two_queues (env : Env) (physical_device : PhysicalDevice)
    (model_indices : List Nat)
    (h : (QueueFamilyIndices.findQueueFamilies physical_device).isComplete = true)
    (operations : List (Env × Operation)) (env' : Env)
    (hacq : env'.aquiring_result = VK_SUCCESS ∨ env'.aquiring_result = VK_SUBOPTIMAL_KHR)
    (hi : env'.image_index < (runOperations operations
      (VulkanRenderer_Impl.create env physical_device model_indices).state
        ).state.swap_chain_framebuffers.length) :
    (∀ x,
      (x ∈ referencedOn .compute_queue (runOperations operations
          (VulkanRenderer_Impl.create env physical_device model_indices).state).state env' ∧
        x ∈ referencedOn .graphics_queue (runOperations operations
          (VulkanRenderer_Impl.create env physical_device model_indices).state).state env')
      ↔ x ∈ [ Resource.buffer .pointlight_buffer, .buffer .light_visibility_buffer,
              .buffer .camera_uniform_buffer, .image .pre_pass_depth_image ]) ∧
    (∀ x,
      x ∈ boundForLightCulling (runOperations operations
          (VulkanRenderer_Impl.create env physical_device model_indices).state).state
      ↔ x ∈ [ Resource.buffer .pointlight_buffer, .buffer .light_visibility_buffer,
              .buffer .camera_uniform_buffer, .image .pre_pass_depth_image ]) ∧
    (∀ x,
      x ∈ boundForLightCulling (runOperations operations
          (VulkanRenderer_Impl.create env physical_device model_indices).state).state →
      x ∈ referencedOn .graphics_queue (runOperations operations
          (VulkanRenderer_Impl.create env physical_device model_indices).state).state env') := by
  have hready := (VulkanRenderer_Impl.create_ready env physical_device model_indices h).2.2
    operations
  have hw := runOperations_written operations _
    (VulkanRenderer_Impl.create_written env physical_device model_indices h)
  generalize (runOperations operations
    (VulkanRenderer_Impl.create env physical_device model_indices).state).state = s
    at hready hw hi ⊢
  obtain ⟨-, n, hb⟩ := hready
  obtain ⟨hc, hg, hl⟩ := referencedOn_frame s hb.2.2.2.2.2.2.2.2.2 hw env' hacq hi
  rw [hc, hg, hl]
  refine ⟨fun x => ⟨?_, ?_⟩, fun x => ⟨?_, ?_⟩, fun x => ?_⟩
  · rintro ⟨hx, -⟩
    simp only [List.mem_cons, List.mem_singleton, List.not_mem_nil, or_false] at hx
    rcases hx with rfl | rfl | rfl | rfl | rfl | rfl | rfl | rfl <;> simp
  · intro hx
    simp only [List.mem_cons, List.mem_singleton, List.not_mem_nil, or_false] at hx
    rcases hx with rfl | rfl | rfl | rfl <;> exact ⟨by simp, by simp⟩
  · intro hx
    simp only [List.mem_cons, List.mem_singleton, List.not_mem_nil, or_false] at hx
    rcases hx with rfl | rfl | rfl | rfl <;> simp
  · intro hx
    simp only [List.mem_cons, List.mem_singleton, List.not_mem_nil, or_false] at hx
    rcases hx with rfl | rfl | rfl | rfl <;> simp
  · intro hx
    simp only [List.mem_cons, List.mem_singleton, List.not_mem_nil, or_false] at hx
    rcases hx with rfl | rfl | rfl | rfl <;> simp

/-- Witness of C23 (amended): a frame of the renderer constructed for the sample device. -/
theorem resources_shared_by_the_two_queues_witness :
    (QueueFamilyIndices.findQueueFamilies sampleDevice).isComplete = true ∧
    (sampleEnv.aquiring_result = VK_SUCCESS ∨ sampleEnv.aquiring_result = VK_SUBOPTIMAL_KHR) ∧
    sampleEnv.image_index < (runOperations []
      (VulkanRenderer_Impl.create sampleEnv sampleDevice (List.range 36)).state
        ).state.swap_chain_framebuffers.length ∧
    ∀ x,
      (x ∈ referencedOn .compute_queue (runOperations []
          (VulkanRenderer_Impl.create sampleEnv sampleDevice (List.range 36)).state).state
            sampleEnv ∧
        x ∈ referencedOn .graphics_queue (runOperations []
          (VulkanRenderer_Impl.create sampleEnv sampleDevice (List.range 36)).state).state
            sampleEnv)
      ↔ x ∈ [ Resource.buffer .pointlight_buffer, .buffer .light_visibility_buffer,
              .buffer .camera_uniform_buffer, .image .pre_pass_depth_image ] :=
  ⟨by decide, Or.inl rfl, by decide,
    (resources_shared_by_the_two_queues sampleEnv sampleDevice (List.range 36) (by decide) []
      sampleEnv (Or.inl rfl) (by decide)).1⟩


/-! ## Claims on the layout of the pre-pass depth image -/

end ForwardPlus
